import Mathlib

/-!
Training-session lifecycle of the darts training backend.

A shallow embedding of `internal/models/training.go`,
`internal/services/trainings.go` and `internal/services/games.go`, and of the error mapping of
the update handlers in `internal/handlers/trainings.go` and `internal/handlers/games.go`.

Modelling conventions.

* `uuid.UUID` is `Nat` (`uuid.Nil` is `0`), `time.Time` is `Nat`, Go `int` is `Int`
  (the code only compares and stores scores).
* A stored or reported `float64` cost is the rational number it denotes (`ℚ`; the statements
  hold for every rational, the float64 values among them).  The one place where the code
  computes with `float64`, the running total of `GetTrainingCosts`, uses the type `F64` and
  its addition `F64.add`: the exact sum rounded to the nearest float64, ties to even, with
  overflow to an infinity.
* A Go pointer field `*T` is `Option T`.  Where the code dereferences a pointer without a nil
  check (`GetTrainingCosts`), the result is an `Option` whose `none` is the nil-pointer panic.
* The `gorm.DB` handle is the explicit store `DB`: one list of rows per table, in table order.
  Every service method takes the store and returns its result together with the store after the
  call.  A query that finds no row and an insert of a game whose game mode id names no game
  mode (the foreign key of `game_mode_id`, see `DB.createTrainingGame`) are the store outcomes
  the services can run into; apart from these, store operations do not fail (no connection
  loss, and the other references a service writes name rows it has just read, or the caller's
  own player id as the creator of a session).
* Columns that only the ORM writes (`CreatedAt`, `UpdatedAt`) are not modelled.  A soft-deleted
  session row (`DeletedAt` set) is invisible to every query the services issue, so the
  `trainingSessions` table lists the visible rows.
* Relations that are preloaded only to render names in responses (`Creator`, `GameMode`,
  `Player1`, `Player2`, `TrainingSession`) are not modelled; `TrainingPlayer.Player` is, because
  `GetTrainingCosts` reads it.
-/

namespace DartsTraining

abbrev UUID := Nat

abbrev Time := Nat

/-- The columns of `models.Player` that the training services read. -/
structure Player where
  ID : UUID
  Name : String
deriving DecidableEq, Repr

/-- The columns of `models.GameMode` that the training services read. -/
structure GameMode where
  ID : UUID
  Name : String
  IsActive : Bool
deriving DecidableEq, Repr

/-- A roster entry, `models.TrainingPlayer`. -/
structure TrainingPlayer where
  ID : UUID
  TrainingSessionID : UUID
  PlayerID : Option UUID
  GuestName : Option String
  IsGuest : Bool
  Attended : Bool
  Player : Option Player
deriving DecidableEq, Repr

/-- A match, `models.TrainingGame`. -/
structure TrainingGame where
  ID : UUID
  TrainingSessionID : UUID
  GameModeID : UUID
  Player1ID : Option UUID
  Player2ID : Option UUID
  Guest1Name : Option String
  Guest2Name : Option String
  Player1Score : Int
  Player2Score : Int
  Status : String
  Winner : Option String
  CompletedAt : Option Time
deriving DecidableEq, Repr

/-- A session, `models.TrainingSession`.  `TrainingPlayers` and `Games` are the relations; they
are empty in a stored row and filled by a preloading query. -/
structure TrainingSession where
  ID : UUID
  Name : String
  Description : Option String
  TrainingDate : Time
  CostPerPlayer : ℚ
  Status : String
  CreatedBy : Option UUID
  TrainingPlayers : List TrainingPlayer
  Games : List TrainingGame
deriving DecidableEq, Repr

/-- The request body `models.TrainingSessionCreateRequest`. -/
structure TrainingSessionCreateRequest where
  Name : String
  Description : Option String
  TrainingDate : Time
  CostPerPlayer : Option ℚ
deriving DecidableEq, Repr

/-- The request body `models.TrainingSessionUpdateRequest`. -/
structure TrainingSessionUpdateRequest where
  Name : Option String
  Description : Option String
  TrainingDate : Option Time
  CostPerPlayer : Option ℚ
  Status : Option String
deriving DecidableEq, Repr

/-- The number of binary digits of `n` (0 for 0).  The first argument bounds the recursion;
`n` itself is always enough, because every round halves the number. -/
def bitLength (fuel n : Nat) : Nat :=
  match fuel with
  | 0 => 0
  | rounds + 1 => if n = 0 then 0 else bitLength rounds (n / 2) + 1

/-- The fraction `a / d` rounded to the nearest natural number, a tie going to the even one
(the rounding mode of float64 arithmetic). -/
def roundNearestEven (a d : Nat) : Nat :=
  let f := a / d
  let r := a % d
  if 2 * r < d then f else if d < 2 * r then f + 1 else if f % 2 = 0 then f else f + 1

/-- The exponent of the unit in the last place of a float64 near `a / d` (`a`, `d` positive):
`e - 52` when `2 ^ e ≤ a / d < 2 ^ (e + 1)`, and `-1074` in the subnormal range. -/
def ulpExponent (a d : Nat) : Int :=
  let e0 : Int := (bitLength a a : Int) - (bitLength d d : Int)
  let e : Int := if a * 2 ^ (-e0).toNat < d * 2 ^ e0.toNat then e0 - 1 else e0
  max (e - 52) (-1074)

/-- The number with a 53-bit significand nearest to `x`, ties to even: the float64 that
rounding gives as long as the result is within the float64 range. -/
def roundF64 (x : ℚ) : ℚ :=
  let a := x.num.natAbs
  if a = 0 then 0
  else
    let q := ulpExponent a x.den
    let m : Nat := roundNearestEven (a * 2 ^ (-q).toNat) (x.den * 2 ^ q.toNat)
    let magnitude : ℚ := mkRat ((m * 2 ^ q.toNat : Nat) : Int) (2 ^ (-q).toNat)
    if x.num < 0 then -magnitude else magnitude

/-- A Go `float64` value as the cost total can hold one: a number, an infinity, or the
not-a-number value.  The two zeros of float64 are one number here. -/
inductive F64 where
  | finite (value : ℚ)
  | posInf
  | negInf
  | nan
deriving DecidableEq, Repr

instance (n : Nat) [OfNat ℚ n] : OfNat F64 n := ⟨.finite (OfNat.ofNat n)⟩

/-- The float64 a mathematical result is rounded to: the nearest float64, or an infinity when
the rounded magnitude reaches `2 ^ 1024`. -/
def F64.round (x : ℚ) : F64 :=
  let r := roundF64 x
  if ((2 ^ 1024 : Nat) : ℚ) ≤ r then .posInf
  else if r ≤ -((2 ^ 1024 : Nat) : ℚ) then .negInf
  else .finite r

/-- The operator `+` of Go on `float64` values. -/
def F64.add : F64 → F64 → F64
  | .finite x, .finite y => F64.round (x + y)
  | .nan, _ => .nan
  | _, .nan => .nan
  | .posInf, .negInf => .nan
  | .negInf, .posInf => .nan
  | .posInf, _ => .posInf
  | _, .posInf => .posInf
  | .negInf, _ => .negInf
  | _, .negInf => .negInf

/-- One entry of the cost report, `models.PlayerCost`. -/
structure PlayerCost where
  PlayerID : UUID
  PlayerName : Option String
  GuestName : Option String
  IsGuest : Bool
  TotalCost : ℚ
  GamesPlayed : Int
deriving DecidableEq, Repr

/-- The cost report, `models.TrainingCostsResponse`. -/
structure TrainingCostsResponse where
  TrainingSessionID : UUID
  PlayerCosts : List PlayerCost
  TotalCollected : F64
deriving DecidableEq, Repr

/-- The errors the two services build with `fmt.Errorf`, one constructor per message.
`wrapped context cause` is `fmt.Errorf("context: %w", cause)`. -/
inductive ServiceError where
  | trainingSessionNotFound
  | invalidStatus (status : String)
  | cannotDeleteActiveOrCompleted
  | notInPlannedStatus
  | notActive
  | cannotAddPlayers
  | automaticAssignment
  | trainingPlayerNotFound
  | cannotRemovePlayers
  | cannotRemoveRegular
  | gameModeNotFound
  | player1NotFound
  | player2NotFound
  | sessionNotActiveForGame
  | exactlyTwoPlayers
  | invalidWinner (winner : String)
  | gameNotFound
  | cannotDeleteGame
  | onlyPlannedForGeneration
  | needTwoAttending
  | wrapped (context cause : String)
deriving DecidableEq, Repr

/-- The text of the error, `err.Error()`. -/
def ServiceError.Error : ServiceError → String
  | .trainingSessionNotFound => "training session not found"
  | .invalidStatus status => "invalid status: " ++ status
  | .cannotDeleteActiveOrCompleted => "cannot delete training session that is active or completed"
  | .notInPlannedStatus => "training session is not in planned status"
  | .notActive => "training session is not active"
  | .cannotAddPlayers => "cannot add players to completed or cancelled training"
  | .automaticAssignment => "automatic player assignment is handled during training creation"
  | .trainingPlayerNotFound => "training player not found"
  | .cannotRemovePlayers => "cannot remove players from active, completed, or cancelled training"
  | .cannotRemoveRegular => "cannot remove regular players, only guests can be removed"
  | .gameModeNotFound => "game mode not found"
  | .player1NotFound => "player 1 not found"
  | .player2NotFound => "player 2 not found"
  | .sessionNotActiveForGame => "cannot create games for training session that is not active"
  | .exactlyTwoPlayers => "exactly two players are required for each game"
  | .invalidWinner winner => "invalid winner: " ++ winner
  | .gameNotFound => "game not found"
  | .cannotDeleteGame => "cannot delete game that is in progress or completed"
  | .onlyPlannedForGeneration => "can only generate games for planned training sessions"
  | .needTwoAttending => "need at least 2 attending players to generate games"
  | .wrapped context cause => context ++ ": " ++ cause

/-- The error kinds of the specification. -/
inductive ErrorKind where
  | NotFound
  | InvalidState
  | InvalidInput
  | Conflict
deriving DecidableEq, Repr

/-- Modelled from the spec: the error taxonomy.  The services return untyped `fmt.Errorf` values;
the table assigning each of them a kind is not declared in the code and follows the operation
descriptions of the specification.  A wrapped store failure has no kind. -/
def ServiceError.kind : ServiceError → Option ErrorKind
  | .trainingSessionNotFound => some .NotFound
  | .invalidStatus _ => some .InvalidInput
  | .cannotDeleteActiveOrCompleted => some .Conflict
  | .notInPlannedStatus => some .InvalidState
  | .notActive => some .InvalidState
  | .cannotAddPlayers => some .InvalidState
  | .automaticAssignment => some .InvalidInput
  | .trainingPlayerNotFound => some .NotFound
  | .cannotRemovePlayers => some .InvalidState
  | .cannotRemoveRegular => some .InvalidInput
  | .gameModeNotFound => some .NotFound
  | .player1NotFound => some .NotFound
  | .player2NotFound => some .NotFound
  | .sessionNotActiveForGame => some .InvalidState
  | .exactlyTwoPlayers => some .InvalidInput
  | .invalidWinner _ => some .InvalidInput
  | .gameNotFound => some .NotFound
  | .cannotDeleteGame => some .Conflict
  | .onlyPlannedForGeneration => some .InvalidState
  | .needTwoAttending => some .InvalidInput
  | .wrapped _ _ => none

/-- The persistent store behind `*gorm.DB`. -/
structure DB where
  players : List Player
  gameModes : List GameMode
  trainingSessions : List TrainingSession
  trainingPlayers : List TrainingPlayer
  trainingGames : List TrainingGame
deriving DecidableEq, Repr

/-- The primary key the database generates for a new row (`default:gen_random_uuid()`): a key
that no row of the table carries, here one more than the largest key in use. -/
def freshID (ids : List UUID) : UUID :=
  ids.foldr max 0 + 1

/-- The query `First(&session, "id = ?", id)` on the sessions table. -/
def DB.firstTrainingSession (db : DB) (id : UUID) : Option TrainingSession :=
  db.trainingSessions.find? (fun s => s.ID == id)

/-- The query `First(&game, "id = ?", id)` on the games table. -/
def DB.firstTrainingGame (db : DB) (id : UUID) : Option TrainingGame :=
  db.trainingGames.find? (fun g => g.ID == id)

/-- Fills the `Player` relation of a roster entry (`Preload("Player")`). -/
def DB.preloadPlayer (db : DB) (tp : TrainingPlayer) : TrainingPlayer :=
  { tp with
    Player :=
      match tp.PlayerID with
      | some pid => db.players.find? (fun p => p.ID == pid)
      | none => none }

/-- Fills the `TrainingPlayers` relation of a session (`Preload("TrainingPlayers.Player")`):
the roster rows of the session in table order, each with its player. -/
def DB.preloadTrainingPlayers (db : DB) (session : TrainingSession) : TrainingSession :=
  { session with
    TrainingPlayers :=
      (db.trainingPlayers.filter (fun tp => tp.TrainingSessionID == session.ID)).map
        db.preloadPlayer }

/-- Fills the `Games` relation of a session (`Preload("Games...")`). -/
def DB.preloadGames (db : DB) (session : TrainingSession) : TrainingSession :=
  { session with
    Games := db.trainingGames.filter (fun g => g.TrainingSessionID == session.ID) }

/-- The query `First(&gameMode, "id = ?", id)` on the game modes table. -/
def DB.firstGameMode (db : DB) (id : UUID) : Option GameMode :=
  db.gameModes.find? (fun m => m.ID == id)

/-- The row `Create(game)` inserts into the games table.  The database generates the key; the
columns tagged `default:` take their default when the Go value is the zero value. -/
def DB.insertTrainingGame (db : DB) (game : TrainingGame) : DB × TrainingGame :=
  let created : TrainingGame :=
    { game with
      ID := freshID (db.trainingGames.map (fun g => g.ID))
      Status := if game.Status = "" then "pending" else game.Status }
  ({ db with trainingGames := db.trainingGames ++ [created] }, created)

/-- The call `Create(game)` on the games table; `none` is the error of a rejected insert (the
services wrap it as "failed to create game: ...", the database's own message being written
here as "foreign key violation").  The
schema that `AutoMigrate` builds from the relation `GameMode` of `models.TrainingGame` has a
foreign key from `game_mode_id` to the game modes table, so the insert is rejected when the id
names no game mode.  The other foreign keys of the row cannot fail where the services call
`Create`: the session was found just before, and a player reference was either looked up just
before (`CreateGame`) or copied from a roster row, whose own foreign key guarantees the player
row (a deleted player is soft-deleted and keeps its row). -/
def DB.createTrainingGame (db : DB) (game : TrainingGame) : Option (DB × TrainingGame) :=
  match db.firstGameMode game.GameModeID with
  | none => none
  | some _ => some (db.insertTrainingGame game)

/-- The game that the inner pairing loop of `GenerateGamesForTraining` builds for `player1`
against `player2` (games.go 265-291): each slot takes the guest name of a guest and the player
reference of a regular entry. -/
def newGame (trainingSessionID gameModeID : UUID) (player1 player2 : TrainingPlayer) :
    TrainingGame :=
  let player1ID : Option UUID := if player1.IsGuest then none else player1.PlayerID
  let guest1Name : Option String := if player1.IsGuest then player1.GuestName else none
  let player2ID : Option UUID := if player2.IsGuest then none else player2.PlayerID
  let guest2Name : Option String := if player2.IsGuest then player2.GuestName else none
  { ID := 0
    TrainingSessionID := trainingSessionID
    GameModeID := gameModeID
    Player1ID := player1ID
    Player2ID := player2ID
    Guest1Name := guest1Name
    Guest2Name := guest2Name
    Player1Score := 0
    Player2Score := 0
    Status := "pending"
    Winner := none
    CompletedAt := none }

/-- The rest of the body of the inner pairing loop (games.go 293-297) on the loop state, the
store and what the method has produced so far: once `Create` has failed the method has returned
its error and nothing more happens; otherwise the game is created and appended to `games`, or
the failure of `Create` is returned. -/
def generateStep (trainingSessionID gameModeID : UUID)
    (st : DB × Except ServiceError (List TrainingGame)) (player1 player2 : TrainingPlayer) :
    DB × Except ServiceError (List TrainingGame) :=
  match st.2 with
  | .error _ => st
  | .ok games =>
    match st.1.createTrainingGame (newGame trainingSessionID gameModeID player1 player2) with
    | none => (st.1, .error (.wrapped "failed to create game" "foreign key violation"))
    | some r => (r.1, .ok (games ++ [r.2]))

/-- The two nested `for` loops of `GenerateGamesForTraining` (games.go 263-299):
`i` runs over `0 .. n-1`, `j` over `i+1 .. n-1`. -/
def generateLoop (trainingSessionID gameModeID : UUID) (attendingPlayers : List TrainingPlayer)
    (db : DB) : DB × Except ServiceError (List TrainingGame) :=
  (List.range attendingPlayers.length).foldl
    (fun st i =>
      (List.range' (i + 1) (attendingPlayers.length - (i + 1))).foldl
        (fun st j =>
          match attendingPlayers[i]?, attendingPlayers[j]? with
          | some player1, some player2 =>
            generateStep trainingSessionID gameModeID st player1 player2
          | _, _ => st)
        st)
    (db, .ok [])

/-- The reload loop of `GenerateGamesForTraining` (games.go 302-310): every created game is
fetched again by its key; the first miss aborts with the wrapped store error. -/
def reloadGames (db : DB) : List TrainingGame → Except ServiceError (List TrainingGame)
  | [] => .ok []
  | g :: rest =>
    match db.firstTrainingGame g.ID with
    | none => .error (.wrapped "failed to fetch created game" "record not found")
    | some loaded =>
      match reloadGames db rest with
      | .error e => .error e
      | .ok more => .ok (loaded :: more)

/-- The method `GameService.GenerateGamesForTraining` (games.go 233-313). -/
def GenerateGamesForTraining (db : DB) (trainingSessionID gameModeID : UUID) :
    Except ServiceError (List TrainingGame) × DB :=
  match db.firstTrainingSession trainingSessionID with
  | none => (.error .trainingSessionNotFound, db)
  | some row =>
    let session := db.preloadTrainingPlayers row
    if session.Status ≠ "planned" then
      (.error .onlyPlannedForGeneration, db)
    else
      let attendingPlayers := session.TrainingPlayers.filter (fun tp => tp.Attended)
      if attendingPlayers.length < 2 then
        (.error .needTwoAttending, db)
      else
        let r := generateLoop trainingSessionID gameModeID attendingPlayers db
        match r.2 with
        | .error e => (.error e, r.1)
        | .ok games => (reloadGames r.1 games, r.1)

/-- The method `TrainingService.GetTrainingSessionByID` (trainings.go 38-53): the session row
with its roster and its games preloaded. -/
def GetTrainingSessionByID (db : DB) (id : UUID) : Except ServiceError TrainingSession :=
  match db.firstTrainingSession id with
  | none => .error .trainingSessionNotFound
  | some row => .ok (db.preloadGames (db.preloadTrainingPlayers row))

/-- The call `Create(session)` on the sessions table, with the `default:5.00` and
`default:'planned'` column tags. -/
def DB.createTrainingSession (db : DB) (session : TrainingSession) : DB × TrainingSession :=
  let created : TrainingSession :=
    { session with
      ID := freshID (db.trainingSessions.map (fun s => s.ID))
      CostPerPlayer := if session.CostPerPlayer = 0 then 5 else session.CostPerPlayer
      Status := if session.Status = "" then "planned" else session.Status }
  ({ db with trainingSessions := db.trainingSessions ++ [created] }, created)

/-- The call `Create(trainingPlayer)` on the roster table, with the `default:true` tag of
`Attended` (the `default:false` tag of `IsGuest` changes nothing). -/
def DB.createTrainingPlayer (db : DB) (tp : TrainingPlayer) : DB × TrainingPlayer :=
  let created : TrainingPlayer :=
    { tp with
      ID := freshID (db.trainingPlayers.map (fun r => r.ID))
      Attended := if tp.Attended = false then true else tp.Attended }
  ({ db with trainingPlayers := db.trainingPlayers ++ [created] }, created)

/-- The call `Save(&session)` for a session that was loaded from the table: the row with the
key of `session` is overwritten. -/
def DB.saveTrainingSession (db : DB) (session : TrainingSession) : DB :=
  { db with
    trainingSessions :=
      db.trainingSessions.map (fun r => if r.ID == session.ID then session else r) }

/-- The call `Save(&game)` for a game that was loaded from the table. -/
def DB.saveTrainingGame (db : DB) (game : TrainingGame) : DB :=
  { db with
    trainingGames := db.trainingGames.map (fun r => if r.ID == game.ID then game else r) }

/-- The method `TrainingService.CreateTrainingSession` (trainings.go 55-103). -/
def CreateTrainingSession (db : DB) (req : TrainingSessionCreateRequest) (creatorID : UUID) :
    Except ServiceError TrainingSession × DB :=
  let session : TrainingSession :=
    { ID := 0
      Name := req.Name
      Description := req.Description
      TrainingDate := req.TrainingDate
      CostPerPlayer :=
        match req.CostPerPlayer with
        | some cost => cost
        | none => 5
      Status := "planned"
      CreatedBy := some creatorID
      TrainingPlayers := []
      Games := [] }
  let r := db.createTrainingSession session
  let players := r.1.players
  let tx := players.foldl
    (fun (tx : DB) player =>
      (tx.createTrainingPlayer
        { ID := 0
          TrainingSessionID := r.2.ID
          PlayerID := some player.ID
          GuestName := none
          IsGuest := false
          Attended := true
          Player := none }).1)
    r.1
  (GetTrainingSessionByID tx r.2.ID, tx)

/-- The status list of `UpdateTrainingSession` (trainings.go 129). -/
def validSessionStatuses : List String := ["planned", "active", "completed", "cancelled"]

/-- The method `TrainingService.UpdateTrainingSession` (trainings.go 105-148). -/
def UpdateTrainingSession (db : DB) (id : UUID) (req : TrainingSessionUpdateRequest) :
    Except ServiceError TrainingSession × DB :=
  match db.firstTrainingSession id with
  | none => (.error .trainingSessionNotFound, db)
  | some row =>
    let session : TrainingSession :=
      match req.Name with
      | some name => { row with Name := name }
      | none => row
    let session : TrainingSession :=
      match req.Description with
      | some description => { session with Description := some description }
      | none => session
    let session : TrainingSession :=
      match req.TrainingDate with
      | some date => { session with TrainingDate := date }
      | none => session
    let session : TrainingSession :=
      match req.CostPerPlayer with
      | some cost => { session with CostPerPlayer := cost }
      | none => session
    let checked : Except ServiceError TrainingSession :=
      match req.Status with
      | some status =>
        if validSessionStatuses.any (fun valid => status == valid) then
          .ok { session with Status := status }
        else
          .error (.invalidStatus status)
      | none => .ok session
    match checked with
    | .error e => (.error e, db)
    | .ok session =>
      let db := db.saveTrainingSession session
      (GetTrainingSessionByID db session.ID, db)

/-- Modelled from the spec: `utils.StringPtr`, which trainings.go imports from a file that is
not among the sources.  The spec has `startSession` store `active` and `finishSession` store
`completed`, so the helper returns a pointer to its argument, as `stringPtr` of games.go
(316-318) does. -/
def StringPtr (s : String) : Option String :=
  some s

/-- The update request with only `Status: utils.StringPtr(status)` set, which `StartTraining`
and `FinishTraining` pass on (trainings.go 202-204, 217-219). -/
def statusOnly (status : String) : TrainingSessionUpdateRequest :=
  { Name := none, Description := none, TrainingDate := none, CostPerPlayer := none
    Status := StringPtr status }

/-- The method `TrainingService.StartTraining` (trainings.go 192-205). -/
def StartTraining (db : DB) (id : UUID) : Except ServiceError TrainingSession × DB :=
  match GetTrainingSessionByID db id with
  | .error e => (.error e, db)
  | .ok session =>
    if session.Status ≠ "planned" then
      (.error .notInPlannedStatus, db)
    else
      UpdateTrainingSession db id (statusOnly "active")

/-- The method `TrainingService.FinishTraining` (trainings.go 207-220). -/
def FinishTraining (db : DB) (id : UUID) : Except ServiceError TrainingSession × DB :=
  match GetTrainingSessionByID db id with
  | .error e => (.error e, db)
  | .ok session =>
    if session.Status ≠ "active" then
      (.error .notActive, db)
    else
      UpdateTrainingSession db id (statusOnly "completed")

/-- The method `TrainingService.AddTrainingPlayer` (trainings.go 223-265). -/
def AddTrainingPlayer (db : DB) (trainingID : UUID) (guestName : Option String) :
    Except ServiceError TrainingPlayer × DB :=
  match db.firstTrainingSession trainingID with
  | none => (.error .trainingSessionNotFound, db)
  | some session =>
    if session.Status ≠ "planned" ∧ session.Status ≠ "active" then
      (.error .cannotAddPlayers, db)
    else
      let isGuest : Bool :=
        match guestName with
        | some name => name != ""
        | none => false
      if isGuest then
        let r := db.createTrainingPlayer
          { ID := 0
            TrainingSessionID := trainingID
            PlayerID := none
            GuestName := guestName
            IsGuest := true
            Attended := true
            Player := none }
        match r.1.trainingPlayers.find? (fun tp => tp.ID == r.2.ID) with
        | none => (.error (.wrapped "failed to fetch created training player" "record not found"), r.1)
        | some result => (.ok (r.1.preloadPlayer result), r.1)
      else
        (.error .automaticAssignment, db)

/-- The status list of `UpdateGame` (games.go 148). -/
def validGameStatuses : List String := ["pending", "playing", "completed", "cancelled"]

/-- The winner list of `UpdateGame` (games.go 164). -/
def validWinners : List String := ["player1", "player2", "draw"]

/-- The method `GameService.UpdateGame` (games.go 130-210); `now` is the value of
`time.Now()`. -/
def UpdateGame (db : DB) (now : Time) (id : UUID) (player1Score player2Score : Option Int)
    (status winner : Option String) : Except ServiceError TrainingGame × DB :=
  match db.firstTrainingGame id with
  | none => (.error .gameNotFound, db)
  | some row =>
    let game : TrainingGame :=
      match player1Score with
      | some score => { row with Player1Score := score }
      | none => row
    let game : TrainingGame :=
      match player2Score with
      | some score => { game with Player2Score := score }
      | none => game
    let checkedStatus : Except ServiceError TrainingGame :=
      match status with
      | some st =>
        if validGameStatuses.any (fun valid => st == valid) then
          .ok { game with Status := st }
        else
          .error (.invalidStatus st)
      | none => .ok game
    match checkedStatus with
    | .error e => (.error e, db)
    | .ok game =>
      let checkedWinner : Except ServiceError TrainingGame :=
        match winner with
        | some w =>
          if validWinners.any (fun valid => w == valid) then
            .ok { game with Winner := some w }
          else
            .error (.invalidWinner w)
        | none => .ok game
      match checkedWinner with
      | .error e => (.error e, db)
      | .ok game =>
        let game : TrainingGame :=
          if status = some "completed" ∧ game.CompletedAt = none then
            { game with CompletedAt := some now }
          else game
        let game : TrainingGame :=
          if status = some "completed" ∧ winner = none then
            if game.Player1Score > game.Player2Score then
              { game with Winner := some "player1" }
            else if game.Player2Score > game.Player1Score then
              { game with Winner := some "player2" }
            else
              { game with Winner := some "draw" }
          else game
        let db := db.saveTrainingGame game
        match db.firstTrainingGame game.ID with
        | none => (.error (.wrapped "failed to fetch updated game" "record not found"), db)
        | some result => (.ok result, db)

/-- The Go test `*a == *b || *a == *c` on three pointers of which `a` is known to be set:
`none` is the nil-pointer panic of a dereference that is reached on a nil pointer. -/
def derefEqEither {α : Type} [DecidableEq α] (a : α) (b c : Option α) : Option Bool :=
  match b with
  | none => none
  | some x =>
    if a = x then some true
    else
      match c with
      | none => none
      | some y => some (decide (a = y))

/-- The participation test of `GetTrainingCosts` (trainings.go 319-321), with Go's
left-to-right short-circuit evaluation; `none` is a nil-pointer panic. -/
def participated (tp : TrainingPlayer) (game : TrainingGame) : Option Bool :=
  let byPlayer : Option Bool :=
    match tp.PlayerID with
    | none => some false
    | some pid => derefEqEither pid game.Player1ID game.Player2ID
  match byPlayer with
  | none => none
  | some true => some true
  | some false =>
    if tp.IsGuest then
      match tp.GuestName with
      | none => some false
      | some name => derefEqEither name game.Guest1Name game.Guest2Name
    else some false

/-- The game-counting loop of `GetTrainingCosts` (trainings.go 316-325). -/
def countGames (tp : TrainingPlayer) (games : List TrainingGame) : Option Int :=
  games.foldl
    (fun (acc : Option Int) game =>
      match acc with
      | none => none
      | some gamesPlayed =>
        if game.Status = "completed" ∨ game.Status = "playing" then
          match participated tp game with
          | none => none
          | some true => some (gamesPlayed + 1)
          | some false => some gamesPlayed
        else some gamesPlayed)
    (some 0)

/-- One iteration of the roster loop of `GetTrainingCosts` (trainings.go 307-350) on the
accumulated `(playerCosts, totalCollected)`; `none` is a nil-pointer panic. -/
def costStep (session : TrainingSession) (acc : List PlayerCost × F64) (tp : TrainingPlayer) :
    Option (List PlayerCost × F64) :=
  if tp.Attended = false then some acc
  else
    match countGames tp session.Games with
    | none => none
    | some gamesPlayed =>
      let cost : ℚ := if gamesPlayed = 0 then 0 else session.CostPerPlayer
      let playerCost : PlayerCost :=
        { PlayerID := 0, PlayerName := none, GuestName := none
          IsGuest := tp.IsGuest, TotalCost := cost, GamesPlayed := gamesPlayed }
      let filled : Option PlayerCost :=
        if tp.IsGuest then some { playerCost with GuestName := tp.GuestName }
        else
          match tp.PlayerID with
          | none => none
          | some pid =>
            some { playerCost with
                   PlayerID := pid
                   PlayerName := tp.Player.map (fun p => p.Name) }
      match filled with
      | none => none
      | some playerCost => some (acc.1 ++ [playerCost], acc.2.add (.finite cost))

/-- The method `TrainingService.GetTrainingCosts` (trainings.go 298-357).  The outer `none` is a
nil-pointer panic; `some` carries the returned pair of result and error. -/
def GetTrainingCosts (db : DB) (trainingID : UUID) :
    Option (Except ServiceError TrainingCostsResponse) :=
  match GetTrainingSessionByID db trainingID with
  | .error e => some (.error e)
  | .ok session =>
    let folded : Option (List PlayerCost × F64) :=
      session.TrainingPlayers.foldl
        (fun acc tp =>
          match acc with
          | none => none
          | some a => costStep session a tp)
        (some ([], 0))
    match folded with
    | none => none
    | some r =>
      some (.ok { TrainingSessionID := trainingID, PlayerCosts := r.1, TotalCollected := r.2 })

/-- The query `First(&trainingPlayer, "id = ?", id)` on the roster table. -/
def DB.firstTrainingPlayer (db : DB) (id : UUID) : Option TrainingPlayer :=
  db.trainingPlayers.find? (fun tp => tp.ID == id)

/-- The call `Delete(&trainingPlayer)` on the roster table: the rows with the key of the loaded
entry are removed. -/
def DB.deleteTrainingPlayer (db : DB) (trainingPlayer : TrainingPlayer) : DB :=
  { db with
    trainingPlayers := db.trainingPlayers.filter (fun tp => tp.ID != trainingPlayer.ID) }

/-- The method `TrainingService.DeleteTrainingSession` (trainings.go 150-190).  The three deletes
run in one transaction: the games of the session, its roster rows, then the session row (a soft
delete, after which no query sees the row). -/
def DeleteTrainingSession (db : DB) (id : UUID) : Except ServiceError Unit × DB :=
  match db.firstTrainingSession id with
  | none => (.error .trainingSessionNotFound, db)
  | some session =>
    if session.Status = "active" ∨ session.Status = "completed" then
      (.error .cannotDeleteActiveOrCompleted, db)
    else
      let tx : DB :=
        { db with
          trainingGames := db.trainingGames.filter (fun g => g.TrainingSessionID != id) }
      let tx : DB :=
        { tx with
          trainingPlayers := tx.trainingPlayers.filter (fun tp => tp.TrainingSessionID != id) }
      let tx : DB :=
        { tx with
          trainingSessions := tx.trainingSessions.filter (fun s => s.ID != session.ID) }
      (.ok (), tx)

/-- The method `TrainingService.RemoveTrainingPlayer` (trainings.go 267-296). -/
def RemoveTrainingPlayer (db : DB) (trainingPlayerID : UUID) : Except ServiceError Unit × DB :=
  match db.firstTrainingPlayer trainingPlayerID with
  | none => (.error .trainingPlayerNotFound, db)
  | some trainingPlayer =>
    match db.firstTrainingSession trainingPlayer.TrainingSessionID with
    | none => (.error (.wrapped "failed to fetch training session" "record not found"), db)
    | some session =>
      if session.Status ≠ "planned" then
        (.error .cannotRemovePlayers, db)
      else if trainingPlayer.IsGuest = false then
        (.error .cannotRemoveRegular, db)
      else
        (.ok (), db.deleteTrainingPlayer trainingPlayer)

/-- The call `Delete(&game)` on the games table: the rows with the key of the loaded game are
removed. -/
def DB.deleteTrainingGame (db : DB) (game : TrainingGame) : DB :=
  { db with trainingGames := db.trainingGames.filter (fun g => g.ID != game.ID) }

/-- The method `GameService.DeleteGame` (games.go 212-231). -/
def DeleteGame (db : DB) (id : UUID) : Except ServiceError Unit × DB :=
  match db.firstTrainingGame id with
  | none => (.error .gameNotFound, db)
  | some game =>
    if game.Status = "completed" ∨ game.Status = "playing" then
      (.error .cannotDeleteGame, db)
    else
      (.ok (), db.deleteTrainingGame game)

/-- The query `First(&player, "id = ?", id)` on the players table. -/
def DB.firstPlayer (db : DB) (id : UUID) : Option Player :=
  db.players.find? (fun p => p.ID == id)

/-- The method `GameService.CreateGame` (games.go 46-128). -/
def CreateGame (db : DB) (trainingSessionID gameModeID : UUID) (player1ID player2ID : Option UUID)
    (guest1Name guest2Name : Option String) : Except ServiceError TrainingGame × DB :=
  match db.firstTrainingSession trainingSessionID with
  | none => (.error .trainingSessionNotFound, db)
  | some session =>
    if session.Status ≠ "active" then
      (.error .sessionNotActiveForGame, db)
    else
      match db.firstGameMode gameModeID with
      | none => (.error .gameModeNotFound, db)
      | some _ =>
        let player1Missing : Bool :=
          match player1ID with
          | some pid => (db.firstPlayer pid).isNone
          | none => false
        if player1Missing then
          (.error .player1NotFound, db)
        else
          let player2Missing : Bool :=
            match player2ID with
            | some pid => (db.firstPlayer pid).isNone
            | none => false
          if player2Missing then
            (.error .player2NotFound, db)
          else
            let playerCount : Nat := 0
            let playerCount : Nat :=
              if player1ID ≠ none ∨ guest1Name ≠ none then playerCount + 1 else playerCount
            let playerCount : Nat :=
              if player2ID ≠ none ∨ guest2Name ≠ none then playerCount + 1 else playerCount
            if playerCount ≠ 2 then
              (.error .exactlyTwoPlayers, db)
            else
              let created := db.createTrainingGame
                { ID := 0
                  TrainingSessionID := trainingSessionID
                  GameModeID := gameModeID
                  Player1ID := player1ID
                  Player2ID := player2ID
                  Guest1Name := guest1Name
                  Guest2Name := guest2Name
                  Player1Score := 0
                  Player2Score := 0
                  Status := "pending"
                  Winner := none
                  CompletedAt := none }
              match created with
              | none => (.error (.wrapped "failed to create game" "foreign key violation"), db)
              | some r =>
                match r.1.firstTrainingGame r.2.ID with
                | none =>
                  (.error (.wrapped "failed to fetch created game" "record not found"), r.1)
                | some result => (.ok result, r.1)

/-- The handler `TrainingHandler.UpdateTrainingSession` after the id and the body were parsed
(handlers/trainings.go 104-118): the HTTP status it answers, and the store. -/
def TrainingHandler.UpdateTrainingSession (db : DB) (id : UUID)
    (req : TrainingSessionUpdateRequest) : Nat × DB :=
  match DartsTraining.UpdateTrainingSession db id req with
  | (.error err, db) =>
    if err.Error = "training session not found" then (404, db)
    else if err.Error = "invalid status" then (400, db)
    else (500, db)
  | (.ok _, db) => (200, db)

/-- The handler `GameHandler.UpdateGame` after the id and the body were parsed
(handlers/games.go 137-151): the HTTP status it answers, and the store. -/
def GameHandler.UpdateGame (db : DB) (now : Time) (id : UUID)
    (player1Score player2Score : Option Int) (status winner : Option String) : Nat × DB :=
  match DartsTraining.UpdateGame db now id player1Score player2Score status winner with
  | (.error err, db) =>
    if err.Error = "game not found" then (404, db)
    else if err.Error = "invalid status" ∨ err.Error = "invalid winner" then (400, db)
    else (500, db)
  | (.ok _, db) => (200, db)

/-! ## Vocabulary of the statements -/

/-- The attending roster rows of a session, in table order. -/
def DB.attending (db : DB) (sid : UUID) : List TrainingPlayer :=
  db.trainingPlayers.filter (fun tp => tp.TrainingSessionID == sid && tp.Attended)

/-- The participant a roster entry stands for. -/
def TrainingPlayer.participant (tp : TrainingPlayer) : Option UUID × Option String :=
  if tp.IsGuest then (none, tp.GuestName) else (tp.PlayerID, none)

/-- The first participant slot of a match. -/
def TrainingGame.participant1 (g : TrainingGame) : Option UUID × Option String :=
  (g.Player1ID, g.Guest1Name)

/-- The second participant slot of a match. -/
def TrainingGame.participant2 (g : TrainingGame) : Option UUID × Option String :=
  (g.Player2ID, g.Guest2Name)

/-- The index pairs the pairing loops visit, in the order they visit them. -/
def indexPairs (n : Nat) : List (Nat × Nat) :=
  (List.range n).flatMap (fun i => (List.range' (i + 1) (n - (i + 1))).map (fun j => (i, j)))

/-- Lexicographic order on index pairs. -/
def lexLt (p q : Nat × Nat) : Prop :=
  p.1 < q.1 ∨ (p.1 = q.1 ∧ p.2 < q.2)

/-- The unordered pair of participants of a match. -/
def TrainingGame.pairing (g : TrainingGame) : Sym2 (Option UUID × Option String) :=
  s(g.participant1, g.participant2)

/-- The participant at a position of a roster list. -/
def participantAt (att : List TrainingPlayer) (i : Nat) : Option UUID × Option String :=
  match att[i]? with
  | some a => a.participant
  | none => (none, none)

/-- The row `UpdateTrainingSession` writes back when the request is accepted. -/
def updatedRow (row : TrainingSession) (req : TrainingSessionUpdateRequest) : TrainingSession :=
  { row with
    Name := req.Name.getD row.Name
    Description := if req.Description.isSome then req.Description else row.Description
    TrainingDate := req.TrainingDate.getD row.TrainingDate
    CostPerPlayer := req.CostPerPlayer.getD row.CostPerPlayer
    Status := req.Status.getD row.Status }

/-- The session as `GetTrainingSessionByID` returns it: the row with both relations loaded. -/
def DB.loaded (db : DB) (row : TrainingSession) : TrainingSession :=
  db.preloadGames (db.preloadTrainingPlayers row)

/-- The stored status of a session, if the session exists. -/
def storedStatus (db : DB) (id : UUID) : Option String :=
  (db.firstTrainingSession id).map (fun s => s.Status)

/-- The session operations that can change a stored status. -/
inductive SessionOp where
  | createSession (req : TrainingSessionCreateRequest) (creatorID : UUID)
  | startSession (id : UUID)
  | finishSession (id : UUID)
  | updateSession (id : UUID) (req : TrainingSessionUpdateRequest)

/-- The store after one operation (a failing operation leaves whatever store it returns). -/
def SessionOp.run (db : DB) : SessionOp → DB
  | .createSession req creatorID => (CreateTrainingSession db req creatorID).2
  | .startSession id => (StartTraining db id).2
  | .finishSession id => (FinishTraining db id).2
  | .updateSession id req => (UpdateTrainingSession db id req).2

/-- The store after a sequence of operations. -/
def runOps (db : DB) (ops : List SessionOp) : DB :=
  ops.foldl SessionOp.run db

/-- Whether the operation is an `updateSession` that supplies a status. -/
def SessionOp.suppliesStatus : SessionOp → Bool
  | .updateSession _ req => req.Status.isSome
  | _ => false

/-- The order `planned`, `active`, `completed`: `s'` is `s` or comes later. -/
def lifecycleLe (s s' : String) : Prop :=
  s' = s ∨ (s = "planned" ∧ (s' = "active" ∨ s' = "completed")) ∨
    (s = "active" ∧ s' = "completed")

/-- The transitions the claim allows between two observations of a session: forward in the
order `planned`, `active`, `completed`, or into `cancelled` from `planned` or `active`. -/
def monotoneOrCancelled (s s' : String) : Prop :=
  lifecycleLe s s' ∨ ((s = "planned" ∨ s = "active") ∧ s' = "cancelled")

/-- A store that knows three players and one game mode and holds no session yet. -/
def clubDB : DB :=
  { players := [⟨101, "Ann"⟩, ⟨102, "Ben"⟩, ⟨103, "Cleo"⟩]
    gameModes := [⟨7, "501 Double Out", true⟩]
    trainingSessions := []
    trainingPlayers := []
    trainingGames := [] }

/-- A request for a session that costs 5 per attendee. -/
def clubRequest : TrainingSessionCreateRequest :=
  { Name := "Tuesday", Description := none, TrainingDate := 20, CostPerPlayer := some 5 }

/-- The session row that `CreateTrainingSession clubDB clubRequest 0` stores. -/
def clubRow : TrainingSession :=
  { ID := 1, Name := "Tuesday", Description := none, TrainingDate := 20, CostPerPlayer := 5
    Status := "planned", CreatedBy := some 0, TrainingPlayers := [], Games := [] }

/-- The store after the session was created: the session is planned and enrols the three
players. -/
def clubCreated : DB := (CreateTrainingSession clubDB clubRequest 0).2

/-- The store after the created session was started right away. -/
def clubStarted : DB := (StartTraining clubCreated 1).2

/-- The store after the games of the created session were generated. -/
def clubGenerated : DB := (GenerateGamesForTraining clubCreated 1 7).2

/-- The store after the session with its generated games was started. -/
def clubRunning : DB := (StartTraining clubGenerated 1).2

/-- The store after the first game was completed with the scores 3 and 1 at time 40. -/
def clubPlayed : DB :=
  (UpdateGame clubRunning 40 1 (some 3) (some 1) (some "completed") none).2

/-- A store without players in which a planned session received the guests Bob, Bob and Al. -/
def guestsDB : DB :=
  (AddTrainingPlayer
    (AddTrainingPlayer
      (AddTrainingPlayer
        (CreateTrainingSession { clubDB with players := [] } clubRequest 0).2
        1 (some "Bob")).2
      1 (some "Bob")).2
    1 (some "Al")).2

/-- A store whose planned session has one attending and one non-attending roster entry. -/
def soloDB : DB :=
  { clubDB with
    trainingSessions := [clubRow]
    trainingPlayers :=
      [ { ID := 1, TrainingSessionID := 1, PlayerID := some 101, GuestName := none
          IsGuest := false, Attended := true, Player := none },
        { ID := 2, TrainingSessionID := 1, PlayerID := some 102, GuestName := none
          IsGuest := false, Attended := false, Player := none } ] }

/-- A sequence of operations none of which supplies a status. -/
def quietOps : List SessionOp :=
  [ .startSession 1,
    .updateSession 1
      { Name := some "Wednesday", Description := none, TrainingDate := none
        CostPerPlayer := some 4, Status := none },
    .startSession 1,
    .createSession clubRequest 0,
    .finishSession 1,
    .finishSession 2 ]

/-- The roster row of the player Ann in the created session. -/
def annEntry : TrainingPlayer :=
  { ID := 1, TrainingSessionID := 1, PlayerID := some 101, GuestName := none
    IsGuest := false, Attended := true, Player := none }

/-- The roster row of the first guest Bob. -/
def bobEntry : TrainingPlayer :=
  { ID := 1, TrainingSessionID := 1, PlayerID := none, GuestName := some "Bob"
    IsGuest := true, Attended := true, Player := none }

/-- The winner the specification derives from the two scores of a completed match. -/
def derivedWinner (player1Score player2Score : Int) : String :=
  if player1Score > player2Score then "player1"
  else if player2Score > player1Score then "player2"
  else "draw"

/-- The assignment of games.go 140-142. -/
def withScore1 (game : TrainingGame) : Option Int → TrainingGame
  | some score => { game with Player1Score := score }
  | none => game

/-- The assignment of games.go 143-145. -/
def withScore2 (game : TrainingGame) : Option Int → TrainingGame
  | some score => { game with Player2Score := score }
  | none => game

/-- The assignment of games.go 159, after the status was found valid. -/
def withStatus (game : TrainingGame) : Option String → TrainingGame
  | some st => { game with Status := st }
  | none => game

/-- The assignment of games.go 175, after the winner was found valid. -/
def withWinner (game : TrainingGame) : Option String → TrainingGame
  | some w => { game with Winner := some w }
  | none => game

/-- The completion stamp of games.go 179-182. -/
def withCompletedAt (now : Time) (status : Option String) (game : TrainingGame) : TrainingGame :=
  if status = some "completed" ∧ game.CompletedAt = none then
    { game with CompletedAt := some now }
  else game

/-- The automatic winner of games.go 185-193. -/
def withDerivedWinner (status winner : Option String) (game : TrainingGame) : TrainingGame :=
  if status = some "completed" ∧ winner = none then
    if game.Player1Score > game.Player2Score then
      { game with Winner := some "player1" }
    else if game.Player2Score > game.Player1Score then
      { game with Winner := some "player2" }
    else
      { game with Winner := some "draw" }
  else game

/-- The game `UpdateGame` writes back when the request is accepted: the stored row after the
assignments of games.go 139-193, in their order. -/
def updatedGame (now : Time) (row : TrainingGame) (player1Score player2Score : Option Int)
    (status winner : Option String) : TrainingGame :=
  withDerivedWinner status winner
    (withCompletedAt now status
      (withWinner (withStatus (withScore2 (withScore1 row player1Score) player2Score) status)
        winner))

/-- The request passes the two checks of `UpdateGame`: a supplied status is one of the four
match statuses and a supplied winner is one of the three winners. -/
def validGameRequest (status winner : Option String) : Prop :=
  (∀ st, status = some st →
    st = "pending" ∨ st = "playing" ∨ st = "completed" ∨ st = "cancelled") ∧
  (∀ w, winner = some w → w = "player1" ∨ w = "player2" ∨ w = "draw")

/-- The first generated game of the club session, Ann against Ben, before it is played. -/
def firstGame : TrainingGame :=
  { ID := 1, TrainingSessionID := 1, GameModeID := 7, Player1ID := some 101
    Player2ID := some 102, Guest1Name := none, Guest2Name := none, Player1Score := 0
    Player2Score := 0, Status := "pending", Winner := none, CompletedAt := none }

/-- The first game after it was completed with 3 and 1 at time 40. -/
def playedGame : TrainingGame :=
  { firstGame with
    Player1Score := 3, Player2Score := 1, Status := "completed", Winner := some "player1"
    CompletedAt := some 40 }

/-- The columns of a roster row that say whom it enrols and where. -/
def TrainingPlayer.enrolment (tp : TrainingPlayer) :
    UUID × Option UUID × Option String × Bool × Bool :=
  (tp.TrainingSessionID, tp.PlayerID, tp.GuestName, tp.IsGuest, tp.Attended)

/-- Every roster row references a session of the sessions table (the foreign key of
`TrainingSessionID`). -/
def DB.rosterReferencesSessions (db : DB) : Prop :=
  ∀ tp ∈ db.trainingPlayers, ∃ s ∈ db.trainingSessions, s.ID = tp.TrainingSessionID

/-- The request of the club with a cost of 0 per attendee. -/
def freeRequest : TrainingSessionCreateRequest :=
  { Name := "Tuesday", Description := none, TrainingDate := 20, CostPerPlayer := some 0 }

/-- The game `CreateGame` hands to `Create` (games.go 103-111), with the key the store gives
it. -/
def createdGame (db : DB) (trainingSessionID gameModeID : UUID) (player1ID player2ID : Option UUID)
    (guest1Name guest2Name : Option String) : TrainingGame :=
  { ID := freshID (db.trainingGames.map (fun g => g.ID))
    TrainingSessionID := trainingSessionID
    GameModeID := gameModeID
    Player1ID := player1ID
    Player2ID := player2ID
    Guest1Name := guest1Name
    Guest2Name := guest2Name
    Player1Score := 0
    Player2Score := 0
    Status := "pending"
    Winner := none
    CompletedAt := none }

/-- Slot 1 of a call of `CreateGame` is supplied: a player reference or a guest name (the test
of games.go 91). -/
def slotSupplied (playerID : Option UUID) (guestName : Option String) : Prop :=
  playerID ≠ none ∨ guestName ≠ none

instance (playerID : Option UUID) (guestName : Option String) :
    Decidable (slotSupplied playerID guestName) := by
  unfold slotSupplied
  exact inferInstance

/-- Exactly one of the player reference and the guest name of a slot is set. -/
def slotExactlyOne (playerID : Option UUID) (guestName : Option String) : Prop :=
  (playerID ≠ none ∧ guestName = none) ∨ (playerID = none ∧ guestName ≠ none)

/-- Every player a call of `CreateGame` references is in the players table. -/
def DB.knowsPlayer (db : DB) (playerID : Option UUID) : Prop :=
  ∀ pid, playerID = some pid → ∃ p, db.firstPlayer pid = some p

/-- The games of a session in table order, as `Preload("Games")` lists them. -/
def DB.gamesOf (db : DB) (sid : UUID) : List TrainingGame :=
  db.trainingGames.filter (fun g => g.TrainingSessionID == sid)

/-- A game without its key: what the game says apart from the row identity. -/
def TrainingGame.content (g : TrainingGame) : TrainingGame :=
  { g with ID := 0 }

/-- The condition on one match: the status is one of the four match statuses, a winner that is
set is one of the three winners, and a completed match has its completion time and its winner
set. -/
def GameInvariant (g : TrainingGame) : Prop :=
  (g.Status = "pending" ∨ g.Status = "playing" ∨ g.Status = "completed" ∨
    g.Status = "cancelled") ∧
  (∀ w, g.Winner = some w → w = "player1" ∨ w = "player2" ∨ w = "draw") ∧
  (g.Status = "completed" → g.CompletedAt.isSome = true ∧ g.Winner.isSome = true)

/-- The matches that can be met as the value of a match row: a match returned by a successful
`CreateGame`, a match returned by a successful `GenerateGamesForTraining`, and the match a
successful `UpdateGame` returns (and stores) when the row it found was such a match. The steps
may happen in any stores. -/
inductive Reachable : TrainingGame → Prop
  | created (db : DB) (sid gm : UUID) (p1 p2 : Option UUID) (n1 n2 : Option String)
      (g : TrainingGame) :
      (CreateGame db sid gm p1 p2 n1 n2).1 = .ok g → Reachable g
  | generated (db : DB) (sid gm : UUID) (games : List TrainingGame) (g : TrainingGame) :
      (GenerateGamesForTraining db sid gm).1 = .ok games → g ∈ games → Reachable g
  | updated (db : DB) (now : Time) (id : UUID) (p1 p2 : Option Int)
      (status winner : Option String) (row g : TrainingGame) :
      Reachable row → db.firstTrainingGame id = some row →
      (UpdateGame db now id p1 p2 status winner).1 = .ok g → Reachable g

/-- The three games `GenerateGamesForTraining clubCreated 1 7` returns. -/
def clubGames : List TrainingGame :=
  [firstGame, { firstGame with ID := 2, Player2ID := some 103 },
    { firstGame with ID := 3, Player1ID := some 102, Player2ID := some 103 }]

/-- The match counts towards the costs: its status is `playing` or `completed`. -/
def TrainingGame.counts (g : TrainingGame) : Bool :=
  g.Status == "playing" || g.Status == "completed"

/-- Follows the wording of the specification: the attendee occupies participant slot 1 or 2 of
the match, by player reference for a regular attendee and by guest name for a guest. -/
def TrainingPlayer.occupies (tp : TrainingPlayer) (g : TrainingGame) : Bool :=
  if tp.IsGuest then
    match tp.GuestName with
    | some name => g.Guest1Name == some name || g.Guest2Name == some name
    | none => false
  else
    match tp.PlayerID with
    | some pid => g.Player1ID == some pid || g.Player2ID == some pid
    | none => false

/-- Follows the wording of the specification: the number of the given matches that count and in
which the attendee occupies a slot. -/
def TrainingPlayer.qualifying (tp : TrainingPlayer) (games : List TrainingGame) : Nat :=
  (games.filter (fun g => g.counts && tp.occupies g)).length

/-- Whatever identifier of the attendee the cost loop compares, the match has the fields it is
compared with: both player references for an attendee with a player reference, both guest names
for a guest with a name. -/
def TrainingPlayer.comparable (tp : TrainingPlayer) (g : TrainingGame) : Prop :=
  (tp.PlayerID ≠ none → g.Player1ID ≠ none ∧ g.Player2ID ≠ none) ∧
  (tp.IsGuest = true → tp.GuestName ≠ none → g.Guest1Name ≠ none ∧ g.Guest2Name ≠ none)

/-- The entry the roster loop of `GetTrainingCosts` builds for an attending roster entry
(trainings.go 313-346); `none` is a nil-pointer panic. -/
def costEntry (session : TrainingSession) (tp : TrainingPlayer) : Option PlayerCost :=
  match countGames tp session.Games with
  | none => none
  | some gamesPlayed =>
    if tp.IsGuest then
      some { PlayerID := 0, PlayerName := none, GuestName := tp.GuestName, IsGuest := tp.IsGuest
             TotalCost := if gamesPlayed = 0 then 0 else session.CostPerPlayer
             GamesPlayed := gamesPlayed }
    else
      match tp.PlayerID with
      | none => none
      | some pid =>
        some { PlayerID := pid, PlayerName := tp.Player.map (fun p => p.Name), GuestName := none
               IsGuest := tp.IsGuest
               TotalCost := if gamesPlayed = 0 then 0 else session.CostPerPlayer
               GamesPlayed := gamesPlayed }

/-- The game-counting loop of `GetTrainingCosts` started from a given counter. -/
def countFrom (tp : TrainingPlayer) (start : Option Int) (games : List TrainingGame) :
    Option Int :=
  games.foldl
    (fun (acc : Option Int) game =>
      match acc with
      | none => none
      | some gamesPlayed =>
        if game.Status = "completed" ∨ game.Status = "playing" then
          match participated tp game with
          | none => none
          | some true => some (gamesPlayed + 1)
          | some false => some gamesPlayed
        else some gamesPlayed)
    start

/-- The total the cost loop builds from a start value: the costs are added to it one by one,
from left to right, with the float64 addition. -/
def F64.sumFrom (start : F64) (costs : List ℚ) : F64 :=
  costs.foldl (fun total cost => total.add (.finite cost)) start

/-- The roster loop of `GetTrainingCosts` started from a given accumulator. -/
def costFrom (session : TrainingSession) (start : Option (List PlayerCost × F64))
    (roster : List TrainingPlayer) : Option (List PlayerCost × F64) :=
  roster.foldl
    (fun acc tp =>
      match acc with
      | none => none
      | some a => costStep session a tp)
    start

/-- The response of `GetTrainingCosts` for the club session after its first game was
completed. -/
def clubCosts : TrainingCostsResponse :=
  { TrainingSessionID := 1
    PlayerCosts :=
      [ { PlayerID := 101, PlayerName := some "Ann", GuestName := none, IsGuest := false
          TotalCost := 5, GamesPlayed := 1 },
        { PlayerID := 102, PlayerName := some "Ben", GuestName := none, IsGuest := false
          TotalCost := 5, GamesPlayed := 1 },
        { PlayerID := 103, PlayerName := some "Cleo", GuestName := none, IsGuest := false
          TotalCost := 0, GamesPlayed := 0 } ]
    TotalCollected := 10 }

/-- The planned club session after the guest Dana was added to its roster. -/
def mixedRoster : DB := (AddTrainingPlayer clubCreated 1 (some "Dana")).2

/-- The store after the six games of Ann, Ben, Cleo and Dana were generated and the session was
started. -/
def mixedRunning : DB :=
  (StartTraining (GenerateGamesForTraining mixedRoster 1 7).2 1).2

/-- The store after game 1 (Ann against Ben) of the mixed session was completed. -/
def mixedPlayed : DB :=
  (UpdateGame mixedRunning 40 1 (some 3) (some 1) (some "completed") none).2

/-- The store after game 3 (Ann against the guest Dana) of the mixed session was started. -/
def mixedGuestGame : DB :=
  (UpdateGame mixedRunning 40 3 none none (some "playing") none).2

/-- The attending roster entries of the session are well formed: a guest entry carries no
player reference. -/
def DB.rosterWellFormed (db : DB) (id : UUID) : Prop :=
  ∀ tp ∈ db.attending id, tp.IsGuest = true → tp.PlayerID = none

instance (db : DB) (id : UUID) : Decidable (db.rosterWellFormed id) := by
  unfold DB.rosterWellFormed
  exact inferInstance

/-- A sufficient condition for `GetTrainingCosts` to dereference set fields only: every regular
attending entry has a player reference, and every counting match of the session has the fields
the attending entries are compared with (both player references when the entry has a player
reference, both guest names when the entry is a named guest). Sessions of regular attendees
whose matches pair players, sessions of guests whose matches pair guests, and sessions without
counting matches all satisfy it. -/
def DB.costsComparable (db : DB) (id : UUID) : Prop :=
  (∀ tp ∈ db.attending id, tp.IsGuest = false → tp.PlayerID ≠ none) ∧
  (∀ tp ∈ db.attending id, ∀ g ∈ db.gamesOf id, g.counts = true →
    (tp.PlayerID ≠ none → g.Player1ID ≠ none ∧ g.Player2ID ≠ none) ∧
    (tp.IsGuest = true → tp.GuestName ≠ none → g.Guest1Name ≠ none ∧ g.Guest2Name ≠ none))

instance (db : DB) (id : UUID) : Decidable (db.costsComparable id) := by
  unfold DB.costsComparable
  exact inferInstance

/-- One round of the inner pairing loop when `Create` accepts the game: the game is inserted
and appended to `games`. -/
def insertStep (trainingSessionID gameModeID : UUID) (st : DB × List TrainingGame)
    (player1 player2 : TrainingPlayer) : DB × List TrainingGame :=
  let r := st.1.insertTrainingGame (newGame trainingSessionID gameModeID player1 player2)
  (r.1, st.2 ++ [r.2])

/-- The two nested `for` loops of `GenerateGamesForTraining` when `Create` accepts every
game. -/
def insertLoop (trainingSessionID gameModeID : UUID) (attendingPlayers : List TrainingPlayer)
    (db : DB) : DB × List TrainingGame :=
  (List.range attendingPlayers.length).foldl
    (fun st i =>
      (List.range' (i + 1) (attendingPlayers.length - (i + 1))).foldl
        (fun st j =>
          match attendingPlayers[i]?, attendingPlayers[j]? with
          | some player1, some player2 =>
            insertStep trainingSessionID gameModeID st player1 player2
          | _, _ => st)
        st)
    (db, [])

/-- The games are one complete set for the attending entries `a_0 .. a_(n-1)`: there is one
game per index pair `(i, j)` with `i < j < n`, the games are listed in the order of the index
pairs, and the game of `(i, j)` holds the participant of `a_i` in slot 1 and the participant of
`a_j` in slot 2, is pending with scores 0 and 0, without winner and completion time, and
belongs to the session and the game mode. -/
def completeSet (att : List TrainingPlayer) (sid gm : UUID) (games : List TrainingGame) : Prop :=
  List.Forall₂
    (fun g p => ∃ a b, att[p.1]? = some a ∧ att[p.2]? = some b ∧
      g.participant1 = a.participant ∧ g.participant2 = b.participant ∧
      g.Status = "pending" ∧ g.Player1Score = 0 ∧ g.Player2Score = 0 ∧ g.Winner = none ∧
      g.CompletedAt = none ∧ g.TrainingSessionID = sid ∧ g.GameModeID = gm)
    games (indexPairs att.length)

/-- The number of paying attendees of a session: the attending roster entries that occupy a
slot of at least one playing or completed match of the session. -/
def DB.paying (db : DB) (id : UUID) : Nat :=
  ((db.attending id).filter (fun tp => decide (0 < tp.qualifying (db.gamesOf id)))).length

/-- The float64 nearest to 0.1 (the value of the Go literal and of the JSON number `0.1`). -/
def tenth : ℚ := mkRat 3602879701896397 36028797018963968

/-- The float64 that adding `tenth` six times to 0 gives; Go prints it as `0.6`. -/
def sixTenthsAdded : ℚ := mkRat 5404319552844595 9007199254740992

/-- The float64 product of `tenth` and 6; Go prints it as `0.6000000000000001`. -/
def sixTenthsMultiplied : ℚ := mkRat 5404319552844596 9007199254740992

/-- A store with six players and the game mode 7. -/
def sixDB : DB :=
  { clubDB with
    players := [⟨101, "Ann"⟩, ⟨102, "Ben"⟩, ⟨103, "Cleo"⟩, ⟨104, "Dora"⟩, ⟨105, "Eve"⟩,
      ⟨106, "Finn"⟩] }

/-- The store after a session at the rate `tenth` was created for the six players, its fifteen
games were generated, the session was started, and the games 1 (Ann against Ben), 10 (Cleo
against Dora) and 15 (Eve against Finn) were started. -/
def tenthPlayed : DB :=
  (UpdateGame
    (UpdateGame
      (UpdateGame
        (StartTraining
          (GenerateGamesForTraining
            (CreateTrainingSession sixDB { clubRequest with CostPerPlayer := some tenth } 0).2
            1 7).2
          1).2
        40 1 none none (some "playing") none).2
      41 10 none none (some "playing") none).2
    42 15 none none (some "playing") none).2

/-- The six entries of the cost report of `tenthPlayed`. -/
def tenthEntries : List PlayerCost :=
  [ { PlayerID := 101, PlayerName := some "Ann", GuestName := none, IsGuest := false
      TotalCost := tenth, GamesPlayed := 1 },
    { PlayerID := 102, PlayerName := some "Ben", GuestName := none, IsGuest := false
      TotalCost := tenth, GamesPlayed := 1 },
    { PlayerID := 103, PlayerName := some "Cleo", GuestName := none, IsGuest := false
      TotalCost := tenth, GamesPlayed := 1 },
    { PlayerID := 104, PlayerName := some "Dora", GuestName := none, IsGuest := false
      TotalCost := tenth, GamesPlayed := 1 },
    { PlayerID := 105, PlayerName := some "Eve", GuestName := none, IsGuest := false
      TotalCost := tenth, GamesPlayed := 1 },
    { PlayerID := 106, PlayerName := some "Finn", GuestName := none, IsGuest := false
      TotalCost := tenth, GamesPlayed := 1 } ]

/-! ## Lemmas -/

theorem bitLength_zero (fuel : Nat) : bitLength fuel 0 = 0 := by
  cases fuel <;> rfl

theorem bitLength_succ (fuel n : Nat) (hn : n ≠ 0) :
    bitLength (fuel + 1) n = bitLength fuel (n / 2) + 1 := by
  show (if n = 0 then 0 else bitLength fuel (n / 2) + 1) = _
  rw [if_neg hn]

/-- With enough fuel `bitLength` is the number of binary digits: a positive `n` lies between
`2 ^ (bitLength - 1)` and `2 ^ bitLength`; and `n` itself is enough fuel. -/
theorem bitLength_spec (fuel n : Nat) (hn : n ≠ 0) (hf : n ≤ fuel) :
    2 ^ (bitLength fuel n - 1) ≤ n ∧ n < 2 ^ bitLength fuel n := by
  induction fuel generalizing n with
  | zero => exact absurd (Nat.le_zero.1 hf) hn
  | succ fuel ih =>
    rw [bitLength_succ fuel n hn]
    by_cases h2 : n / 2 = 0
    · rw [h2, bitLength_zero]
      have h1 : n = 1 := by omega
      subst h1
      exact ⟨by decide, by decide⟩
    · obtain ⟨hlow, hhigh⟩ := ih (n / 2) h2 (by omega)
      have hb : bitLength fuel (n / 2) ≠ 0 := by
        intro h0
        rw [h0] at hhigh
        simp at hhigh
        exact h2 hhigh
      obtain ⟨b, hbe⟩ := Nat.exists_eq_succ_of_ne_zero hb
      rw [hbe] at hlow hhigh ⊢
      simp only [Nat.succ_sub_one, Nat.add_sub_cancel] at hlow ⊢
      have e1 : 2 ^ (b + 1) = 2 * 2 ^ b := by rw [Nat.pow_succ, Nat.mul_comm]
      have e2 : 2 ^ (b + 1 + 1) = 2 * (2 * 2 ^ b) := by
        rw [Nat.pow_succ, Nat.pow_succ, Nat.mul_comm, Nat.mul_comm (2 ^ b)]
      rw [Nat.succ_eq_add_one] at hhigh
      rw [e1] at hhigh
      rw [Nat.succ_eq_add_one, e1, e2]
      constructor <;> omega

/-- Values of the float64 addition: 0.1 + 0.2 is the float64 printed as 0.30000000000000004
and not the float64 nearest to 0.3; a tie goes to the even significand (2^53 + 1 is rounded
down to 2^53, 2^53 + 3 up to 2^53 + 4); the smallest subnormal plus itself is exact; the
largest power of two doubled overflows to the infinity, and the infinities add up to the
not-a-number value. -/
theorem F64.add_examples :
    F64.add (.finite tenth) (.finite (mkRat 3602879701896397 18014398509481984))
      = .finite (mkRat 1351079888211149 4503599627370496) ∧
    F64.round (3 / 10) = .finite (mkRat 5404319552844595 18014398509481984) ∧
    F64.add (.finite 9007199254740992) (.finite 1) = .finite 9007199254740992 ∧
    F64.add (.finite 9007199254740992) (.finite 3) = .finite 9007199254740996 ∧
    F64.add (.finite (mkRat 1 (2 ^ 1074))) (.finite (mkRat 1 (2 ^ 1074)))
      = .finite (mkRat 1 (2 ^ 1073)) ∧
    F64.round (mkRat 1 (2 ^ 1075)) = .finite 0 ∧
    F64.add (.finite ((2 ^ 1023 : Nat) : ℚ)) (.finite ((2 ^ 1023 : Nat) : ℚ)) = .posInf ∧
    F64.add .posInf .negInf = .nan :=
  ⟨by decide!, by decide!, by decide!, by decide!, by decide!, by decide!, by decide!,
    by decide!⟩

theorem mem_indexPairs {n : Nat} {p : Nat × Nat} : p ∈ indexPairs n ↔ p.1 < p.2 ∧ p.2 < n := by
  obtain ⟨i, j⟩ := p
  simp only [indexPairs, List.mem_flatMap, List.mem_range, List.mem_map, List.mem_range'_1,
    Prod.mk.injEq]
  constructor
  · rintro ⟨a, ha, b, hb, rfl, rfl⟩
    omega
  · rintro ⟨h1, h2⟩
    exact ⟨i, by omega, j, by omega, rfl, rfl⟩

theorem indexPairs_sorted (n : Nat) : (indexPairs n).Pairwise lexLt := by
  unfold indexPairs
  rw [List.pairwise_flatMap]
  constructor
  · intro i _
    rw [List.pairwise_map]
    have h : (List.range' (i + 1) (n - (i + 1))).Pairwise (fun a b => a < b) :=
      List.pairwise_lt_range' _ _
    exact h.imp (fun hab => Or.inr ⟨rfl, hab⟩)
  · have h : (List.range n).Pairwise (fun a b => a < b) := List.pairwise_lt_range n
    refine h.imp ?_
    intro a b hab x hx y hy
    simp only [List.mem_map] at hx hy
    obtain ⟨_, _, rfl⟩ := hx
    obtain ⟨_, _, rfl⟩ := hy
    exact Or.inl hab

theorem sum_rows (n k : Nat) (hk : k ≤ n) :
    2 * ((List.range k).map (fun i => n - (i + 1))).sum + k * (k + 1) = 2 * k * n := by
  induction k with
  | zero => simp
  | succ k ih =>
    have ih := ih (by omega)
    rw [List.range_succ, List.map_append, List.sum_append]
    simp only [List.map_cons, List.map_nil, List.sum_cons, List.sum_nil, Nat.add_zero]
    obtain ⟨d, rfl⟩ : ∃ d, n = k + 1 + d := ⟨n - (k + 1), by omega⟩
    have e : k + 1 + d - (k + 1) = d := by omega
    rw [e]
    nlinarith [ih]

theorem length_indexPairs (n : Nat) : (indexPairs n).length = n * (n - 1) / 2 := by
  have h := sum_rows n n (le_refl n)
  have hl : (indexPairs n).length = ((List.range n).map (fun i => n - (i + 1))).sum := by
    simp [indexPairs, List.length_flatMap, Function.comp_def]
  rw [hl]
  have h2 : 2 * ((List.range n).map (fun i => n - (i + 1))).sum = n * (n - 1) := by
    cases n with
    | zero => simp
    | succ m =>
      simp only [Nat.add_sub_cancel] at *
      nlinarith [h]
  omega

theorem lt_freshID {ids : List UUID} {x : UUID} (h : x ∈ ids) : x < freshID ids := by
  unfold freshID
  induction ids with
  | nil => cases h
  | cons y ys ih =>
    simp only [List.foldr_cons]
    rcases List.mem_cons.1 h with rfl | h'
    · exact Nat.lt_succ_of_le (Nat.le_max_left _ _)
    · exact Nat.lt_succ_of_le (Nat.le_trans (Nat.le_of_lt_succ (ih h')) (Nat.le_max_right _ _))

theorem firstTrainingGame_create_new (db : DB) (t : TrainingGame) :
    (db.insertTrainingGame t).1.firstTrainingGame (db.insertTrainingGame t).2.ID
      = some (db.insertTrainingGame t).2 := by
  have hnone : db.trainingGames.find?
      (fun g => g.ID == freshID (db.trainingGames.map (fun g => g.ID))) = none := by
    rw [List.find?_eq_none]
    intro g hg
    have hlt : g.ID < freshID (db.trainingGames.map (fun g => g.ID)) :=
      lt_freshID (List.mem_map_of_mem _ hg)
    simp only [beq_iff_eq]
    exact Nat.ne_of_lt hlt
  simp [DB.insertTrainingGame, DB.firstTrainingGame, List.find?_append, hnone]

theorem firstTrainingGame_create_old (db : DB) (t g : TrainingGame)
    (h : db.firstTrainingGame g.ID = some g) :
    (db.insertTrainingGame t).1.firstTrainingGame g.ID = some g := by
  simp only [DB.firstTrainingGame] at h
  simp [DB.insertTrainingGame, DB.firstTrainingGame, List.find?_append, h]

theorem reloadGames_eq (db : DB) (games : List TrainingGame)
    (h : ∀ g ∈ games, db.firstTrainingGame g.ID = some g) : reloadGames db games = .ok games := by
  induction games with
  | nil => rfl
  | cons g rest ih =>
    have hg := h g (List.mem_cons_self _ _)
    have hrest := ih (fun x hx => h x (List.mem_cons_of_mem _ hx))
    simp [reloadGames, hg, hrest]

/-- What the pairing loop does on a list of in-range index pairs. -/
theorem foldl_pairs (sid gm : UUID) (att : List TrainingPlayer) (ps : List (Nat × Nat))
    (hps : ∀ p ∈ ps, p.1 < att.length ∧ p.2 < att.length) (db : DB) (acc : List TrainingGame)
    (hacc : ∀ g ∈ acc, db.firstTrainingGame g.ID = some g) :
    ∃ created : List TrainingGame,
      ps.foldl
          (fun st p =>
            match att[p.1]?, att[p.2]? with
            | some player1, some player2 => insertStep sid gm st player1 player2
            | _, _ => st)
          (db, acc)
        = ({ db with trainingGames := db.trainingGames ++ created }, acc ++ created) ∧
      (∀ g ∈ acc ++ created,
        DB.firstTrainingGame { db with trainingGames := db.trainingGames ++ created } g.ID
          = some g) ∧
      List.Forall₂
        (fun g p => ∃ a b, att[p.1]? = some a ∧ att[p.2]? = some b ∧
          g = { newGame sid gm a b with ID := g.ID })
        created ps := by
  induction ps generalizing db acc with
  | nil => exact ⟨[], by simp, by simpa using hacc, List.Forall₂.nil⟩
  | cons p ps ih =>
    obtain ⟨h1, h2⟩ := hps p (List.mem_cons_self _ _)
    have e1 : att[p.1]? = some att[p.1] := List.getElem?_eq_getElem h1
    have e2 : att[p.2]? = some att[p.2] := List.getElem?_eq_getElem h2
    have hacc' : ∀ g ∈ acc ++ [(db.insertTrainingGame (newGame sid gm att[p.1] att[p.2])).2],
        (db.insertTrainingGame (newGame sid gm att[p.1] att[p.2])).1.firstTrainingGame g.ID
          = some g := by
      intro g hg
      rcases List.mem_append.1 hg with hg | hg
      · exact firstTrainingGame_create_old _ _ _ (hacc g hg)
      · rw [List.mem_singleton] at hg
        subst hg
        exact firstTrainingGame_create_new _ _
    obtain ⟨created, hfold, hfirst, hall⟩ :=
      ih (fun q hq => hps q (List.mem_cons_of_mem _ hq)) _ _ hacc'
    refine ⟨(db.insertTrainingGame (newGame sid gm att[p.1] att[p.2])).2 :: created, ?_, ?_, ?_⟩
    · rw [List.foldl_cons, e1, e2]
      have hstep : insertStep sid gm (db, acc) att[p.1] att[p.2]
          = ((db.insertTrainingGame (newGame sid gm att[p.1] att[p.2])).1,
             acc ++ [(db.insertTrainingGame (newGame sid gm att[p.1] att[p.2])).2]) := rfl
      simp only []
      rw [hstep, hfold]
      simp [DB.insertTrainingGame]
    · intro g hg
      have := hfirst g (by simpa using hg)
      simpa [DB.insertTrainingGame] using this
    · refine List.Forall₂.cons ⟨att[p.1], att[p.2], e1, e2, ?_⟩ hall
      simp [DB.insertTrainingGame, newGame]

theorem insertLoop_eq (sid gm : UUID) (att : List TrainingPlayer) (db : DB) :
    insertLoop sid gm att db
      = (indexPairs att.length).foldl
          (fun st p =>
            match att[p.1]?, att[p.2]? with
            | some player1, some player2 => insertStep sid gm st player1 player2
            | _, _ => st)
          (db, []) := by
  simp only [insertLoop, indexPairs, List.flatMap_def, List.foldl_flatten, List.foldl_map]

theorem attending_eq (db : DB) (sid : UUID) (row : TrainingSession) (hrow : row.ID = sid) :
    (db.preloadTrainingPlayers row).TrainingPlayers.filter (fun tp => tp.Attended)
      = (db.attending sid).map db.preloadPlayer := by
  simp only [DB.preloadTrainingPlayers, DB.attending, hrow, List.filter_map, List.filter_filter]
  congr 1
  apply List.filter_congr
  intro tp _
  simp [DB.preloadPlayer, Bool.and_comm]

theorem firstTrainingSession_ID {db : DB} {sid : UUID} {row : TrainingSession}
    (h : db.firstTrainingSession sid = some row) : row.ID = sid := by
  have := List.find?_some h
  simpa using this

theorem newGame_preload (db : DB) (sid gm : UUID) (a b : TrainingPlayer) :
    newGame sid gm (db.preloadPlayer a) (db.preloadPlayer b) = newGame sid gm a b := rfl

theorem firstGameMode_insert (db : DB) (t : TrainingGame) (id : UUID) :
    (db.insertTrainingGame t).1.firstGameMode id = db.firstGameMode id := rfl

theorem createTrainingGame_found (db : DB) (t : TrainingGame) (mode : GameMode)
    (h : db.firstGameMode t.GameModeID = some mode) :
    db.createTrainingGame t = some (db.insertTrainingGame t) := by
  unfold DB.createTrainingGame
  rw [h]

theorem createTrainingGame_missing (db : DB) (t : TrainingGame)
    (h : db.firstGameMode t.GameModeID = none) : db.createTrainingGame t = none := by
  unfold DB.createTrainingGame
  rw [h]

theorem generateLoop_eq (sid gm : UUID) (att : List TrainingPlayer) (db : DB) :
    generateLoop sid gm att db
      = (indexPairs att.length).foldl
          (fun st p =>
            match att[p.1]?, att[p.2]? with
            | some player1, some player2 => generateStep sid gm st player1 player2
            | _, _ => st)
          (db, .ok []) := by
  simp only [generateLoop, indexPairs, List.flatMap_def, List.foldl_flatten, List.foldl_map]

/-- While the game mode exists, the pairing loop is the inserting loop. -/
theorem generateFold_ok (sid gm : UUID) (att : List TrainingPlayer) (ps : List (Nat × Nat))
    (db : DB) (acc : List TrainingGame) (mode : GameMode)
    (hm : db.firstGameMode gm = some mode) :
    ps.foldl
        (fun st p =>
          match att[p.1]?, att[p.2]? with
          | some player1, some player2 => generateStep sid gm st player1 player2
          | _, _ => st)
        (db, .ok acc)
      = ((ps.foldl
            (fun st p =>
              match att[p.1]?, att[p.2]? with
              | some player1, some player2 => insertStep sid gm st player1 player2
              | _, _ => st)
            (db, acc)).1,
         .ok (ps.foldl
            (fun st p =>
              match att[p.1]?, att[p.2]? with
              | some player1, some player2 => insertStep sid gm st player1 player2
              | _, _ => st)
            (db, acc)).2) := by
  induction ps generalizing db acc with
  | nil => rfl
  | cons p ps ih =>
    rw [List.foldl_cons, List.foldl_cons]
    cases e1 : att[p.1]? with
    | none => exact ih db acc hm
    | some a =>
      cases e2 : att[p.2]? with
      | none => exact ih db acc hm
      | some b =>
        have hcreate := createTrainingGame_found db (newGame sid gm a b) mode hm
        have hstep : generateStep sid gm (db, .ok acc) a b
            = ((db.insertTrainingGame (newGame sid gm a b)).1,
               .ok (acc ++ [(db.insertTrainingGame (newGame sid gm a b)).2])) := by
          unfold generateStep
          simp only [hcreate]
        have hins : insertStep sid gm (db, acc) a b
            = ((db.insertTrainingGame (newGame sid gm a b)).1,
               acc ++ [(db.insertTrainingGame (newGame sid gm a b)).2]) := rfl
        simp only []
        rw [hstep, hins]
        exact ih _ _ hm

/-- Once `Create` has failed, the remaining rounds of the pairing loop do nothing. -/
theorem generateFold_error (sid gm : UUID) (att : List TrainingPlayer) (ps : List (Nat × Nat))
    (db : DB) (e : ServiceError) :
    ps.foldl
        (fun st p =>
          match att[p.1]?, att[p.2]? with
          | some player1, some player2 => generateStep sid gm st player1 player2
          | _, _ => st)
        (db, .error e)
      = (db, .error e) := by
  induction ps with
  | nil => rfl
  | cons p ps ih =>
    rw [List.foldl_cons]
    cases e1 : att[p.1]? with
    | none => exact ih
    | some a =>
      cases e2 : att[p.2]? with
      | none => exact ih
      | some b => exact ih

/-- Without the game mode the first round of the pairing loop fails and nothing is stored. -/
theorem generateFold_missing (sid gm : UUID) (att : List TrainingPlayer) (ps : List (Nat × Nat))
    (hps : ∀ p ∈ ps, p.1 < att.length ∧ p.2 < att.length) (hne : ps ≠ []) (db : DB)
    (acc : List TrainingGame) (hm : db.firstGameMode gm = none) :
    ps.foldl
        (fun st p =>
          match att[p.1]?, att[p.2]? with
          | some player1, some player2 => generateStep sid gm st player1 player2
          | _, _ => st)
        (db, .ok acc)
      = (db, .error (.wrapped "failed to create game" "foreign key violation")) := by
  cases ps with
  | nil => exact absurd rfl hne
  | cons p ps =>
    obtain ⟨h1, h2⟩ := hps p (List.mem_cons_self _ _)
    have e1 : att[p.1]? = some att[p.1] := List.getElem?_eq_getElem h1
    have e2 : att[p.2]? = some att[p.2] := List.getElem?_eq_getElem h2
    have hcreate := createTrainingGame_missing db (newGame sid gm att[p.1] att[p.2]) hm
    have hstep : generateStep sid gm (db, .ok acc) att[p.1] att[p.2]
        = (db, .error (.wrapped "failed to create game" "foreign key violation")) := by
      unfold generateStep
      simp only [hcreate]
    rw [List.foldl_cons, e1, e2]
    simp only []
    rw [hstep]
    exact generateFold_error sid gm att ps db _

/-- What `GenerateGamesForTraining` returns and stores for a planned session with at least two
attending roster entries: one game per index pair, in the order of `indexPairs`. -/
theorem generate_spec (db : DB) (sid gm : UUID) (row : TrainingSession) (mode : GameMode)
    (hrow : db.firstTrainingSession sid = some row) (hst : row.Status = "planned")
    (hn : 2 ≤ (db.attending sid).length) (hm : db.firstGameMode gm = some mode) :
    ∃ games : List TrainingGame,
      GenerateGamesForTraining db sid gm
        = (.ok games, { db with trainingGames := db.trainingGames ++ games }) ∧
      List.Forall₂
        (fun g p => ∃ a b, (db.attending sid)[p.1]? = some a ∧ (db.attending sid)[p.2]? = some b ∧
          g = { newGame sid gm a b with ID := g.ID })
        games (indexPairs (db.attending sid).length) := by
  have hid := firstTrainingSession_ID hrow
  have hatt := attending_eq db sid row hid
  have hlen : ((db.attending sid).map db.preloadPlayer).length = (db.attending sid).length :=
    List.length_map _ _
  obtain ⟨created, hfold, hfirst, hall⟩ :=
    foldl_pairs sid gm ((db.attending sid).map db.preloadPlayer)
      (indexPairs (db.attending sid).length)
      (fun p hp => by
        have := mem_indexPairs.1 hp
        rw [hlen]
        omega)
      db [] (fun g hg => by cases hg)
  refine ⟨created, ?_, ?_⟩
  · have hstatus : (db.preloadTrainingPlayers row).Status = "planned" := hst
    have hloop := generateLoop_eq sid gm ((db.attending sid).map db.preloadPlayer) db
    rw [hlen, generateFold_ok sid gm _ _ db [] mode hm, hfold] at hloop
    have hre := reloadGames_eq _ created (fun g hg => hfirst g (by simpa using hg))
    unfold GenerateGamesForTraining
    simp only [hrow, hstatus, hatt, hlen, hloop, List.nil_append, hre, ne_eq, not_true_eq_false,
      if_false, ite_false]
    rw [if_neg (by omega)]
  · refine hall.imp ?_
    rintro g p ⟨a, b, ha, hb, hg⟩
    rw [List.getElem?_map] at ha hb
    cases ha1 : (db.attending sid)[p.1]? with
    | none => rw [ha1] at ha; cases ha
    | some a0 =>
      cases hb1 : (db.attending sid)[p.2]? with
      | none => rw [hb1] at hb; cases hb
      | some b0 =>
        rw [ha1] at ha
        rw [hb1] at hb
        simp only [Option.map_some', Option.some.injEq] at ha hb
        subst ha
        subst hb
        exact ⟨a0, b0, rfl, rfl, hg⟩

/-- For a planned session with at least two attending roster entries and a game mode id that
names no game mode, the first `Create` is rejected: the method returns the wrapped store error
and has stored nothing. -/
theorem generate_missing_mode (db : DB) (sid gm : UUID) (row : TrainingSession)
    (hrow : db.firstTrainingSession sid = some row) (hst : row.Status = "planned")
    (hn : 2 ≤ (db.attending sid).length) (hm : db.firstGameMode gm = none) :
    GenerateGamesForTraining db sid gm
      = (.error (.wrapped "failed to create game" "foreign key violation"), db) := by
  have hid := firstTrainingSession_ID hrow
  have hatt := attending_eq db sid row hid
  have hlen : ((db.attending sid).map db.preloadPlayer).length = (db.attending sid).length :=
    List.length_map _ _
  have hmem : ((0 : Nat), (1 : Nat)) ∈ indexPairs (db.attending sid).length :=
    mem_indexPairs.2 ⟨by decide, by omega⟩
  have hstatus : (db.preloadTrainingPlayers row).Status = "planned" := hst
  have hloop := generateLoop_eq sid gm ((db.attending sid).map db.preloadPlayer) db
  rw [hlen, generateFold_missing sid gm _ _
    (fun p hp => by
      have := mem_indexPairs.1 hp
      rw [hlen]
      omega)
    (List.ne_nil_of_mem hmem) db [] hm] at hloop
  unfold GenerateGamesForTraining
  simp only [hrow, hstatus, hatt, hlen, hloop, ne_eq, not_true_eq_false, if_false, ite_false]
  rw [if_neg (by omega)]

/-- Without the game mode the pairing loop leaves the store as it is. -/
theorem generateFold_missing_store (sid gm : UUID) (att : List TrainingPlayer)
    (ps : List (Nat × Nat)) (db : DB) (hm : db.firstGameMode gm = none)
    (st : Except ServiceError (List TrainingGame)) :
    (ps.foldl
        (fun st p =>
          match att[p.1]?, att[p.2]? with
          | some player1, some player2 => generateStep sid gm st player1 player2
          | _, _ => st)
        (db, st)).1 = db := by
  induction ps generalizing st with
  | nil => rfl
  | cons p ps ih =>
    rw [List.foldl_cons]
    cases e1 : att[p.1]? with
    | none => exact ih st
    | some a =>
      cases e2 : att[p.2]? with
      | none => exact ih st
      | some b =>
        have hstep : ∃ st', generateStep sid gm (db, st) a b = (db, st') := by
          cases st with
          | error e => exact ⟨_, rfl⟩
          | ok games =>
            have hcreate := createTrainingGame_missing db (newGame sid gm a b) hm
            refine ⟨.error (.wrapped "failed to create game" "foreign key violation"), ?_⟩
            unfold generateStep
            simp only [hcreate]
        obtain ⟨st', hst'⟩ := hstep
        simp only []
        rw [hst']
        exact ih st'

theorem map_eq_map_of_forall₂ {α β γ : Type} {F : α → γ} {G : β → γ} {l₁ : List α}
    {l₂ : List β} (h : List.Forall₂ (fun a b => F a = G b) l₁ l₂) : l₁.map F = l₂.map G := by
  induction h with
  | nil => rfl
  | cons hab _ ih => simp [hab, ih]

theorem nodup_index_inj {α : Type} {l : List α} (h : l.Nodup) {i j : Nat} {x : α}
    (hi : l[i]? = some x) (hj : l[j]? = some x) : i = j := by
  obtain ⟨hi', e1⟩ := List.getElem?_eq_some.1 hi
  obtain ⟨hj', e2⟩ := List.getElem?_eq_some.1 hj
  exact (h.getElem_inj_iff).1 (e1.trans e2.symm)

theorem pairing_of_newGame (sid gm : UUID) (a b : TrainingPlayer) (g : TrainingGame)
    (hg : g = { newGame sid gm a b with ID := g.ID }) :
    g.participant1 = a.participant ∧ g.participant2 = b.participant := by
  rw [hg]
  cases ha : a.IsGuest <;> cases hb : b.IsGuest <;>
    simp [newGame, TrainingGame.participant1, TrainingGame.participant2,
      TrainingPlayer.participant, ha, hb]

theorem pairings_eq (sid gm : UUID) (att : List TrainingPlayer) (games : List TrainingGame)
    (idx : List (Nat × Nat))
    (h : List.Forall₂
        (fun g p => ∃ a b, att[p.1]? = some a ∧ att[p.2]? = some b ∧
          g = { newGame sid gm a b with ID := g.ID }) games idx) :
    games.map TrainingGame.pairing
      = idx.map (fun p => s(participantAt att p.1, participantAt att p.2)) := by
  apply map_eq_map_of_forall₂
  refine h.imp ?_
  rintro g p ⟨a, b, ha, hb, hg⟩
  obtain ⟨h1, h2⟩ := pairing_of_newGame sid gm a b g hg
  simp [TrainingGame.pairing, participantAt, ha, hb, h1, h2]

theorem indexPairs_nodup (n : Nat) : (indexPairs n).Nodup := by
  refine (indexPairs_sorted n).imp ?_
  rintro p q h rfl
  rcases h with h | ⟨_, h⟩ <;> exact Nat.lt_irrefl _ h

theorem participantAt_inj (att : List TrainingPlayer)
    (hd : (att.map TrainingPlayer.participant).Nodup) {i j : Nat} (hi : i < att.length)
    (hj : j < att.length) (h : participantAt att i = participantAt att j) : i = j := by
  have e1 : att[i]? = some att[i] := List.getElem?_eq_getElem hi
  have e2 : att[j]? = some att[j] := List.getElem?_eq_getElem hj
  simp only [participantAt, e1, e2] at h
  refine nodup_index_inj hd (x := att[i].participant) ?_ ?_
  · simp [List.getElem?_map, e1]
  · simp [List.getElem?_map, e2, h]

theorem firstTrainingSession_save (db : DB) (s : TrainingSession) (id : UUID) :
    (db.saveTrainingSession s).firstTrainingSession id
      = if id = s.ID then (db.firstTrainingSession id).map (fun _ => s)
        else db.firstTrainingSession id := by
  simp only [DB.saveTrainingSession, DB.firstTrainingSession]
  induction db.trainingSessions with
  | nil => simp
  | cons r l ih =>
    simp only [List.map_cons, List.find?_cons]
    by_cases hid : id = s.ID
    · subst hid
      simp only [if_true] at ih ⊢
      by_cases hr : r.ID = s.ID
      · have hb : (r.ID == s.ID) = true := by simpa using hr
        simp only [hb, if_true, beq_self_eq_true, Option.map_some']
      · have hb : (r.ID == s.ID) = false := by simpa using hr
        simp only [hb, Bool.false_eq_true, if_false]
        exact ih
    · simp only [if_neg hid] at ih ⊢
      by_cases hr : r.ID = s.ID
      · have hb : (r.ID == s.ID) = true := by simpa using hr
        have hb1 : (s.ID == id) = false := by simpa using fun h => hid h.symm
        have hb2 : (r.ID == id) = false := by rw [hr]; exact hb1
        simp only [hb, if_true, hb1, hb2]
        exact ih
      · have hb : (r.ID == s.ID) = false := by simpa using hr
        simp only [hb, Bool.false_eq_true, if_false]
        cases hb2 : (r.ID == id)
        · exact ih
        · rfl

theorem save_then_get (db : DB) (id : UUID) (row : TrainingSession)
    (hrow : db.firstTrainingSession id = some row) (s : TrainingSession) (hs : s.ID = id) :
    (GetTrainingSessionByID (db.saveTrainingSession s) s.ID, db.saveTrainingSession s)
      = (.ok ((db.saveTrainingSession s).loaded s), db.saveTrainingSession s) := by
  unfold GetTrainingSessionByID
  rw [firstTrainingSession_save, if_pos rfl, hs, hrow]
  rfl

theorem UpdateTrainingSession_accept (db : DB) (id : UUID) (req : TrainingSessionUpdateRequest)
    (row : TrainingSession) (hrow : db.firstTrainingSession id = some row)
    (hvalid : ∀ status, req.Status = some status →
      validSessionStatuses.any (fun valid => status == valid) = true) :
    UpdateTrainingSession db id req
      = (.ok ((db.saveTrainingSession (updatedRow row req)).loaded (updatedRow row req)),
         db.saveTrainingSession (updatedRow row req)) := by
  have hid := firstTrainingSession_ID hrow
  obtain ⟨name, description, date, cost, status⟩ := req
  cases status with
  | none =>
    cases name <;> cases description <;> cases date <;> cases cost <;>
      simp only [UpdateTrainingSession, hrow] <;>
      exact save_then_get db id row hrow _ hid
  | some st =>
    have hv := hvalid st rfl
    cases name <;> cases description <;> cases date <;> cases cost <;>
      simp only [UpdateTrainingSession, hrow, hv, if_true] <;>
      exact save_then_get db id row hrow _ hid

theorem UpdateTrainingSession_reject (db : DB) (id : UUID) (req : TrainingSessionUpdateRequest)
    (row : TrainingSession) (hrow : db.firstTrainingSession id = some row) (status : String)
    (hreq : req.Status = some status)
    (hinvalid : validSessionStatuses.any (fun valid => status == valid) = false) :
    UpdateTrainingSession db id req = (.error (.invalidStatus status), db) := by
  simp [UpdateTrainingSession, hrow, hreq, hinvalid]

theorem validSessionStatuses_any (status : String) :
    validSessionStatuses.any (fun valid => status == valid) = true
      ↔ status = "planned" ∨ status = "active" ∨ status = "completed" ∨ status = "cancelled" := by
  simp [validSessionStatuses]

theorem GetTrainingSessionByID_found (db : DB) (id : UUID) (row : TrainingSession)
    (hrow : db.firstTrainingSession id = some row) :
    GetTrainingSessionByID db id = .ok (db.loaded row) := by
  simp [GetTrainingSessionByID, hrow, DB.loaded]

theorem StartTraining_planned (db : DB) (id : UUID) (row : TrainingSession)
    (hrow : db.firstTrainingSession id = some row) (hst : row.Status = "planned") :
    StartTraining db id
      = (.ok ((db.saveTrainingSession { row with Status := "active" }).loaded
              { row with Status := "active" }),
         db.saveTrainingSession { row with Status := "active" }) := by
  have hl : (db.loaded row).Status = "planned" := hst
  unfold StartTraining
  simp only [GetTrainingSessionByID_found db id row hrow, hl, ne_eq, not_true_eq_false, if_false]
  exact UpdateTrainingSession_accept db id (statusOnly "active") row hrow
    (fun status h => by
      have : status = "active" := by simpa [statusOnly, StringPtr] using h.symm
      subst this
      decide)

theorem StartTraining_other (db : DB) (id : UUID) (row : TrainingSession)
    (hrow : db.firstTrainingSession id = some row) (hst : row.Status ≠ "planned") :
    StartTraining db id = (.error .notInPlannedStatus, db) := by
  have hl : (db.loaded row).Status ≠ "planned" := hst
  unfold StartTraining
  simp only [GetTrainingSessionByID_found db id row hrow]
  rw [if_pos hl]

theorem FinishTraining_active (db : DB) (id : UUID) (row : TrainingSession)
    (hrow : db.firstTrainingSession id = some row) (hst : row.Status = "active") :
    FinishTraining db id
      = (.ok ((db.saveTrainingSession { row with Status := "completed" }).loaded
              { row with Status := "completed" }),
         db.saveTrainingSession { row with Status := "completed" }) := by
  have hl : (db.loaded row).Status = "active" := hst
  unfold FinishTraining
  simp only [GetTrainingSessionByID_found db id row hrow, hl, ne_eq, not_true_eq_false, if_false]
  exact UpdateTrainingSession_accept db id (statusOnly "completed") row hrow
    (fun status h => by
      have : status = "completed" := by simpa [statusOnly, StringPtr] using h.symm
      subst this
      decide)

theorem FinishTraining_other (db : DB) (id : UUID) (row : TrainingSession)
    (hrow : db.firstTrainingSession id = some row) (hst : row.Status ≠ "active") :
    FinishTraining db id = (.error .notActive, db) := by
  have hl : (db.loaded row).Status ≠ "active" := hst
  unfold FinishTraining
  simp only [GetTrainingSessionByID_found db id row hrow]
  rw [if_pos hl]

theorem storedStatus_save (db : DB) (x : TrainingSession) (id : UUID) :
    storedStatus (db.saveTrainingSession x) id
      = if id = x.ID then (storedStatus db id).map (fun _ => x.Status) else storedStatus db id := by
  unfold storedStatus
  rw [firstTrainingSession_save]
  split
  · cases db.firstTrainingSession id <;> rfl
  · rfl

theorem createTrainingPlayers_sessions (sid : UUID) (players : List Player) (tx : DB) :
    (players.foldl
      (fun (tx : DB) player =>
        (tx.createTrainingPlayer
          { ID := 0
            TrainingSessionID := sid
            PlayerID := some player.ID
            GuestName := none
            IsGuest := false
            Attended := true
            Player := none }).1)
      tx).trainingSessions = tx.trainingSessions := by
  induction players generalizing tx with
  | nil => rfl
  | cons p ps ih =>
    rw [List.foldl_cons, ih]
    rfl

theorem storedStatus_create (db : DB) (req : TrainingSessionCreateRequest) (creatorID id : UUID)
    (s : String) (hs : storedStatus db id = some s) :
    storedStatus (CreateTrainingSession db req creatorID).2 id = some s := by
  unfold storedStatus DB.firstTrainingSession at hs ⊢
  simp only [CreateTrainingSession, createTrainingPlayers_sessions]
  simp only [DB.createTrainingSession, List.find?_append]
  cases h : db.trainingSessions.find? (fun s => s.ID == id) with
  | none => rw [h] at hs; cases hs
  | some r => rw [h] at hs; simpa using hs

/-- One operation that supplies no status moves a stored status at most one step forward. -/
theorem storedStatus_step (db : DB) (op : SessionOp) (id : UUID) (s : String)
    (hs : storedStatus db id = some s) (hop : op.suppliesStatus = false) :
    ∃ s', storedStatus (op.run db) id = some s' ∧
      (s' = s ∨ (s = "planned" ∧ s' = "active") ∨ (s = "active" ∧ s' = "completed")) := by
  cases op with
  | createSession req creatorID =>
    exact ⟨s, storedStatus_create db req creatorID id s hs, Or.inl rfl⟩
  | startSession target =>
    simp only [SessionOp.run]
    cases hrow : db.firstTrainingSession target with
    | none =>
      have : StartTraining db target = (.error .trainingSessionNotFound, db) := by
        simp [StartTraining, GetTrainingSessionByID, hrow]
      rw [this]
      exact ⟨s, hs, Or.inl rfl⟩
    | some row =>
      by_cases hst : row.Status = "planned"
      · rw [StartTraining_planned db target row hrow hst]
        simp only [storedStatus_save]
        by_cases hid : id = row.ID
        · have hrid := firstTrainingSession_ID hrow
          have hsame : s = "planned" := by
            rw [hid, hrid] at hs
            simp only [storedStatus, hrow, Option.map_some', Option.some.injEq] at hs
            rw [← hs, hst]
          refine ⟨"active", ?_, Or.inr (Or.inl ⟨hsame, rfl⟩)⟩
          rw [if_pos hid, hs]
          rfl
        · exact ⟨s, by rw [if_neg hid, hs], Or.inl rfl⟩
      · rw [StartTraining_other db target row hrow hst]
        exact ⟨s, hs, Or.inl rfl⟩
  | finishSession target =>
    simp only [SessionOp.run]
    cases hrow : db.firstTrainingSession target with
    | none =>
      have : FinishTraining db target = (.error .trainingSessionNotFound, db) := by
        simp [FinishTraining, GetTrainingSessionByID, hrow]
      rw [this]
      exact ⟨s, hs, Or.inl rfl⟩
    | some row =>
      by_cases hst : row.Status = "active"
      · rw [FinishTraining_active db target row hrow hst]
        simp only [storedStatus_save]
        by_cases hid : id = row.ID
        · have hrid := firstTrainingSession_ID hrow
          have hsame : s = "active" := by
            rw [hid, hrid] at hs
            simp only [storedStatus, hrow, Option.map_some', Option.some.injEq] at hs
            rw [← hs, hst]
          refine ⟨"completed", ?_, Or.inr (Or.inr ⟨hsame, rfl⟩)⟩
          rw [if_pos hid, hs]
          rfl
        · exact ⟨s, by rw [if_neg hid, hs], Or.inl rfl⟩
      · rw [FinishTraining_other db target row hrow hst]
        exact ⟨s, hs, Or.inl rfl⟩
  | updateSession target req =>
    have hnone : req.Status = none := by
      simpa [SessionOp.suppliesStatus] using hop
    simp only [SessionOp.run]
    cases hrow : db.firstTrainingSession target with
    | none =>
      have : UpdateTrainingSession db target req = (.error .trainingSessionNotFound, db) := by
        simp [UpdateTrainingSession, hrow]
      rw [this]
      exact ⟨s, hs, Or.inl rfl⟩
    | some row =>
      rw [UpdateTrainingSession_accept db target req row hrow
        (fun st h => by rw [hnone] at h; cases h)]
      simp only [storedStatus_save]
      by_cases hid : id = (updatedRow row req).ID
      · have hrid := firstTrainingSession_ID hrow
        have hid' : id = target := hid.trans hrid
        have hsame : row.Status = s := by
          rw [hid'] at hs
          simpa [storedStatus, hrow] using hs
        refine ⟨s, ?_, Or.inl rfl⟩
        rw [if_pos hid, hs]
        simp [updatedRow, hnone, hsame]
      · exact ⟨s, by rw [if_neg hid, hs], Or.inl rfl⟩

theorem lifecycleLe_step {s t u : String} (h : lifecycleLe s t)
    (hstep : u = t ∨ (t = "planned" ∧ u = "active") ∨ (t = "active" ∧ u = "completed")) :
    lifecycleLe s u := by
  unfold lifecycleLe at *
  rcases hstep with rfl | ⟨rfl, rfl⟩ | ⟨rfl, rfl⟩
  · exact h
  · rcases h with h | ⟨_, h | h⟩ | ⟨_, h⟩
    · exact Or.inr (Or.inl ⟨h.symm, Or.inl rfl⟩)
    · exact absurd h (by decide)
    · exact absurd h (by decide)
    · exact absurd h (by decide)
  · rcases h with h | ⟨hs, h | h⟩ | ⟨_, h⟩
    · exact Or.inr (Or.inr ⟨h.symm, rfl⟩)
    · exact Or.inr (Or.inl ⟨hs, Or.inr rfl⟩)
    · exact absurd h (by decide)
    · exact absurd h (by decide)

theorem filter_ne_find?_none {α : Type} (key : α → UUID) (l : List α) (id : UUID) :
    (l.filter (fun x => key x != id)).find? (fun x => key x == id) = none := by
  rw [List.find?_eq_none]
  intro x hx
  have := (List.mem_filter.1 hx).2
  simpa using this

theorem find?_fresh_none {α : Type} (key : α → UUID) (l : List α) :
    l.find? (fun x => key x == freshID (l.map key)) = none := by
  rw [List.find?_eq_none]
  intro x hx
  have hlt : key x < freshID (l.map key) := lt_freshID (List.mem_map_of_mem _ hx)
  simp only [beq_iff_eq]
  exact Nat.ne_of_lt hlt

theorem firstTrainingPlayer_ID {db : DB} {id : UUID} {tp : TrainingPlayer}
    (h : db.firstTrainingPlayer id = some tp) : tp.ID = id := by
  have := List.find?_some h
  simpa using this

theorem firstTrainingPlayer_mem {db : DB} {id : UUID} {tp : TrainingPlayer}
    (h : db.firstTrainingPlayer id = some tp) : tp ∈ db.trainingPlayers :=
  List.mem_of_find?_eq_some h

/-- The guest entry `AddTrainingPlayer` stores. -/
theorem AddTrainingPlayer_accept (db : DB) (id : UUID) (row : TrainingSession) (name : String)
    (hrow : db.firstTrainingSession id = some row)
    (hst : row.Status = "planned" ∨ row.Status = "active") (hname : name ≠ "") :
    AddTrainingPlayer db id (some name)
      = (.ok { ID := freshID (db.trainingPlayers.map (fun r => r.ID))
               TrainingSessionID := id
               PlayerID := none
               GuestName := some name
               IsGuest := true
               Attended := true
               Player := none },
         { db with
           trainingPlayers := db.trainingPlayers ++
             [{ ID := freshID (db.trainingPlayers.map (fun r => r.ID))
                TrainingSessionID := id
                PlayerID := none
                GuestName := some name
                IsGuest := true
                Attended := true
                Player := none }] }) := by
  have hcond : ¬ (row.Status ≠ "planned" ∧ row.Status ≠ "active") := by
    rintro ⟨h1, h2⟩
    rcases hst with h | h
    · exact h1 h
    · exact h2 h
  have hfresh := find?_fresh_none (fun r : TrainingPlayer => r.ID) db.trainingPlayers
  unfold AddTrainingPlayer
  simp only [hrow]
  rw [if_neg hcond]
  simp [DB.createTrainingPlayer, hname, List.find?_append, hfresh, DB.preloadPlayer]

theorem AddTrainingPlayer_bad_status (db : DB) (id : UUID) (row : TrainingSession)
    (guestName : Option String) (hrow : db.firstTrainingSession id = some row)
    (hst : ¬ (row.Status = "planned" ∨ row.Status = "active")) :
    AddTrainingPlayer db id guestName = (.error .cannotAddPlayers, db) := by
  have hcond : row.Status ≠ "planned" ∧ row.Status ≠ "active" :=
    ⟨fun h => hst (Or.inl h), fun h => hst (Or.inr h)⟩
  unfold AddTrainingPlayer
  simp only [hrow]
  rw [if_pos hcond]

theorem AddTrainingPlayer_no_name (db : DB) (id : UUID) (row : TrainingSession)
    (guestName : Option String) (hrow : db.firstTrainingSession id = some row)
    (hst : row.Status = "planned" ∨ row.Status = "active")
    (hname : guestName = none ∨ guestName = some "") :
    AddTrainingPlayer db id guestName = (.error .automaticAssignment, db) := by
  have hcond : ¬ (row.Status ≠ "planned" ∧ row.Status ≠ "active") := by
    rintro ⟨h1, h2⟩
    rcases hst with h | h
    · exact h1 h
    · exact h2 h
  unfold AddTrainingPlayer
  simp only [hrow]
  rw [if_neg hcond]
  rcases hname with h | h <;> subst h <;> simp

theorem RemoveTrainingPlayer_not_planned (db : DB) (pid : UUID) (tp : TrainingPlayer)
    (session : TrainingSession) (htp : db.firstTrainingPlayer pid = some tp)
    (hs : db.firstTrainingSession tp.TrainingSessionID = some session)
    (hst : session.Status ≠ "planned") :
    RemoveTrainingPlayer db pid = (.error .cannotRemovePlayers, db) := by
  unfold RemoveTrainingPlayer
  simp only [htp, hs]
  rw [if_pos hst]

theorem RemoveTrainingPlayer_planned_regular (db : DB) (pid : UUID) (tp : TrainingPlayer)
    (session : TrainingSession) (htp : db.firstTrainingPlayer pid = some tp)
    (hs : db.firstTrainingSession tp.TrainingSessionID = some session)
    (hst : session.Status = "planned") (hreg : tp.IsGuest = false) :
    RemoveTrainingPlayer db pid = (.error .cannotRemoveRegular, db) := by
  unfold RemoveTrainingPlayer
  simp only [htp, hs]
  rw [if_neg (not_not.2 hst), if_pos hreg]

theorem RemoveTrainingPlayer_planned_guest (db : DB) (pid : UUID) (tp : TrainingPlayer)
    (session : TrainingSession) (htp : db.firstTrainingPlayer pid = some tp)
    (hs : db.firstTrainingSession tp.TrainingSessionID = some session)
    (hst : session.Status = "planned") (hguest : tp.IsGuest = true) :
    RemoveTrainingPlayer db pid
      = (.ok (), { db with trainingPlayers := db.trainingPlayers.filter (fun r => r.ID != pid) }) := by
  have hid := firstTrainingPlayer_ID htp
  unfold RemoveTrainingPlayer
  simp only [htp, hs]
  rw [if_neg (not_not.2 hst), if_neg (by simp [hguest])]
  simp [DB.deleteTrainingPlayer, hid]

theorem filter_key_eq_erase (l : List TrainingPlayer) (tp : TrainingPlayer) (htp : tp ∈ l)
    (hnodup : (l.map (fun r => r.ID)).Nodup) :
    l.filter (fun r => r.ID != tp.ID) = l.erase tp := by
  rw [List.Nodup.erase_eq_filter (List.Nodup.of_map _ hnodup)]
  apply List.filter_congr
  intro r hr
  by_cases h : r = tp
  · subst h
    rw [bne_self_eq_false, bne_self_eq_false]
  · have hne : r.ID ≠ tp.ID := fun e => h (List.inj_on_of_nodup_map hnodup hr htp e)
    have h1 : (r.ID != tp.ID) = true := bne_iff_ne.2 hne
    have h2 : (r != tp) = true := bne_iff_ne.2 h
    rw [h1, h2]

theorem firstTrainingGame_ID {db : DB} {id : UUID} {g : TrainingGame}
    (h : db.firstTrainingGame id = some g) : g.ID = id := by
  have := List.find?_some h
  simpa using this

theorem firstTrainingGame_save (db : DB) (g : TrainingGame) (id : UUID) :
    (db.saveTrainingGame g).firstTrainingGame id
      = if id = g.ID then (db.firstTrainingGame id).map (fun _ => g)
        else db.firstTrainingGame id := by
  simp only [DB.saveTrainingGame, DB.firstTrainingGame]
  induction db.trainingGames with
  | nil => simp
  | cons r l ih =>
    simp only [List.map_cons, List.find?_cons]
    by_cases hid : id = g.ID
    · subst hid
      simp only [if_true] at ih ⊢
      by_cases hr : r.ID = g.ID
      · have hb : (r.ID == g.ID) = true := by simpa using hr
        simp only [hb, if_true, beq_self_eq_true, Option.map_some']
      · have hb : (r.ID == g.ID) = false := by simpa using hr
        simp only [hb, Bool.false_eq_true, if_false]
        exact ih
    · simp only [if_neg hid] at ih ⊢
      by_cases hr : r.ID = g.ID
      · have hb : (r.ID == g.ID) = true := by simpa using hr
        have hb1 : (g.ID == id) = false := by simpa using fun h => hid h.symm
        have hb2 : (r.ID == id) = false := by rw [hr]; exact hb1
        simp only [hb, if_true, hb1, hb2]
        exact ih
      · have hb : (r.ID == g.ID) = false := by simpa using hr
        simp only [hb, Bool.false_eq_true, if_false]
        cases hb2 : (r.ID == id)
        · exact ih
        · rfl

theorem validGameStatuses_any (st : String) :
    validGameStatuses.any (fun valid => st == valid) = true
      ↔ st = "pending" ∨ st = "playing" ∨ st = "completed" ∨ st = "cancelled" := by
  simp [validGameStatuses]

theorem validWinners_any (w : String) :
    validWinners.any (fun valid => w == valid) = true
      ↔ w = "player1" ∨ w = "player2" ∨ w = "draw" := by
  simp [validWinners]

theorem withScore1_eq (g : TrainingGame) (p1 : Option Int) :
    withScore1 g p1 = { g with Player1Score := p1.getD g.Player1Score } := by
  cases p1 <;> rfl

theorem withScore2_eq (g : TrainingGame) (p2 : Option Int) :
    withScore2 g p2 = { g with Player2Score := p2.getD g.Player2Score } := by
  cases p2 <;> rfl

theorem withStatus_eq (g : TrainingGame) (status : Option String) :
    withStatus g status = { g with Status := status.getD g.Status } := by
  cases status <;> rfl

theorem withWinner_eq (g : TrainingGame) (winner : Option String) :
    withWinner g winner
      = { g with Winner := match winner with | some w => some w | none => g.Winner } := by
  cases winner <;> rfl

theorem withCompletedAt_eq (now : Time) (status : Option String) (g : TrainingGame) :
    withCompletedAt now status g
      = { g with
          CompletedAt :=
            if status = some "completed" ∧ g.CompletedAt = none then some now
            else g.CompletedAt } := by
  unfold withCompletedAt
  split_ifs <;> rfl

theorem withDerivedWinner_eq (status winner : Option String) (g : TrainingGame) :
    withDerivedWinner status winner g
      = { g with
          Winner :=
            if status = some "completed" ∧ winner = none then
              some (derivedWinner g.Player1Score g.Player2Score)
            else g.Winner } := by
  unfold withDerivedWinner derivedWinner
  split_ifs <;> rfl

/-- The stored row after an accepted request, field by field. -/
theorem updatedGame_eq (now : Time) (row : TrainingGame) (p1 p2 : Option Int)
    (status winner : Option String) :
    updatedGame now row p1 p2 status winner
      = { row with
          Player1Score := p1.getD row.Player1Score
          Player2Score := p2.getD row.Player2Score
          Status := status.getD row.Status
          Winner :=
            if status = some "completed" ∧ winner = none then
              some (derivedWinner (p1.getD row.Player1Score) (p2.getD row.Player2Score))
            else
              match winner with
              | some w => some w
              | none => row.Winner
          CompletedAt :=
            if status = some "completed" ∧ row.CompletedAt = none then some now
            else row.CompletedAt } := by
  unfold updatedGame
  rw [withScore1_eq, withScore2_eq, withStatus_eq, withWinner_eq, withCompletedAt_eq,
    withDerivedWinner_eq]

theorem updatedGame_frame (now : Time) (row : TrainingGame) (p1 p2 : Option Int)
    (status winner : Option String) :
    (updatedGame now row p1 p2 status winner).ID = row.ID ∧
    (updatedGame now row p1 p2 status winner).TrainingSessionID = row.TrainingSessionID ∧
    (updatedGame now row p1 p2 status winner).GameModeID = row.GameModeID ∧
    (updatedGame now row p1 p2 status winner).Player1ID = row.Player1ID ∧
    (updatedGame now row p1 p2 status winner).Player2ID = row.Player2ID ∧
    (updatedGame now row p1 p2 status winner).Guest1Name = row.Guest1Name ∧
    (updatedGame now row p1 p2 status winner).Guest2Name = row.Guest2Name := by
  rw [updatedGame_eq]
  simp

theorem updatedGame_scores (now : Time) (row : TrainingGame) (p1 p2 : Option Int)
    (status winner : Option String) :
    (updatedGame now row p1 p2 status winner).Player1Score = p1.getD row.Player1Score ∧
    (updatedGame now row p1 p2 status winner).Player2Score = p2.getD row.Player2Score ∧
    (updatedGame now row p1 p2 status winner).Status = status.getD row.Status := by
  rw [updatedGame_eq]
  simp

theorem updatedGame_CompletedAt (now : Time) (row : TrainingGame) (p1 p2 : Option Int)
    (status winner : Option String) :
    (updatedGame now row p1 p2 status winner).CompletedAt
      = if status = some "completed" ∧ row.CompletedAt = none then some now
        else row.CompletedAt := by
  rw [updatedGame_eq]

theorem updatedGame_Winner (now : Time) (row : TrainingGame) (p1 p2 : Option Int)
    (status winner : Option String) :
    (updatedGame now row p1 p2 status winner).Winner
      = if status = some "completed" ∧ winner = none then
          some (derivedWinner (p1.getD row.Player1Score) (p2.getD row.Player2Score))
        else
          match winner with
          | some w => some w
          | none => row.Winner := by
  rw [updatedGame_eq]

theorem save_then_first (db : DB) (id : UUID) (row : TrainingGame)
    (hrow : db.firstTrainingGame id = some row) (g : TrainingGame) (hg : g.ID = id) :
    (match (db.saveTrainingGame g).firstTrainingGame g.ID with
      | none =>
        ((Except.error (ServiceError.wrapped "failed to fetch updated game" "record not found") :
          Except ServiceError TrainingGame), db.saveTrainingGame g)
      | some result => (.ok result, db.saveTrainingGame g))
      = (.ok g, db.saveTrainingGame g) := by
  rw [firstTrainingGame_save, if_pos rfl, hg, hrow]
  rfl

/-- An accepted request stores and returns `updatedGame`. -/
theorem UpdateGame_accept (db : DB) (now : Time) (id : UUID) (row : TrainingGame)
    (p1 p2 : Option Int) (status winner : Option String)
    (hrow : db.firstTrainingGame id = some row) (hvalid : validGameRequest status winner) :
    UpdateGame db now id p1 p2 status winner
      = (.ok (updatedGame now row p1 p2 status winner),
         db.saveTrainingGame (updatedGame now row p1 p2 status winner)) := by
  have hid := firstTrainingGame_ID hrow
  have hG : ∀ s w, (updatedGame now row p1 p2 s w).ID = id :=
    fun s w => (updatedGame_frame now row p1 p2 s w).1.trans hid
  have hS : status = none ∨ status = some "pending" ∨ status = some "playing" ∨
      status = some "completed" ∨ status = some "cancelled" := by
    cases status with
    | none => exact Or.inl rfl
    | some st => rcases hvalid.1 st rfl with h | h | h | h <;> simp [h]
  have hW : winner = none ∨ winner = some "player1" ∨ winner = some "player2" ∨
      winner = some "draw" := by
    cases winner with
    | none => exact Or.inl rfl
    | some w => rcases hvalid.2 w rfl with h | h | h <;> simp [h]
  unfold UpdateGame
  rw [hrow]
  rcases hS with rfl | rfl | rfl | rfl | rfl <;> rcases hW with rfl | rfl | rfl | rfl <;>
    exact save_then_first db id row hrow _ (hG _ _)

theorem UpdateGame_bad_status (db : DB) (now : Time) (id : UUID) (row : TrainingGame)
    (p1 p2 : Option Int) (st : String) (winner : Option String)
    (hrow : db.firstTrainingGame id = some row)
    (hbad : ¬ (st = "pending" ∨ st = "playing" ∨ st = "completed" ∨ st = "cancelled")) :
    UpdateGame db now id p1 p2 (some st) winner = (.error (.invalidStatus st), db) := by
  have hs : validGameStatuses.any (fun valid => st == valid) = false := by
    cases h : validGameStatuses.any (fun valid => st == valid)
    · rfl
    · exact absurd ((validGameStatuses_any st).1 h) hbad
  unfold UpdateGame
  simp [hrow, hs]

theorem UpdateGame_bad_winner (db : DB) (now : Time) (id : UUID) (row : TrainingGame)
    (p1 p2 : Option Int) (status : Option String) (w : String)
    (hrow : db.firstTrainingGame id = some row)
    (hstatus : ∀ st, status = some st →
      st = "pending" ∨ st = "playing" ∨ st = "completed" ∨ st = "cancelled")
    (hbad : ¬ (w = "player1" ∨ w = "player2" ∨ w = "draw")) :
    UpdateGame db now id p1 p2 status (some w) = (.error (.invalidWinner w), db) := by
  have hw : validWinners.any (fun valid => w == valid) = false := by
    cases h : validWinners.any (fun valid => w == valid)
    · rfl
    · exact absurd ((validWinners_any w).1 h) hbad
  unfold UpdateGame
  cases status with
  | none => simp [hrow, hw]
  | some st =>
    have hs := (validGameStatuses_any st).2 (hstatus st rfl)
    simp [hrow, hs, hw]

/-- A call on an existing game succeeds exactly when the request is valid. -/
theorem UpdateGame_ok_iff (db : DB) (now : Time) (id : UUID) (row : TrainingGame)
    (p1 p2 : Option Int) (status winner : Option String)
    (hrow : db.firstTrainingGame id = some row) :
    (∃ g, (UpdateGame db now id p1 p2 status winner).1 = .ok g)
      ↔ validGameRequest status winner := by
  constructor
  · rintro ⟨g, hg⟩
    by_contra hv
    by_cases hs : ∀ st, status = some st →
        st = "pending" ∨ st = "playing" ∨ st = "completed" ∨ st = "cancelled"
    · have hw : ¬ ∀ w, winner = some w → w = "player1" ∨ w = "player2" ∨ w = "draw" :=
        fun hw => hv ⟨hs, hw⟩
      push_neg at hw
      obtain ⟨w, rfl, hbad⟩ := hw
      rw [UpdateGame_bad_winner db now id row p1 p2 status w hrow hs (by tauto)] at hg
      cases hg
    · push_neg at hs
      obtain ⟨st, rfl, hbad⟩ := hs
      rw [UpdateGame_bad_status db now id row p1 p2 st winner hrow (by tauto)] at hg
      cases hg
  · intro hv
    rw [UpdateGame_accept db now id row p1 p2 status winner hrow hv]
    exact ⟨_, rfl⟩

/-- The game a successful call returns is `updatedGame`, and it is the stored one. -/
theorem UpdateGame_ok (db : DB) (now : Time) (id : UUID) (row : TrainingGame)
    (p1 p2 : Option Int) (status winner : Option String) (g : TrainingGame)
    (hrow : db.firstTrainingGame id = some row)
    (hok : (UpdateGame db now id p1 p2 status winner).1 = .ok g) :
    g = updatedGame now row p1 p2 status winner ∧
    UpdateGame db now id p1 p2 status winner = (.ok g, db.saveTrainingGame g) ∧
    (db.saveTrainingGame g).firstTrainingGame id = some g := by
  have hv := (UpdateGame_ok_iff db now id row p1 p2 status winner hrow).1 ⟨g, hok⟩
  have hacc := UpdateGame_accept db now id row p1 p2 status winner hrow hv
  rw [hacc] at hok
  have hg : g = updatedGame now row p1 p2 status winner := by
    injection hok with h
    exact h.symm
  have hid := firstTrainingGame_ID hrow
  refine ⟨hg, by rw [hacc, hg], ?_⟩
  rw [firstTrainingGame_save, if_pos, hrow]
  · rfl
  · rw [hg, (updatedGame_frame now row p1 p2 status winner).1, hid]

theorem validGameRequest_completed : validGameRequest (some "completed") none := by
  constructor
  · intro st h
    cases h
    exact Or.inr (Or.inr (Or.inl rfl))
  · intro w h
    cases h

/-- The enrolment loop of `CreateTrainingSession` appends one regular attending row per player,
in the order of the players, and touches no other table. -/
theorem enrol_spec (sid : UUID) (players : List Player) (tx : DB) :
    ∃ rows : List TrainingPlayer,
      players.foldl
          (fun (tx : DB) player =>
            (tx.createTrainingPlayer
              { ID := 0
                TrainingSessionID := sid
                PlayerID := some player.ID
                GuestName := none
                IsGuest := false
                Attended := true
                Player := none }).1)
          tx
        = { tx with trainingPlayers := tx.trainingPlayers ++ rows } ∧
      rows.map TrainingPlayer.enrolment
        = players.map (fun p => (sid, some p.ID, none, false, true)) := by
  induction players generalizing tx with
  | nil => exact ⟨[], by simp, rfl⟩
  | cons p ps ih =>
    obtain ⟨rows, hfold, hrows⟩ := ih
      (tx.createTrainingPlayer
        { ID := 0
          TrainingSessionID := sid
          PlayerID := some p.ID
          GuestName := none
          IsGuest := false
          Attended := true
          Player := none }).1
    refine ⟨(tx.createTrainingPlayer
        { ID := 0
          TrainingSessionID := sid
          PlayerID := some p.ID
          GuestName := none
          IsGuest := false
          Attended := true
          Player := none }).2 :: rows, ?_, ?_⟩
    · rw [List.foldl_cons, hfold]
      simp [DB.createTrainingPlayer]
    · rw [List.map_cons, List.map_cons, hrows]
      rfl

/-- The cost `Create` stores for a session whose cost was taken from the request: the supplied
cost, or 5 when none is supplied, as long as the supplied cost is not 0. -/
theorem createdCost (supplied : Option ℚ) :
    supplied ≠ some 0 →
    (if (match supplied with | some cost => cost | none => 5 : ℚ) = 0 then (5 : ℚ)
      else (match supplied with | some cost => cost | none => 5 : ℚ))
      = supplied.getD 5 := by
  intro h
  cases supplied with
  | none => simp
  | some c =>
    have hc : c ≠ 0 := fun e => h (by rw [e])
    simp [hc]

theorem enrolment_preloadPlayer (db : DB) (tp : TrainingPlayer) :
    (db.preloadPlayer tp).enrolment = tp.enrolment := rfl

/-- What `CreateTrainingSession` returns when the supplied cost is not 0: a planned session
with the requested name, description and date, the supplied cost or 5 when none is supplied, a
key no older session has, and a roster with exactly one regular attending entry per known
player, in the order of the players. -/
theorem CreateTrainingSession_spec (db : DB) (req : TrainingSessionCreateRequest)
    (creatorID : UUID) (hfk : db.rosterReferencesSessions)
    (hcost : req.CostPerPlayer ≠ some 0) :
    ∃ s : TrainingSession,
      (CreateTrainingSession db req creatorID).1 = .ok s ∧
      s.Status = "planned" ∧ s.CostPerPlayer = req.CostPerPlayer.getD 5 ∧
      s.Name = req.Name ∧ s.Description = req.Description ∧
      s.TrainingDate = req.TrainingDate ∧ s.CreatedBy = some creatorID ∧
      (∀ r ∈ db.trainingSessions, r.ID ≠ s.ID) ∧
      s.TrainingPlayers.map TrainingPlayer.enrolment
        = db.players.map (fun p => (s.ID, some p.ID, none, false, true)) := by
  obtain ⟨r, hr⟩ : ∃ r, r = db.createTrainingSession
      { ID := 0
        Name := req.Name
        Description := req.Description
        TrainingDate := req.TrainingDate
        CostPerPlayer :=
          match req.CostPerPlayer with
          | some cost => cost
          | none => 5
        Status := "planned"
        CreatedBy := some creatorID
        TrainingPlayers := []
        Games := [] } := ⟨_, rfl⟩
  have hr1 : r.1 = { db with trainingSessions := db.trainingSessions ++ [r.2] } := by
    rw [hr]
    rfl
  have hid : r.2.ID = freshID (db.trainingSessions.map (fun s => s.ID)) := by
    rw [hr]
    rfl
  obtain ⟨rows, hfold, hrows⟩ := enrol_spec r.2.ID r.1.players r.1
  have hcreate : CreateTrainingSession db req creatorID
      = (GetTrainingSessionByID { r.1 with trainingPlayers := r.1.trainingPlayers ++ rows }
          r.2.ID,
         { r.1 with trainingPlayers := r.1.trainingPlayers ++ rows }) := by
    rw [← hfold, hr]
    rfl
  have hfresh := find?_fresh_none (fun r : TrainingSession => r.ID) db.trainingSessions
  have hfirst : DB.firstTrainingSession
      { r.1 with trainingPlayers := r.1.trainingPlayers ++ rows } r.2.ID = some r.2 := by
    rw [hr1]
    simp only [DB.firstTrainingSession, List.find?_append, hid, hfresh, Option.none_or,
      List.find?_cons]
    rw [← hid]
    simp
  have hold : db.trainingPlayers.filter (fun tp => tp.TrainingSessionID == r.2.ID) = [] := by
    rw [List.filter_eq_nil_iff]
    intro tp htp
    obtain ⟨s, hs, hsid⟩ := hfk tp htp
    have hlt := lt_freshID (List.mem_map_of_mem (fun r : TrainingSession => r.ID) hs)
    simp only [beq_iff_eq]
    rw [← hsid, hid]
    exact Nat.ne_of_lt hlt
  have hnew : rows.filter (fun tp => tp.TrainingSessionID == r.2.ID) = rows := by
    rw [List.filter_eq_self]
    intro tp htp
    have hm : tp.enrolment ∈ rows.map TrainingPlayer.enrolment := List.mem_map_of_mem _ htp
    rw [hrows, List.mem_map] at hm
    obtain ⟨p, -, hp⟩ := hm
    have : tp.TrainingSessionID = r.2.ID := (congrArg Prod.fst hp).symm
    simp [this]
  have hplayers : r.1.players = db.players := by
    rw [hr1]
  have hroster : r.1.trainingPlayers = db.trainingPlayers := by
    rw [hr1]
  refine ⟨DB.loaded { r.1 with trainingPlayers := r.1.trainingPlayers ++ rows } r.2,
    ?_, ?_, ?_, ?_, And.intro ?_ ⟨?_, ?_, ?_, ?_⟩⟩
  · rw [hcreate]
    exact GetTrainingSessionByID_found _ _ _ hfirst
  · rw [hr]
    simp [DB.loaded, DB.preloadGames, DB.preloadTrainingPlayers, DB.createTrainingSession]
  · rw [hr]
    exact createdCost req.CostPerPlayer hcost
  · rw [hr]
    rfl
  · rw [hr]
    rfl
  · rw [hr]
    rfl
  · rw [hr]
    rfl
  · intro x hx
    have hlt := lt_freshID (List.mem_map_of_mem (fun r : TrainingSession => r.ID) hx)
    have : (DB.loaded { r.1 with trainingPlayers := r.1.trainingPlayers ++ rows } r.2).ID
        = r.2.ID := rfl
    rw [this, hid]
    exact Nat.ne_of_lt hlt
  · have hview : (DB.loaded { r.1 with trainingPlayers := r.1.trainingPlayers ++ rows }
        r.2).TrainingPlayers
        = ((r.1.trainingPlayers ++ rows).filter
            (fun tp => tp.TrainingSessionID == r.2.ID)).map
            (DB.preloadPlayer { r.1 with trainingPlayers := r.1.trainingPlayers ++ rows }) :=
      rfl
    have hsid : (DB.loaded { r.1 with trainingPlayers := r.1.trainingPlayers ++ rows } r.2).ID
        = r.2.ID := rfl
    rw [hview, hsid, hroster, List.filter_append, hold, hnew, List.nil_append, List.map_map,
      ← hplayers, ← hrows]
    apply List.map_congr_left
    intro tp _
    rfl

theorem DeleteGame_blocked (db : DB) (id : UUID) (row : TrainingGame)
    (hrow : db.firstTrainingGame id = some row)
    (hst : row.Status = "completed" ∨ row.Status = "playing") :
    DeleteGame db id = (.error .cannotDeleteGame, db) := by
  unfold DeleteGame
  simp only [hrow]
  rw [if_pos hst]

theorem DeleteGame_done (db : DB) (id : UUID) (row : TrainingGame)
    (hrow : db.firstTrainingGame id = some row)
    (hst : ¬ (row.Status = "completed" ∨ row.Status = "playing")) :
    DeleteGame db id
      = (.ok (), { db with trainingGames := db.trainingGames.filter (fun g => g.ID != id) }) := by
  have hid := firstTrainingGame_ID hrow
  unfold DeleteGame
  simp only [hrow]
  rw [if_neg hst]
  simp [DB.deleteTrainingGame, hid]

theorem filter_gameKey_eq_erase (l : List TrainingGame) (g : TrainingGame) (hg : g ∈ l)
    (hnodup : (l.map (fun r => r.ID)).Nodup) :
    l.filter (fun r => r.ID != g.ID) = l.erase g := by
  rw [List.Nodup.erase_eq_filter (List.Nodup.of_map _ hnodup)]
  apply List.filter_congr
  intro r hr
  by_cases h : r = g
  · subst h
    rw [bne_self_eq_false, bne_self_eq_false]
  · have hne : r.ID ≠ g.ID := fun e => h (List.inj_on_of_nodup_map hnodup hr hg e)
    have h1 : (r.ID != g.ID) = true := bne_iff_ne.2 hne
    have h2 : (r != g) = true := bne_iff_ne.2 h
    rw [h1, h2]

/-- The outcome of `CreateGame` once the session, the game mode and the referenced players are
found and the session is active: the slot check decides. -/
theorem CreateGame_active (db : DB) (sid gm : UUID) (p1 p2 : Option UUID)
    (n1 n2 : Option String) (session : TrainingSession) (mode : GameMode)
    (hs : db.firstTrainingSession sid = some session) (hst : session.Status = "active")
    (hm : db.firstGameMode gm = some mode)
    (h1 : ∀ pid, p1 = some pid → (db.firstPlayer pid).isNone = false)
    (h2 : ∀ pid, p2 = some pid → (db.firstPlayer pid).isNone = false) :
    CreateGame db sid gm p1 p2 n1 n2
      = if (p1 ≠ none ∨ n1 ≠ none) ∧ (p2 ≠ none ∨ n2 ≠ none) then
          (.ok (createdGame db sid gm p1 p2 n1 n2),
           { db with
             trainingGames := db.trainingGames ++ [createdGame db sid gm p1 p2 n1 n2] })
        else (.error .exactlyTwoPlayers, db) := by
  have hnew := firstTrainingGame_create_new db
    { ID := 0
      TrainingSessionID := sid
      GameModeID := gm
      Player1ID := p1
      Player2ID := p2
      Guest1Name := n1
      Guest2Name := n2
      Player1Score := 0
      Player2Score := 0
      Status := "pending"
      Winner := none
      CompletedAt := none }
  have hcreate := createTrainingGame_found db
    { ID := 0
      TrainingSessionID := sid
      GameModeID := gm
      Player1ID := p1
      Player2ID := p2
      Guest1Name := n1
      Guest2Name := n2
      Player1Score := 0
      Player2Score := 0
      Status := "pending"
      Winner := none
      CompletedAt := none } mode hm
  unfold CreateGame
  simp only [hs, hm]
  rw [if_neg (not_not.2 hst)]
  rcases p1 with _ | a
  · rcases p2 with _ | b
    · rcases n1 with _ | x <;> rcases n2 with _ | y <;>
        first
        | rfl
        | (simp only [Bool.false_eq_true, if_false, ne_eq, not_true_eq_false, not_false_eq_true,
            reduceCtorEq, or_self, or_true, true_or, and_self, if_true, Nat.zero_add,
            Nat.reduceAdd, hcreate]; rw [hnew]; rfl)
    · have hb := h2 b rfl
      simp only [hb]
      rcases n1 with _ | x <;> rcases n2 with _ | y <;>
        first
        | rfl
        | (simp only [Bool.false_eq_true, if_false, ne_eq, not_true_eq_false, not_false_eq_true,
            reduceCtorEq, or_self, or_true, true_or, and_self, if_true, Nat.zero_add,
            Nat.reduceAdd, hcreate]; rw [hnew]; rfl)
  · have ha := h1 a rfl
    simp only [ha]
    rcases p2 with _ | b
    · rcases n1 with _ | x <;> rcases n2 with _ | y <;>
        first
        | rfl
        | (simp only [Bool.false_eq_true, if_false, ne_eq, not_true_eq_false, not_false_eq_true,
            reduceCtorEq, or_self, or_true, true_or, and_self, if_true, Nat.zero_add,
            Nat.reduceAdd, hcreate]; rw [hnew]; rfl)
    · have hb := h2 b rfl
      simp only [hb]
      rcases n1 with _ | x <;> rcases n2 with _ | y <;>
        first
        | rfl
        | (simp only [Bool.false_eq_true, if_false, ne_eq, not_true_eq_false, not_false_eq_true,
            reduceCtorEq, or_self, or_true, true_or, and_self, if_true, Nat.zero_add,
            Nat.reduceAdd, hcreate]; rw [hnew]; rfl)

theorem CreateGame_inactive (db : DB) (sid gm : UUID) (p1 p2 : Option UUID)
    (n1 n2 : Option String) (session : TrainingSession)
    (hs : db.firstTrainingSession sid = some session) (hst : session.Status ≠ "active") :
    CreateGame db sid gm p1 p2 n1 n2 = (.error .sessionNotActiveForGame, db) := by
  unfold CreateGame
  simp only [hs]
  rw [if_pos hst]

theorem knowsPlayer_isNone {db : DB} {playerID : Option UUID} (h : db.knowsPlayer playerID) :
    ∀ pid, playerID = some pid → (db.firstPlayer pid).isNone = false := by
  intro pid hp
  obtain ⟨p, hfound⟩ := h pid hp
  rw [hfound]
  rfl

/-- A successful `CreateGame` passed every check of the method. -/
theorem CreateGame_ok_inv (db : DB) (sid gm : UUID) (p1 p2 : Option UUID)
    (n1 n2 : Option String) (g : TrainingGame)
    (h : (CreateGame db sid gm p1 p2 n1 n2).1 = .ok g) :
    ∃ session mode, db.firstTrainingSession sid = some session ∧ session.Status = "active" ∧
      db.firstGameMode gm = some mode ∧ db.knowsPlayer p1 ∧ db.knowsPlayer p2 := by
  cases hs : db.firstTrainingSession sid with
  | none =>
    unfold CreateGame at h
    simp [hs] at h
  | some session =>
    by_cases hst : session.Status = "active"
    · cases hm : db.firstGameMode gm with
      | none =>
        unfold CreateGame at h
        simp [hs, hst, hm] at h
      | some mode =>
        have k1 : db.knowsPlayer p1 := by
          intro pid hp
          cases hf : db.firstPlayer pid with
          | some p => exact ⟨p, rfl⟩
          | none =>
            subst hp
            unfold CreateGame at h
            simp [hs, hst, hm, hf] at h
        have k2 : db.knowsPlayer p2 := by
          intro pid hp
          cases hf : db.firstPlayer pid with
          | some p => exact ⟨p, rfl⟩
          | none =>
            subst hp
            unfold CreateGame at h
            have e1 := knowsPlayer_isNone k1
            rcases p1 with _ | a
            · simp [hs, hst, hm, hf] at h
            · simp [hs, hst, hm, hf, e1 a rfl] at h
        exact ⟨session, mode, rfl, hst, rfl, k1, k2⟩
    · rw [CreateGame_inactive db sid gm p1 p2 n1 n2 session hs hst] at h
      cases h

/-- A successful `CreateGame` returns the game it handed to `Create` and appends it. -/
theorem CreateGame_ok (db : DB) (sid gm : UUID) (p1 p2 : Option UUID)
    (n1 n2 : Option String) (g : TrainingGame)
    (h : (CreateGame db sid gm p1 p2 n1 n2).1 = .ok g) :
    g = createdGame db sid gm p1 p2 n1 n2 ∧ slotSupplied p1 n1 ∧ slotSupplied p2 n2 ∧
    (CreateGame db sid gm p1 p2 n1 n2).2
      = { db with trainingGames := db.trainingGames ++ [g] } := by
  obtain ⟨session, mode, hs, hst, hm, k1, k2⟩ := CreateGame_ok_inv db sid gm p1 p2 n1 n2 g h
  have hact := CreateGame_active db sid gm p1 p2 n1 n2 session mode hs hst hm
    (knowsPlayer_isNone k1) (knowsPlayer_isNone k2)
  by_cases c : (p1 ≠ none ∨ n1 ≠ none) ∧ (p2 ≠ none ∨ n2 ≠ none)
  · rw [if_pos c] at hact
    rw [hact] at h ⊢
    have hg : createdGame db sid gm p1 p2 n1 n2 = g := by
      injection h
    exact ⟨hg.symm, c.1, c.2, by rw [hg]⟩
  · rw [if_neg c] at hact
    rw [hact] at h
    cases h

/-- The text of an invalid-status error is none of the texts the handlers compare with. -/
theorem invalidStatus_text (s : String) :
    (ServiceError.invalidStatus s).Error ≠ "invalid status" ∧
    (ServiceError.invalidStatus s).Error ≠ "invalid winner" ∧
    (ServiceError.invalidStatus s).Error ≠ "game not found" ∧
    (ServiceError.invalidStatus s).Error ≠ "training session not found" := by
  have hlen : (ServiceError.invalidStatus s).Error.length = 16 + s.length := by
    show ("invalid status: " ++ s).length = 16 + s.length
    rw [String.length_append]
    rfl
  have hshort : ∀ t : String, t.length = 14 → (ServiceError.invalidStatus s).Error ≠ t := by
    intro t ht h
    rw [h, ht] at hlen
    omega
  refine ⟨hshort _ rfl, hshort _ rfl, hshort _ rfl, ?_⟩
  intro h
  have hdata := congrArg String.data h
  have happ : (ServiceError.invalidStatus s).Error.data
      = 'i' :: ("nvalid status: ".data ++ s.data) := by
    show ("invalid status: " ++ s).data = _
    rw [String.data_append]
    rfl
  rw [happ] at hdata
  have hhead : 'i' = 't' := (List.cons.inj hdata).1
  exact absurd hhead (by decide)

/-- The text of an invalid-winner error is none of the texts the game handler compares
with. -/
theorem invalidWinner_text (w : String) :
    (ServiceError.invalidWinner w).Error ≠ "invalid status" ∧
    (ServiceError.invalidWinner w).Error ≠ "invalid winner" ∧
    (ServiceError.invalidWinner w).Error ≠ "game not found" := by
  have hlen : (ServiceError.invalidWinner w).Error.length = 16 + w.length := by
    show ("invalid winner: " ++ w).length = 16 + w.length
    rw [String.length_append]
    rfl
  have hshort : ∀ t : String, t.length = 14 → (ServiceError.invalidWinner w).Error ≠ t := by
    intro t ht h
    rw [h, ht] at hlen
    omega
  exact ⟨hshort _ rfl, hshort _ rfl, hshort _ rfl⟩

/-- Every status outside the four session statuses makes the session handler answer 500. -/
theorem TrainingHandler_invalid_status (db : DB) (id : UUID) (req : TrainingSessionUpdateRequest)
    (row : TrainingSession) (hrow : db.firstTrainingSession id = some row) (status : String)
    (hreq : req.Status = some status)
    (hbad : ¬ (status = "planned" ∨ status = "active" ∨ status = "completed" ∨
      status = "cancelled")) :
    TrainingHandler.UpdateTrainingSession db id req = (500, db) := by
  have hs : validSessionStatuses.any (fun valid => status == valid) = false := by
    cases h : validSessionStatuses.any (fun valid => status == valid)
    · rfl
    · exact absurd ((validSessionStatuses_any status).1 h) hbad
  obtain ⟨h1, _, _, h4⟩ := invalidStatus_text status
  unfold TrainingHandler.UpdateTrainingSession
  rw [UpdateTrainingSession_reject db id req row hrow status hreq hs]
  simp only [h1, h4, if_false]

/-- Every status outside the four match statuses makes the game handler answer 500. -/
theorem GameHandler_invalid_status (db : DB) (now : Time) (id : UUID) (row : TrainingGame)
    (p1 p2 : Option Int) (st : String) (winner : Option String)
    (hrow : db.firstTrainingGame id = some row)
    (hbad : ¬ (st = "pending" ∨ st = "playing" ∨ st = "completed" ∨ st = "cancelled")) :
    GameHandler.UpdateGame db now id p1 p2 (some st) winner = (500, db) := by
  obtain ⟨h1, h2, h3, _⟩ := invalidStatus_text st
  unfold GameHandler.UpdateGame
  rw [UpdateGame_bad_status db now id row p1 p2 st winner hrow hbad]
  simp only [h1, h2, h3, if_false, or_self]

/-- Every winner outside the three winners makes the game handler answer 500. -/
theorem GameHandler_invalid_winner (db : DB) (now : Time) (id : UUID) (row : TrainingGame)
    (p1 p2 : Option Int) (status : Option String) (w : String)
    (hrow : db.firstTrainingGame id = some row)
    (hstatus : ∀ st, status = some st →
      st = "pending" ∨ st = "playing" ∨ st = "completed" ∨ st = "cancelled")
    (hbad : ¬ (w = "player1" ∨ w = "player2" ∨ w = "draw")) :
    GameHandler.UpdateGame db now id p1 p2 status (some w) = (500, db) := by
  obtain ⟨h1, h2, h3⟩ := invalidWinner_text w
  unfold GameHandler.UpdateGame
  rw [UpdateGame_bad_winner db now id row p1 p2 status w hrow hstatus hbad]
  simp only [h1, h2, h3, if_false, or_self]

/-- The rows the pairing loop adds carry keys above every key that was in the table. -/
theorem foldl_pairs_keys (sid gm : UUID) (att : List TrainingPlayer) (ps : List (Nat × Nat))
    (db : DB) (acc : List TrainingGame) :
    ∃ created : List TrainingGame,
      (ps.foldl
          (fun st p =>
            match att[p.1]?, att[p.2]? with
            | some player1, some player2 => insertStep sid gm st player1 player2
            | _, _ => st)
          (db, acc)).1.trainingGames = db.trainingGames ++ created ∧
      ∀ g ∈ created, ∀ old ∈ db.trainingGames, old.ID < g.ID := by
  induction ps generalizing db acc with
  | nil => exact ⟨[], by simp, by simp⟩
  | cons p ps ih =>
    rw [List.foldl_cons]
    cases e1 : att[p.1]? with
    | none => exact ih db acc
    | some a =>
      cases e2 : att[p.2]? with
      | none => exact ih db acc
      | some b =>
        have hstep : insertStep sid gm (db, acc) a b
            = ((db.insertTrainingGame (newGame sid gm a b)).1,
               acc ++ [(db.insertTrainingGame (newGame sid gm a b)).2]) := rfl
        obtain ⟨created, hfold, hkeys⟩ :=
          ih (db.insertTrainingGame (newGame sid gm a b)).1
            (acc ++ [(db.insertTrainingGame (newGame sid gm a b)).2])
        refine ⟨(db.insertTrainingGame (newGame sid gm a b)).2 :: created, ?_, ?_⟩
        · simp only []
          rw [hstep, hfold]
          simp [DB.insertTrainingGame]
        · intro g hg old hold
          rcases List.mem_cons.1 hg with rfl | hg
          · exact lt_freshID (List.mem_map_of_mem (fun g : TrainingGame => g.ID) hold)
          · exact hkeys g hg old (by simp [DB.insertTrainingGame, hold])

/-- Whatever `GenerateGamesForTraining` answers, it only appends to the games table, and the
appended rows carry keys above every key that was in the table. -/
theorem generate_keys (db : DB) (sid gm : UUID) :
    ∃ created : List TrainingGame,
      (GenerateGamesForTraining db sid gm).2.trainingGames = db.trainingGames ++ created ∧
      ∀ g ∈ created, ∀ old ∈ db.trainingGames, old.ID < g.ID := by
  have hloop : ∀ att : List TrainingPlayer, ∃ created : List TrainingGame,
      (generateLoop sid gm att db).1.trainingGames = db.trainingGames ++ created ∧
      ∀ g ∈ created, ∀ old ∈ db.trainingGames, old.ID < g.ID := by
    intro att
    rw [generateLoop_eq]
    cases hm : db.firstGameMode gm with
    | none =>
      rw [generateFold_missing_store sid gm att _ db hm]
      exact ⟨[], by simp, by simp⟩
    | some mode =>
      rw [generateFold_ok sid gm att _ db [] mode hm]
      exact foldl_pairs_keys sid gm _ _ db []
  unfold GenerateGamesForTraining
  cases db.firstTrainingSession sid with
  | none => exact ⟨[], by simp, by simp⟩
  | some row =>
    simp only []
    split_ifs
    · exact ⟨[], by simp, by simp⟩
    · exact ⟨[], by simp, by simp⟩
    · obtain ⟨created, hc, hk⟩ := hloop
        ((db.preloadTrainingPlayers row).TrainingPlayers.filter (fun tp => tp.Attended))
      refine ⟨created, ?_, hk⟩
      rw [← hc]
      cases (generateLoop sid gm
        ((db.preloadTrainingPlayers row).TrainingPlayers.filter (fun tp => tp.Attended)) db).2 <;>
        rfl

theorem forall₂_left {α β : Type} {R : α → β → Prop} {P : α → Prop} {l₁ : List α}
    {l₂ : List β} (h : List.Forall₂ R l₁ l₂) (hP : ∀ a b, R a b → P a) : ∀ a ∈ l₁, P a := by
  induction h with
  | nil => intro a ha; cases ha
  | cons hab _ ih =>
    intro a ha
    rcases List.mem_cons.1 ha with rfl | ha
    · exact hP _ _ hab
    · exact ih a ha

/-- Two runs of the pairing loop over the same attending list build the same games up to the
keys. -/
theorem generated_content_eq (sid gm : UUID) (att : List TrainingPlayer)
    {games₁ games₂ : List TrainingGame} {idx : List (Nat × Nat)}
    (h₁ : List.Forall₂
        (fun g p => ∃ a b, att[p.1]? = some a ∧ att[p.2]? = some b ∧
          g = { newGame sid gm a b with ID := g.ID }) games₁ idx)
    (h₂ : List.Forall₂
        (fun g p => ∃ a b, att[p.1]? = some a ∧ att[p.2]? = some b ∧
          g = { newGame sid gm a b with ID := g.ID }) games₂ idx) :
    games₂.map TrainingGame.content = games₁.map TrainingGame.content := by
  induction h₁ generalizing games₂ with
  | nil => cases h₂; rfl
  | cons hg _ ih =>
    cases h₂ with
    | cons hg₂ hrest₂ =>
      obtain ⟨a, b, ha, hb, e⟩ := hg
      obtain ⟨a', b', ha', hb', e'⟩ := hg₂
      rw [ha] at ha'
      rw [hb] at hb'
      cases ha'
      cases hb'
      simp only [List.map_cons]
      rw [ih hrest₂]
      congr 1
      rw [e, e']
      rfl

/-- A successful `GenerateGamesForTraining` passed every check of the method. -/
theorem generate_ok_inv (db : DB) (sid gm : UUID) (games : List TrainingGame)
    (h : (GenerateGamesForTraining db sid gm).1 = .ok games) :
    ∃ row mode, db.firstTrainingSession sid = some row ∧ row.Status = "planned" ∧
      2 ≤ (db.attending sid).length ∧ db.firstGameMode gm = some mode := by
  cases hrow : db.firstTrainingSession sid with
  | none =>
    unfold GenerateGamesForTraining at h
    simp [hrow] at h
  | some row =>
    have hid := firstTrainingSession_ID hrow
    have hatt := attending_eq db sid row hid
    have hstatus : (db.preloadTrainingPlayers row).Status = row.Status := rfl
    by_cases hst : row.Status = "planned"
    · by_cases hn : 2 ≤ (db.attending sid).length
      · cases hm : db.firstGameMode gm with
        | some mode => exact ⟨row, mode, rfl, hst, hn, rfl⟩
        | none =>
          rw [generate_missing_mode db sid gm row hrow hst hn hm] at h
          cases h
      · unfold GenerateGamesForTraining at h
        simp only [hrow, hstatus, hatt, List.length_map] at h
        rw [if_neg (not_not.2 hst), if_pos (by omega)] at h
        simp at h
    · unfold GenerateGamesForTraining at h
      simp only [hrow, hstatus, hatt, List.length_map] at h
      rw [if_pos hst] at h
      simp at h

/-- Every game a successful `GenerateGamesForTraining` returns is pending, without winner and
without completion time. -/
theorem generated_pending (db : DB) (sid gm : UUID) (games : List TrainingGame)
    (h : (GenerateGamesForTraining db sid gm).1 = .ok games) :
    ∀ g ∈ games, g.Status = "pending" ∧ g.Winner = none ∧ g.CompletedAt = none := by
  obtain ⟨row, mode, hrow, hst, hn, hm⟩ := generate_ok_inv db sid gm games h
  obtain ⟨games', hres, hall⟩ := generate_spec db sid gm row mode hrow hst hn hm
  rw [hres] at h
  have hsame : games' = games := by
    injection h
  subst hsame
  refine forall₂_left (P := fun g => g.Status = "pending" ∧ g.Winner = none ∧
    g.CompletedAt = none) hall ?_
  rintro g p ⟨a, b, _, _, e⟩
  rw [e]
  exact ⟨rfl, rfl, rfl⟩

theorem derivedWinner_valid (a b : Int) :
    derivedWinner a b = "player1" ∨ derivedWinner a b = "player2" ∨ derivedWinner a b = "draw" := by
  unfold derivedWinner
  split_ifs
  · exact Or.inl rfl
  · exact Or.inr (Or.inl rfl)
  · exact Or.inr (Or.inr rfl)

/-- An accepted update keeps the condition on the match. -/
theorem updatedGame_invariant (now : Time) (row : TrainingGame) (p1 p2 : Option Int)
    (status winner : Option String) (hv : validGameRequest status winner)
    (hrow : GameInvariant row) : GameInvariant (updatedGame now row p1 p2 status winner) := by
  obtain ⟨hs, hw, hc⟩ := hrow
  rw [updatedGame_eq]
  refine ⟨?_, ?_, ?_⟩
  · show status.getD row.Status = "pending" ∨ status.getD row.Status = "playing" ∨
      status.getD row.Status = "completed" ∨ status.getD row.Status = "cancelled"
    cases status with
    | none => exact hs
    | some st => exact hv.1 st rfl
  · intro w
    dsimp only
    split_ifs with hcond
    · intro e
      rw [← Option.some.inj e]
      exact derivedWinner_valid _ _
    · cases winner with
      | none => exact hw w
      | some w' =>
        intro e
        rw [← Option.some.inj e]
        exact hv.2 w' rfl
  · dsimp only
    intro hdone
    cases status with
    | none =>
      obtain ⟨h1, h2⟩ := hc hdone
      constructor
      · rw [if_neg (fun h => by cases h.1)]
        exact h1
      · rw [if_neg (fun h => by cases h.1)]
        cases winner with
        | none => exact h2
        | some w' => rfl
    | some st =>
      have hst : st = "completed" := hdone
      subst hst
      constructor
      · split_ifs with hcond
        · rfl
        · cases hca : row.CompletedAt with
          | none => exact absurd ⟨rfl, hca⟩ hcond
          | some t => rfl
      · cases winner with
        | none => rfl
        | some w' => rfl

/-- When the comparison with the two dereferenced fields answers, it answers whether one of
the two fields holds the value. -/
theorem derefEqEither_eq {α : Type} [DecidableEq α] (a : α) (b c : Option α) (r : Bool)
    (h : derefEqEither a b c = some r) : r = (b == some a || c == some a) := by
  unfold derefEqEither at h
  cases b with
  | none => cases h
  | some x =>
    by_cases hx : a = x
    · subst hx
      simp only [if_true] at h
      cases h
      simp
    · simp only [hx, if_false] at h
      cases c with
      | none => cases h
      | some y =>
        cases h
        have hx' : ¬ x = a := fun e => hx e.symm
        by_cases hy : a = y
        · subst hy
          simp
        · have hy' : ¬ y = a := fun e => hy e.symm
          simp [hx', hy, hy']

/-- On a well-formed roster entry the participation test of the cost loop, when it answers,
answers whether the attendee occupies a slot of the match. -/
theorem participated_eq (tp : TrainingPlayer) (g : TrainingGame) (b : Bool)
    (hwf : tp.IsGuest = true → tp.PlayerID = none) (h : participated tp g = some b) :
    b = tp.occupies g := by
  unfold participated at h
  unfold TrainingPlayer.occupies
  cases hig : tp.IsGuest with
  | true =>
    rw [hwf hig] at h
    simp only [hig, if_true] at h ⊢
    cases hn : tp.GuestName with
    | none =>
      rw [hn] at h
      exact (Option.some.inj h).symm
    | some name =>
      rw [hn] at h
      exact derefEqEither_eq name g.Guest1Name g.Guest2Name b h
  | false =>
    simp only [hig] at h ⊢
    cases hp : tp.PlayerID with
    | none =>
      rw [hp] at h
      exact (Option.some.inj h).symm
    | some pid =>
      rw [hp] at h
      show b = (g.Player1ID == some pid || g.Player2ID == some pid)
      cases hd : derefEqEither pid g.Player1ID g.Player2ID with
      | none =>
        simp only [hd] at h
        cases h
      | some r =>
        have hr := derefEqEither_eq pid g.Player1ID g.Player2ID r hd
        rw [← hr]
        cases r with
        | true =>
          simp only [hd] at h
          exact (Option.some.inj h).symm
        | false =>
          simp only [hd, Bool.false_eq_true, if_false] at h
          exact (Option.some.inj h).symm

theorem derefEqEither_some {α : Type} [DecidableEq α] (a : α) (b c : Option α)
    (hb : b ≠ none) (hc : c ≠ none) : ∃ r, derefEqEither a b c = some r := by
  unfold derefEqEither
  cases b with
  | none => exact absurd rfl hb
  | some x =>
    cases c with
    | none => exact absurd rfl hc
    | some y =>
      by_cases hx : a = x
      · exact ⟨true, by simp [hx]⟩
      · exact ⟨decide (a = y), by simp [hx]⟩

/-- The participation test answers when the match has the fields the attendee is compared
with. -/
theorem participated_some (tp : TrainingPlayer) (g : TrainingGame) (h : tp.comparable g) :
    ∃ b, participated tp g = some b := by
  obtain ⟨h1, h2⟩ := h
  have hguest : ∃ b, (if tp.IsGuest then
        match tp.GuestName with
        | none => some false
        | some name => derefEqEither name g.Guest1Name g.Guest2Name
      else some false) = some b := by
    cases hig : tp.IsGuest with
    | false => exact ⟨false, rfl⟩
    | true =>
      cases hn : tp.GuestName with
      | none => exact ⟨false, rfl⟩
      | some name =>
        have hne : tp.GuestName ≠ none := by
          rw [hn]
          exact Option.some_ne_none name
        obtain ⟨r, hr⟩ := derefEqEither_some name g.Guest1Name g.Guest2Name (h2 hig hne).1
          (h2 hig hne).2
        exact ⟨r, by simpa using hr⟩
  unfold participated
  cases hp : tp.PlayerID with
  | none => exact hguest
  | some pid =>
    have hne : tp.PlayerID ≠ none := by
      rw [hp]
      exact Option.some_ne_none pid
    obtain ⟨r, hr⟩ := derefEqEither_some pid g.Player1ID g.Player2ID (h1 hne).1 (h1 hne).2
    cases r with
    | true => exact ⟨true, by simp only [hr]⟩
    | false =>
      obtain ⟨b, hb⟩ := hguest
      exact ⟨b, by simp only [hr]; exact hb⟩

theorem counts_iff (g : TrainingGame) :
    g.counts = true ↔ (g.Status = "completed" ∨ g.Status = "playing") := by
  simp [TrainingGame.counts, or_comm]

theorem countGames_eq (tp : TrainingPlayer) (games : List TrainingGame) :
    countGames tp games = countFrom tp (some 0) games := rfl

theorem countFrom_none (tp : TrainingPlayer) (games : List TrainingGame) :
    countFrom tp none games = none := by
  induction games with
  | nil => rfl
  | cons g games ih => exact ih

theorem countFrom_cons (tp : TrainingPlayer) (k : Int) (g : TrainingGame)
    (games : List TrainingGame) :
    countFrom tp (some k) (g :: games)
      = countFrom tp
          (if g.counts then
            match participated tp g with
            | none => none
            | some true => some (k + 1)
            | some false => some k
          else some k) games := by
  by_cases hc : g.Status = "completed" ∨ g.Status = "playing"
  · have hc' : g.counts = true := (counts_iff g).2 hc
    rw [hc', if_pos rfl]
    show countFrom tp (if g.Status = "completed" ∨ g.Status = "playing" then _ else _) games = _
    rw [if_pos hc]
  · have hc' : g.counts = false := by
      cases h : g.counts
      · rfl
      · exact absurd ((counts_iff g).1 h) hc
    rw [hc']
    show countFrom tp (if g.Status = "completed" ∨ g.Status = "playing" then _ else _) games = _
    rw [if_neg hc]
    rfl

theorem qualifying_cons (tp : TrainingPlayer) (g : TrainingGame) (games : List TrainingGame) :
    tp.qualifying (g :: games)
      = (if (g.counts && tp.occupies g) = true then 1 else 0) + tp.qualifying games := by
  unfold TrainingPlayer.qualifying
  rw [List.filter_cons]
  split_ifs
  · simp [Nat.add_comm]
  · simp

/-- When the counting loop answers for a well-formed roster entry, it answers the number of
qualifying matches. -/
theorem countFrom_eq (tp : TrainingPlayer) (hwf : tp.IsGuest = true → tp.PlayerID = none)
    (games : List TrainingGame) (k n : Int) (h : countFrom tp (some k) games = some n) :
    n = k + tp.qualifying games := by
  induction games generalizing k with
  | nil =>
    have hk : k = n := Option.some.inj h
    simp [TrainingPlayer.qualifying, hk]
  | cons g games ih =>
    rw [countFrom_cons] at h
    rw [qualifying_cons]
    cases hc : g.counts with
    | false =>
      rw [hc] at h
      have := ih k h
      simp [this]
    | true =>
      rw [hc, if_pos rfl] at h
      cases hp : participated tp g with
      | none =>
        rw [hp] at h
        rw [countFrom_none] at h
        cases h
      | some b =>
        have hb := participated_eq tp g b hwf hp
        rw [hp] at h
        cases b with
        | true =>
          have := ih (k + 1) h
          rw [← hb]
          simp [this]
          ring
        | false =>
          have := ih k h
          rw [← hb]
          simp [this]

/-- The counting loop answers when every counting match has the fields the attendee is
compared with. -/
theorem countFrom_some (tp : TrainingPlayer) (games : List TrainingGame)
    (hcmp : ∀ g ∈ games, g.counts = true → tp.comparable g) (k : Int) :
    ∃ n, countFrom tp (some k) games = some n := by
  induction games generalizing k with
  | nil => exact ⟨k, rfl⟩
  | cons g games ih =>
    have ih' := ih (fun g' hg' => hcmp g' (List.mem_cons_of_mem _ hg'))
    rw [countFrom_cons]
    cases hc : g.counts with
    | false => exact ih' k
    | true =>
      obtain ⟨b, hb⟩ := participated_some tp g (hcmp g (List.mem_cons_self _ _) hc)
      rw [if_pos rfl, hb]
      cases b with
      | true => exact ih' (k + 1)
      | false => exact ih' k

theorem costStep_eq (session : TrainingSession) (acc : List PlayerCost × F64)
    (tp : TrainingPlayer) :
    costStep session acc tp
      = if tp.Attended = false then some acc
        else
          match costEntry session tp with
          | none => none
          | some playerCost =>
            some (acc.1 ++ [playerCost], acc.2.add (.finite playerCost.TotalCost)) := by
  unfold costStep costEntry
  cases tp.Attended with
  | false => rfl
  | true =>
    cases countGames tp session.Games with
    | none => rfl
    | some n =>
      cases tp.IsGuest with
      | true => rfl
      | false =>
        cases tp.PlayerID with
        | none => rfl
        | some pid => rfl

/-- What an entry of the cost list says about its attendee. -/
theorem costEntry_eq (session : TrainingSession) (tp : TrainingPlayer) (pc : PlayerCost)
    (h : costEntry session tp = some pc) :
    countGames tp session.Games = some pc.GamesPlayed ∧
    pc.TotalCost = (if pc.GamesPlayed = 0 then 0 else session.CostPerPlayer) ∧
    pc.IsGuest = tp.IsGuest ∧
    (tp.IsGuest = true → pc.GuestName = tp.GuestName ∧ pc.PlayerID = 0 ∧ pc.PlayerName = none) ∧
    (tp.IsGuest = false →
      tp.PlayerID = some pc.PlayerID ∧ pc.GuestName = none ∧
      pc.PlayerName = tp.Player.map (fun p => p.Name)) := by
  unfold costEntry at h
  cases hn : countGames tp session.Games with
  | none =>
    rw [hn] at h
    cases h
  | some n =>
    rw [hn] at h
    cases hig : tp.IsGuest with
    | true =>
      simp only [hig, if_true] at h
      have hpc := Option.some.inj h
      subst hpc
      exact ⟨rfl, rfl, rfl, fun _ => ⟨rfl, rfl, rfl⟩, fun hf => by cases hf⟩
    | false =>
      simp only [hig, Bool.false_eq_true, if_false] at h
      cases hp : tp.PlayerID with
      | none =>
        rw [hp] at h
        cases h
      | some pid =>
        rw [hp] at h
        have hpc := Option.some.inj h
        subst hpc
        exact ⟨rfl, rfl, rfl, fun hf => (by cases hf), fun _ => ⟨rfl, rfl, rfl⟩⟩

/-- The cost loop builds an entry for an attendee whose counting loop answers and who, when
regular, has a player reference. -/
theorem costEntry_some (session : TrainingSession) (tp : TrainingPlayer)
    (hreg : tp.IsGuest = false → tp.PlayerID ≠ none)
    (hcmp : ∀ g ∈ session.Games, g.counts = true → tp.comparable g) :
    ∃ pc, costEntry session tp = some pc := by
  obtain ⟨n, hn⟩ := countFrom_some tp session.Games hcmp 0
  unfold costEntry
  rw [countGames_eq, hn]
  cases hig : tp.IsGuest with
  | true => exact ⟨_, rfl⟩
  | false =>
    cases hp : tp.PlayerID with
    | none => exact absurd hp (hreg hig)
    | some pid => exact ⟨_, rfl⟩

theorem costFrom_none (session : TrainingSession) (roster : List TrainingPlayer) :
    costFrom session none roster = none := by
  induction roster with
  | nil => rfl
  | cons tp roster ih => exact ih

theorem costFrom_cons (session : TrainingSession) (acc : List PlayerCost × F64)
    (tp : TrainingPlayer) (roster : List TrainingPlayer) :
    costFrom session (some acc) (tp :: roster)
      = costFrom session (costStep session acc tp) roster := rfl

/-- When the roster loop answers, it appended one entry per attending roster entry, in roster
order, and added the costs of these entries to the total. -/
theorem costFrom_eq (session : TrainingSession) (roster : List TrainingPlayer)
    (acc r : List PlayerCost × F64) (h : costFrom session (some acc) roster = some r) :
    ∃ entries : List PlayerCost,
      r = (acc.1 ++ entries, F64.sumFrom acc.2 (entries.map (fun pc => pc.TotalCost))) ∧
      List.Forall₂ (fun pc tp => costEntry session tp = some pc) entries
        (roster.filter (fun tp => tp.Attended)) := by
  induction roster generalizing acc with
  | nil =>
    have hacc : acc = r := Option.some.inj h
    subst hacc
    exact ⟨[], by simp [F64.sumFrom], List.Forall₂.nil⟩
  | cons tp roster ih =>
    rw [costFrom_cons, costStep_eq] at h
    cases hatt : tp.Attended with
    | false =>
      rw [hatt, if_pos rfl] at h
      obtain ⟨entries, hr, hall⟩ := ih acc h
      refine ⟨entries, hr, ?_⟩
      rw [List.filter_cons, hatt]
      exact hall
    | true =>
      rw [hatt, if_neg (by decide)] at h
      cases hpc : costEntry session tp with
      | none =>
        rw [hpc] at h
        rw [costFrom_none] at h
        cases h
      | some pc =>
        rw [hpc] at h
        obtain ⟨entries, hr, hall⟩ := ih _ h
        refine ⟨pc :: entries, ?_, ?_⟩
        · rw [hr]
          simp [F64.sumFrom]
        · rw [List.filter_cons, hatt]
          exact List.Forall₂.cons hpc hall

/-- The roster loop answers when it builds an entry for every attending roster entry. -/
theorem costFrom_some (session : TrainingSession) (roster : List TrainingPlayer)
    (hall : ∀ tp ∈ roster, tp.Attended = true → ∃ pc, costEntry session tp = some pc)
    (acc : List PlayerCost × F64) : ∃ r, costFrom session (some acc) roster = some r := by
  induction roster generalizing acc with
  | nil => exact ⟨acc, rfl⟩
  | cons tp roster ih =>
    have ih' := ih (fun tp' htp' => hall tp' (List.mem_cons_of_mem _ htp'))
    rw [costFrom_cons, costStep_eq]
    cases hatt : tp.Attended with
    | false => exact ih' acc
    | true =>
      obtain ⟨pc, hpc⟩ := hall tp (List.mem_cons_self _ _) hatt
      rw [if_neg (by decide), hpc]
      exact ih' _

theorem GetTrainingCosts_eq (db : DB) (id : UUID) (row : TrainingSession)
    (hrow : db.firstTrainingSession id = some row) :
    GetTrainingCosts db id
      = (costFrom (db.loaded row) (some ([], 0)) (db.loaded row).TrainingPlayers).map
          (fun r =>
            .ok { TrainingSessionID := id, PlayerCosts := r.1, TotalCollected := r.2 }) := by
  unfold GetTrainingCosts
  rw [GetTrainingSessionByID_found db id row hrow]
  simp only []
  cases hfold : costFrom (db.loaded row) (some ([], 0)) (db.loaded row).TrainingPlayers with
  | none =>
    unfold costFrom at hfold
    rw [hfold]
    rfl
  | some r =>
    unfold costFrom at hfold
    rw [hfold]
    rfl

theorem loaded_games (db : DB) (id : UUID) (row : TrainingSession) (hid : row.ID = id) :
    (db.loaded row).Games = db.gamesOf id := by
  show db.trainingGames.filter (fun g => g.TrainingSessionID == row.ID) = db.gamesOf id
  rw [hid]
  rfl

theorem loaded_attending (db : DB) (id : UUID) (row : TrainingSession) (hid : row.ID = id) :
    (db.loaded row).TrainingPlayers.filter (fun tp => tp.Attended)
      = (db.attending id).map db.preloadPlayer :=
  attending_eq db id row hid

/-- What a returned cost response is made of: one entry of the cost loop per attending roster
entry of the session, in table order, and the sum of their costs. -/
theorem GetTrainingCosts_ok (db : DB) (id : UUID) (row : TrainingSession)
    (resp : TrainingCostsResponse) (hrow : db.firstTrainingSession id = some row)
    (hret : GetTrainingCosts db id = some (.ok resp)) :
    resp.TrainingSessionID = id ∧
    resp.TotalCollected = F64.sumFrom 0 (resp.PlayerCosts.map (fun pc => pc.TotalCost)) ∧
    List.Forall₂ (fun pc tp => costEntry (db.loaded row) (db.preloadPlayer tp) = some pc)
      resp.PlayerCosts (db.attending id) := by
  have hid := firstTrainingSession_ID hrow
  rw [GetTrainingCosts_eq db id row hrow] at hret
  cases hfold : costFrom (db.loaded row) (some ([], 0)) (db.loaded row).TrainingPlayers with
  | none =>
    rw [hfold] at hret
    cases hret
  | some r =>
    rw [hfold] at hret
    have hresp : resp
        = { TrainingSessionID := id, PlayerCosts := r.1, TotalCollected := r.2 } := by
      injection hret with h1
      injection h1 with h2
      exact h2.symm
    obtain ⟨entries, hr, hall⟩ := costFrom_eq _ _ _ _ hfold
    rw [loaded_attending db id row hid] at hall
    subst hresp
    rw [hr]
    refine ⟨rfl, by simp, ?_⟩
    simpa [List.forall₂_map_right_iff] using hall

/-- A cost response is returned when every regular attending entry has a player reference and
every counting match of the session has the fields the attending entries are compared with. -/
theorem GetTrainingCosts_returns (db : DB) (id : UUID) (row : TrainingSession)
    (hrow : db.firstTrainingSession id = some row)
    (hreg : ∀ tp ∈ db.attending id, tp.IsGuest = false → tp.PlayerID ≠ none)
    (hcmp : ∀ tp ∈ db.attending id, ∀ g ∈ db.gamesOf id, g.counts = true → tp.comparable g) :
    ∃ resp, GetTrainingCosts db id = some (.ok resp) := by
  have hid := firstTrainingSession_ID hrow
  have hall : ∀ tp ∈ (db.loaded row).TrainingPlayers, tp.Attended = true →
      ∃ pc, costEntry (db.loaded row) tp = some pc := by
    intro tp htp hatt
    have hmem : tp ∈ (db.loaded row).TrainingPlayers.filter (fun tp => tp.Attended) :=
      List.mem_filter.2 ⟨htp, hatt⟩
    rw [loaded_attending db id row hid] at hmem
    obtain ⟨tp0, htp0, rfl⟩ := List.mem_map.1 hmem
    apply costEntry_some
    · exact hreg tp0 htp0
    · intro g hg hc
      rw [loaded_games db id row hid] at hg
      exact hcmp tp0 htp0 g hg hc
  obtain ⟨r, hr⟩ := costFrom_some (db.loaded row) _ hall ([], 0)
  rw [GetTrainingCosts_eq db id row hrow, hr]
  exact ⟨_, rfl⟩

/-- The entries of a returned cost response, attendee by attendee: the number of qualifying
matches and the cost. -/
theorem GetTrainingCosts_counts (db : DB) (id : UUID) (row : TrainingSession)
    (resp : TrainingCostsResponse) (hrow : db.firstTrainingSession id = some row)
    (hwf : ∀ tp ∈ db.attending id, tp.IsGuest = true → tp.PlayerID = none)
    (hret : GetTrainingCosts db id = some (.ok resp)) :
    List.Forall₂
      (fun pc tp =>
        pc.GamesPlayed = tp.qualifying (db.gamesOf id) ∧
        pc.TotalCost = if tp.qualifying (db.gamesOf id) = 0 then 0 else row.CostPerPlayer)
      resp.PlayerCosts (db.attending id) := by
  have hid := firstTrainingSession_ID hrow
  obtain ⟨_, _, hall⟩ := GetTrainingCosts_ok db id row resp hrow hret
  have hmem : List.Forall₂
      (fun pc tp => tp ∈ db.attending id ∧
        costEntry (db.loaded row) (db.preloadPlayer tp) = some pc)
      resp.PlayerCosts (db.attending id) := by
    rw [List.forall₂_iff_get] at hall ⊢
    refine ⟨hall.1, fun i h1 h2 => ⟨List.get_mem _ _ _, hall.2 i h1 h2⟩⟩
  refine hmem.imp ?_
  rintro pc tp ⟨htp, hpc⟩
  obtain ⟨hcount, hcost, _⟩ := costEntry_eq _ _ _ hpc
  rw [loaded_games db id row hid, countGames_eq] at hcount
  have hq := countFrom_eq (db.preloadPlayer tp) (hwf tp htp) (db.gamesOf id) 0 pc.GamesPlayed
    hcount
  have hq' : pc.GamesPlayed = ((tp.qualifying (db.gamesOf id) : Nat) : Int) := by
    rw [hq]
    simp
    rfl
  refine ⟨hq', ?_⟩
  rw [hcost, hq']
  by_cases hz : tp.qualifying (db.gamesOf id) = 0
  · simp [hz]
  · have hz' : ¬ ((tp.qualifying (db.gamesOf id) : Nat) : Int) = 0 := by
      exact_mod_cast hz
    rw [if_neg hz', if_neg hz]
    rfl

theorem F64.round_zero : F64.round 0 = .finite 0 := by decide!

theorem F64.add_finite (x y : ℚ) : F64.add (.finite x) (.finite y) = F64.round (x + y) := rfl

theorem sumFrom_cons (start : F64) (cost : ℚ) (costs : List ℚ) :
    F64.sumFrom start (cost :: costs) = F64.sumFrom (start.add (.finite cost)) costs := rfl

/-- Costs that are all zero add up to zero. -/
theorem sumFrom_zero (costs : List ℚ) (h : ∀ c ∈ costs, c = 0) :
    F64.sumFrom (.finite 0) costs = .finite 0 := by
  induction costs with
  | nil => rfl
  | cons c costs ih =>
    have hc : c = 0 := h c (List.mem_cons_self _ _)
    rw [sumFrom_cons, hc, F64.add_finite, add_zero, F64.round_zero]
    exact ih (fun c' hc' => h c' (List.mem_cons_of_mem _ hc'))

/-- The costs of entries that each cost nothing or the rate add up, in float64, to the rate
times the number of paying attendees, as long as every multiple of the rate met on the way is
a float64 value. -/
theorem sumFrom_exact (c : ℚ) (q : TrainingPlayer → Nat) {entries : List PlayerCost}
    {tps : List TrainingPlayer}
    (h : List.Forall₂ (fun pc tp => pc.TotalCost = if q tp = 0 then 0 else c) entries tps)
    (k0 : Nat)
    (hexact : ∀ k : Nat, k ≤ k0 + (tps.filter (fun tp => decide (0 < q tp))).length →
      F64.round (c * k) = .finite (c * k)) :
    F64.sumFrom (.finite (c * k0)) (entries.map (fun pc => pc.TotalCost))
      = .finite (c * ((k0 + (tps.filter (fun tp => decide (0 < q tp))).length : Nat) : ℚ)) := by
  induction h generalizing k0 with
  | nil => simp [F64.sumFrom]
  | @cons pc tp _ _ hab _ ih =>
    rw [List.map_cons, sumFrom_cons, hab, F64.add_finite]
    by_cases hz : q tp = 0
    · have hfilter : ∀ l : List TrainingPlayer,
          (tp :: l).filter (fun tp => decide (0 < q tp))
            = l.filter (fun tp => decide (0 < q tp)) := by
        intro l
        rw [List.filter_cons]
        simp [hz]
      rw [hfilter] at hexact ⊢
      rw [if_pos hz, add_zero, hexact k0 (Nat.le_add_right _ _)]
      exact ih k0 hexact
    · have hpos : 0 < q tp := Nat.pos_of_ne_zero hz
      have hfilter : ∀ l : List TrainingPlayer,
          (tp :: l).filter (fun tp => decide (0 < q tp))
            = tp :: l.filter (fun tp => decide (0 < q tp)) := by
        intro l
        rw [List.filter_cons]
        simp [hpos]
      rw [hfilter] at hexact ⊢
      have hstep : c * (k0 : ℚ) + c = c * ((k0 + 1 : Nat) : ℚ) := by
        push_cast
        ring
      have hshift : ∀ n : Nat, k0 + 1 + n = k0 + (n + 1) := fun n => by omega
      rw [List.length_cons] at hexact
      rw [if_neg hz, hstep, hexact (k0 + 1) (by omega)]
      have hih := ih (k0 + 1) (fun k hk => hexact k (by omega))
      rw [hih, List.length_cons, hshift]

theorem countFrom_panics (tp : TrainingPlayer) (games : List TrainingGame) (g : TrainingGame)
    (hg : g ∈ games) (hc : g.counts = true) (hp : participated tp g = none) (k : Int) :
    countFrom tp (some k) games = none := by
  induction games generalizing k with
  | nil => cases hg
  | cons g' games ih =>
    rw [countFrom_cons]
    rcases List.mem_cons.1 hg with rfl | hg'
    · rw [hc, if_pos rfl, hp]
      exact countFrom_none tp games
    · cases hstart : (if g'.counts then
          match participated tp g' with
          | none => none
          | some true => some (k + 1)
          | some false => some k
        else some k) with
      | none => exact countFrom_none tp games
      | some k' => exact ih hg' k'

theorem costFrom_panics (session : TrainingSession) (roster : List TrainingPlayer)
    (tp : TrainingPlayer) (htp : tp ∈ roster) (hatt : tp.Attended = true)
    (hnone : costEntry session tp = none) (acc : List PlayerCost × F64) :
    costFrom session (some acc) roster = none := by
  induction roster generalizing acc with
  | nil => cases htp
  | cons tp' roster ih =>
    rw [costFrom_cons]
    rcases List.mem_cons.1 htp with rfl | htp'
    · rw [costStep_eq, hatt, if_neg (by decide), hnone]
      exact costFrom_none session roster
    · cases hstep : costStep session acc tp' with
      | none => exact costFrom_none session roster
      | some acc' => exact ih htp' acc'

/-- The cost calculation panics as soon as the participation test panics for one attending
roster entry on one counting match of the session. -/
theorem GetTrainingCosts_panics (db : DB) (id : UUID) (row : TrainingSession)
    (hrow : db.firstTrainingSession id = some row) (tp : TrainingPlayer)
    (htp : tp ∈ db.attending id) (g : TrainingGame) (hg : g ∈ db.gamesOf id)
    (hc : g.counts = true) (hp : participated tp g = none) :
    GetTrainingCosts db id = none := by
  have hid := firstTrainingSession_ID hrow
  have hmem : db.preloadPlayer tp
      ∈ (db.loaded row).TrainingPlayers.filter (fun tp => tp.Attended) := by
    rw [loaded_attending db id row hid]
    exact List.mem_map_of_mem _ htp
  obtain ⟨hmem', hatt⟩ := List.mem_filter.1 hmem
  have hcount : countGames (db.preloadPlayer tp) (db.loaded row).Games = none := by
    rw [loaded_games db id row hid, countGames_eq]
    exact countFrom_panics _ _ g hg hc hp 0
  have hentry : costEntry (db.loaded row) (db.preloadPlayer tp) = none := by
    unfold costEntry
    rw [hcount]
  rw [GetTrainingCosts_eq db id row hrow,
    costFrom_panics (db.loaded row) _ (db.preloadPlayer tp) hmem' hatt hentry]
  rfl

/-- A named guest among the attendees and a counting match with a player in slot 1 make the
participation test dereference the absent guest name of slot 1. -/
theorem participated_guest_panics (tp : TrainingPlayer) (g : TrainingGame) (name : String)
    (hig : tp.IsGuest = true) (hp : tp.PlayerID = none) (hn : tp.GuestName = some name)
    (hslot : g.Guest1Name = none) : participated tp g = none := by
  unfold participated
  rw [hp, hig, hn, hslot]
  rfl

/-- A regular attendee and a counting match with a guest in slot 1 make the participation test
dereference the absent player reference of slot 1. -/
theorem participated_regular_panics (tp : TrainingPlayer) (g : TrainingGame) (pid : UUID)
    (hp : tp.PlayerID = some pid) (hslot : g.Player1ID = none) : participated tp g = none := by
  unfold participated
  rw [hp, hslot]
  rfl

theorem qualifying_zero (tp : TrainingPlayer) (games : List TrainingGame)
    (h : ∀ g ∈ games, g.counts = false) : tp.qualifying games = 0 := by
  unfold TrainingPlayer.qualifying
  rw [List.length_eq_zero, List.filter_eq_nil_iff]
  intro g hg
  simp [h g hg]

theorem not_counts_of_idle (g : TrainingGame)
    (h : g.Status = "pending" ∨ g.Status = "cancelled") : g.counts = false := by
  rcases h with h | h <;> simp [TrainingGame.counts, h]

theorem GetTrainingCosts_defined (db : DB) (id : UUID) (row : TrainingSession)
    (hrow : db.firstTrainingSession id = some row) (h : db.costsComparable id) :
    ∃ resp, GetTrainingCosts db id = some (.ok resp) :=
  GetTrainingCosts_returns db id row hrow h.1 h.2

theorem completeSet_of_forall₂ (att : List TrainingPlayer) (sid gm : UUID)
    (games : List TrainingGame)
    (hall : List.Forall₂
      (fun g p => ∃ a b, att[p.1]? = some a ∧ att[p.2]? = some b ∧
        g = { newGame sid gm a b with ID := g.ID })
      games (indexPairs att.length)) : completeSet att sid gm games := by
  refine hall.imp ?_
  rintro g p ⟨a, b, ha, hb, hg⟩
  obtain ⟨h1, h2⟩ := pairing_of_newGame sid gm a b g hg
  refine ⟨a, b, ha, hb, h1, h2, ?_⟩
  rw [hg]
  simp [newGame]

/-- With pairwise distinct participants, the pairings of one generated set contain no pair
twice and the pair of every two attending entries exactly once. -/
theorem round_robin_of_forall₂ (att : List TrainingPlayer) (sid gm : UUID)
    (games : List TrainingGame)
    (hall : List.Forall₂
      (fun g p => ∃ a b, att[p.1]? = some a ∧ att[p.2]? = some b ∧
        g = { newGame sid gm a b with ID := g.ID })
      games (indexPairs att.length))
    (hdistinct : (att.map TrainingPlayer.participant).Nodup) :
    (games.map TrainingGame.pairing).Nodup ∧
    ∀ a ∈ att, ∀ b ∈ att, a.participant ≠ b.participant →
      (games.map TrainingGame.pairing).count s(a.participant, b.participant) = 1 := by
  have hmap := pairings_eq sid gm att games _ hall
  have hnodup : (games.map TrainingGame.pairing).Nodup := by
    rw [hmap]
    refine List.Nodup.map_on ?_ (indexPairs_nodup _)
    rintro ⟨i, j⟩ hp ⟨k, l⟩ hq heq
    have hp' := mem_indexPairs.1 hp
    have hq' := mem_indexPairs.1 hq
    simp only at hp' hq' heq
    rcases Sym2.eq_iff.1 heq with ⟨h1, h2⟩ | ⟨h1, h2⟩
    · have := participantAt_inj _ hdistinct (by omega) (by omega) h1
      have := participantAt_inj _ hdistinct (by omega) (by omega) h2
      subst_vars
      rfl
    · have := participantAt_inj _ hdistinct (by omega) (by omega) h1
      have := participantAt_inj _ hdistinct (by omega) (by omega) h2
      omega
  refine ⟨hnodup, ?_⟩
  intro a ha b hb hab
  apply List.count_eq_one_of_mem hnodup
  rw [hmap]
  obtain ⟨i, hi⟩ := List.mem_iff_getElem?.1 ha
  obtain ⟨j, hj⟩ := List.mem_iff_getElem?.1 hb
  have hi' : i < att.length := (List.getElem?_eq_some.1 hi).1
  have hj' : j < att.length := (List.getElem?_eq_some.1 hj).1
  have hne : i ≠ j := by
    rintro rfl
    rw [hi] at hj
    exact hab (by rw [Option.some.inj hj])
  have pa : participantAt att i = a.participant := by simp [participantAt, hi]
  have pb : participantAt att j = b.participant := by simp [participantAt, hj]
  rcases Nat.lt_or_gt_of_ne hne with h | h
  · refine List.mem_map.2 ⟨(i, j), mem_indexPairs.2 ⟨h, hj'⟩, ?_⟩
    simp [pa, pb]
  · refine List.mem_map.2 ⟨(j, i), mem_indexPairs.2 ⟨h, hi'⟩, ?_⟩
    simp only [pa, pb]
    exact Sym2.eq_swap

/-! ## The claims -/

/-- C1 (amended): for a planned session with `n ≥ 2` attending roster entries and a game mode
id that names a game mode, `GenerateGamesForTraining` succeeds, returns exactly
`n * (n - 1) / 2` games, and these are exactly the rows it adds to the games table. -/
theorem GenerateGamesForTraining_count (db : DB) (sid gm : UUID) (row : TrainingSession)
    (mode : GameMode)
    (hrow : db.firstTrainingSession sid = some row) (hst : row.Status = "planned")
    (hn : 2 ≤ (db.attending sid).length) (hm : db.firstGameMode gm = some mode) :
    ∃ games : List TrainingGame,
      GenerateGamesForTraining db sid gm
        = (.ok games, { db with trainingGames := db.trainingGames ++ games }) ∧
      games.length = (db.attending sid).length * ((db.attending sid).length - 1) / 2 := by
  obtain ⟨games, hres, hall⟩ := generate_spec db sid gm row mode hrow hst hn hm
  exact ⟨games, hres, by rw [hall.length_eq, length_indexPairs]⟩

/-- C1, counterexample: the planned club session has three attending roster entries, but the
game mode id 8 names no game mode.  The first `Create` is rejected by the foreign key of the
games table, so the call returns the wrapped store error and no match is created. -/
theorem GenerateGamesForTraining_unknown_mode :
    clubCreated.firstTrainingSession 1 = some clubRow ∧ clubRow.Status = "planned" ∧
    (clubCreated.attending 1).length = 3 ∧ clubCreated.firstGameMode 8 = none ∧
    GenerateGamesForTraining clubCreated 1 8
      = (.error (.wrapped "failed to create game" "foreign key violation"), clubCreated) ∧
    (GenerateGamesForTraining clubCreated 1 8).2.trainingGames = [] :=
  ⟨by rfl, by rfl, by decide, by rfl, by rfl, by rfl⟩

/-- C2 (amended): for a planned session with `n ≥ 2` attending roster entries whose participants
(player reference or guest name) are pairwise distinct, and a game mode id that names a game
mode, `GenerateGamesForTraining` succeeds, the unordered participant pairs of the returned games
contain no pair twice, and the pair of every two attending entries occurs exactly once. -/
theorem GenerateGamesForTraining_round_robin (db : DB) (sid gm : UUID) (row : TrainingSession)
    (mode : GameMode)
    (hrow : db.firstTrainingSession sid = some row) (hst : row.Status = "planned")
    (hn : 2 ≤ (db.attending sid).length) (hm : db.firstGameMode gm = some mode)
    (hdistinct : ((db.attending sid).map TrainingPlayer.participant).Nodup) :
    ∃ games : List TrainingGame,
      (GenerateGamesForTraining db sid gm).1 = .ok games ∧
      (games.map TrainingGame.pairing).Nodup ∧
      ∀ a ∈ db.attending sid, ∀ b ∈ db.attending sid, a.participant ≠ b.participant →
        (games.map TrainingGame.pairing).count s(a.participant, b.participant) = 1 := by
  obtain ⟨games, hres, hall⟩ := generate_spec db sid gm row mode hrow hst hn hm
  obtain ⟨hnodup, hcount⟩ := round_robin_of_forall₂ (db.attending sid) sid gm games hall hdistinct
  exact ⟨games, by rw [hres], hnodup, hcount⟩

/-- C3 (amended): for a planned session whose attending roster entries in table order are
`a_0 .. a_(n-1)` with `n ≥ 2`, and a game mode id that names a game mode, the call succeeds and
the returned games are the rows appended to the games table, in that order; they correspond one
to one, in order, to the index pairs `(i, j)` with `i < j < n` listed in lexicographic order;
the game of `(i, j)` has the participant of `a_i` in slot 1 and the participant of `a_j` in
slot 2, status `pending`, scores 0 and 0, no winner, no completion time, and the requested
session and game mode. -/
theorem GenerateGamesForTraining_order (db : DB) (sid gm : UUID) (row : TrainingSession)
    (mode : GameMode)
    (hrow : db.firstTrainingSession sid = some row) (hst : row.Status = "planned")
    (hn : 2 ≤ (db.attending sid).length) (hm : db.firstGameMode gm = some mode) :
    ∃ (games : List TrainingGame) (idx : List (Nat × Nat)),
      GenerateGamesForTraining db sid gm
        = (.ok games, { db with trainingGames := db.trainingGames ++ games }) ∧
      idx.Pairwise lexLt ∧
      (∀ i j, (i, j) ∈ idx ↔ i < j ∧ j < (db.attending sid).length) ∧
      List.Forall₂
        (fun g p => ∃ a b, (db.attending sid)[p.1]? = some a ∧ (db.attending sid)[p.2]? = some b ∧
          g.participant1 = a.participant ∧ g.participant2 = b.participant ∧
          g.Status = "pending" ∧ g.Player1Score = 0 ∧ g.Player2Score = 0 ∧ g.Winner = none ∧
          g.CompletedAt = none ∧ g.TrainingSessionID = sid ∧ g.GameModeID = gm)
        games idx := by
  obtain ⟨games, hres, hall⟩ := generate_spec db sid gm row mode hrow hst hn hm
  refine ⟨games, indexPairs (db.attending sid).length, hres, indexPairs_sorted _,
    fun i j => mem_indexPairs, hall.imp ?_⟩
  rintro g p ⟨a, b, ha, hb, hg⟩
  obtain ⟨h1, h2⟩ := pairing_of_newGame sid gm a b g hg
  refine ⟨a, b, ha, hb, h1, h2, ?_⟩
  rw [hg]
  simp [newGame]

/-- C4: for a planned session with fewer than two attending roster entries (whatever the number
of non-attending ones), `GenerateGamesForTraining` fails with the `InvalidInput` error
"need at least 2 attending players to generate games" and leaves the store unchanged. -/
theorem GenerateGamesForTraining_too_few (db : DB) (sid gm : UUID) (row : TrainingSession)
    (hrow : db.firstTrainingSession sid = some row) (hst : row.Status = "planned")
    (hn : (db.attending sid).length < 2) :
    GenerateGamesForTraining db sid gm = (.error .needTwoAttending, db) ∧
      ServiceError.needTwoAttending.kind = some ErrorKind.InvalidInput ∧
      ServiceError.needTwoAttending.Error
        = "need at least 2 attending players to generate games" := by
  have hid := firstTrainingSession_ID hrow
  have hatt := attending_eq db sid row hid
  have hstatus : (db.preloadTrainingPlayers row).Status = "planned" := hst
  refine ⟨?_, rfl, rfl⟩
  unfold GenerateGamesForTraining
  simp only [hrow, hstatus, hatt, List.length_map, ne_eq, not_true_eq_false, if_false, ite_false]
  rw [if_pos hn]

/-- C5: for a session whose status is not `planned` (in particular `active`, `completed` or
`cancelled`), whatever its roster, `GenerateGamesForTraining` fails with the `InvalidState`
error "can only generate games for planned training sessions" and leaves the store unchanged. -/
theorem GenerateGamesForTraining_not_planned (db : DB) (sid gm : UUID) (row : TrainingSession)
    (hrow : db.firstTrainingSession sid = some row) (hst : row.Status ≠ "planned") :
    GenerateGamesForTraining db sid gm = (.error .onlyPlannedForGeneration, db) ∧
      ServiceError.onlyPlannedForGeneration.kind = some ErrorKind.InvalidState ∧
      ServiceError.onlyPlannedForGeneration.Error
        = "can only generate games for planned training sessions" := by
  have hstatus : (db.preloadTrainingPlayers row).Status ≠ "planned" := hst
  refine ⟨?_, rfl, rfl⟩
  unfold GenerateGamesForTraining
  simp only [hrow]
  rw [if_pos hstatus]

/-- C7: on an existing session `StartTraining` succeeds exactly when the stored status is
`planned`; it then returns the session with status `active`, the stored row is the old row with
only the status changed to `active`, and no other row of any table changes; for every other
prior status it fails with the `InvalidState` error "training session is not in planned status"
and leaves the store unchanged. -/
theorem StartTraining_spec (db : DB) (id : UUID) (row : TrainingSession)
    (hrow : db.firstTrainingSession id = some row) :
    ((∃ s, (StartTraining db id).1 = .ok s) ↔ row.Status = "planned") ∧
    (row.Status = "planned" →
      (∃ s, (StartTraining db id).1 = .ok s ∧ s.ID = id ∧ s.Status = "active") ∧
      (StartTraining db id).2.firstTrainingSession id = some { row with Status := "active" } ∧
      (∀ other, other ≠ id →
        (StartTraining db id).2.firstTrainingSession other = db.firstTrainingSession other) ∧
      (StartTraining db id).2.trainingPlayers = db.trainingPlayers ∧
      (StartTraining db id).2.trainingGames = db.trainingGames ∧
      (StartTraining db id).2.players = db.players ∧
      (StartTraining db id).2.gameModes = db.gameModes) ∧
    (row.Status ≠ "planned" →
      StartTraining db id = (.error .notInPlannedStatus, db) ∧
      ServiceError.notInPlannedStatus.kind = some ErrorKind.InvalidState ∧
      ServiceError.notInPlannedStatus.Error = "training session is not in planned status") := by
  have hid := firstTrainingSession_ID hrow
  refine ⟨?_, ?_, ?_⟩
  · constructor
    · rintro ⟨s, hs⟩
      by_contra hne
      rw [StartTraining_other db id row hrow hne] at hs
      cases hs
    · intro hst
      rw [StartTraining_planned db id row hrow hst]
      exact ⟨_, rfl⟩
  · intro hst
    rw [StartTraining_planned db id row hrow hst]
    refine ⟨⟨_, rfl, hid, rfl⟩, ?_, ?_, rfl, rfl, rfl, rfl⟩
    · rw [firstTrainingSession_save, if_pos hid.symm, hrow]
      rfl
    · intro other hne
      rw [firstTrainingSession_save, if_neg (by rw [← hid] at hne; exact hne)]
  · intro hst
    exact ⟨StartTraining_other db id row hrow hst, rfl, rfl⟩

/-- C8: on an existing session `FinishTraining` succeeds exactly when the stored status is
`active`; it then returns the session with status `completed` and the stored row is the old row
with the status changed to `completed`; for every other prior status it fails with the
`InvalidState` error "training session is not active" and leaves the store unchanged. -/
theorem FinishTraining_spec (db : DB) (id : UUID) (row : TrainingSession)
    (hrow : db.firstTrainingSession id = some row) :
    ((∃ s, (FinishTraining db id).1 = .ok s) ↔ row.Status = "active") ∧
    (row.Status = "active" →
      (∃ s, (FinishTraining db id).1 = .ok s ∧ s.ID = id ∧ s.Status = "completed") ∧
      (FinishTraining db id).2.firstTrainingSession id
        = some { row with Status := "completed" }) ∧
    (row.Status ≠ "active" →
      FinishTraining db id = (.error .notActive, db) ∧
      ServiceError.notActive.kind = some ErrorKind.InvalidState ∧
      ServiceError.notActive.Error = "training session is not active") := by
  have hid := firstTrainingSession_ID hrow
  refine ⟨?_, ?_, ?_⟩
  · constructor
    · rintro ⟨s, hs⟩
      by_contra hne
      rw [FinishTraining_other db id row hrow hne] at hs
      cases hs
    · intro hst
      rw [FinishTraining_active db id row hrow hst]
      exact ⟨_, rfl⟩
  · intro hst
    rw [FinishTraining_active db id row hrow hst]
    refine ⟨⟨_, rfl, hid, rfl⟩, ?_⟩
    rw [firstTrainingSession_save, if_pos hid.symm, hrow]
    rfl
  · intro hst
    exact ⟨FinishTraining_other db id row hrow hst, rfl, rfl⟩

/-- C10: `UpdateTrainingSession` with a status supplied succeeds, for every stored row, exactly
when the supplied string is one of `planned`, `active`, `completed`, `cancelled`; the returned
session and the stored row then carry the supplied status, whatever the prior status.  For any
other string it fails with the `InvalidInput` error "invalid status: ..." and the store is
unchanged, whatever other fields the request supplies. -/
theorem UpdateTrainingSession_status (db : DB) (id : UUID) (req : TrainingSessionUpdateRequest)
    (row : TrainingSession) (status : String) (hrow : db.firstTrainingSession id = some row)
    (hreq : req.Status = some status) :
    ((∃ s, (UpdateTrainingSession db id req).1 = .ok s)
      ↔ status = "planned" ∨ status = "active" ∨ status = "completed" ∨ status = "cancelled") ∧
    (status = "planned" ∨ status = "active" ∨ status = "completed" ∨ status = "cancelled" →
      (∃ s, (UpdateTrainingSession db id req).1 = .ok s ∧ s.ID = id ∧ s.Status = status) ∧
      ((UpdateTrainingSession db id req).2.firstTrainingSession id).map (fun s => s.Status)
        = some status) ∧
    (¬ (status = "planned" ∨ status = "active" ∨ status = "completed" ∨ status = "cancelled") →
      UpdateTrainingSession db id req = (.error (.invalidStatus status), db) ∧
      (ServiceError.invalidStatus status).kind = some ErrorKind.InvalidInput ∧
      (ServiceError.invalidStatus status).Error = "invalid status: " ++ status) := by
  have hid := firstTrainingSession_ID hrow
  have hok : (status = "planned" ∨ status = "active" ∨ status = "completed" ∨
      status = "cancelled") →
      UpdateTrainingSession db id req
        = (.ok ((db.saveTrainingSession (updatedRow row req)).loaded (updatedRow row req)),
           db.saveTrainingSession (updatedRow row req)) := by
    intro hv
    apply UpdateTrainingSession_accept db id req row hrow
    intro st hst
    rw [hreq] at hst
    cases hst
    exact (validSessionStatuses_any status).2 hv
  have hbad : ¬ (status = "planned" ∨ status = "active" ∨ status = "completed" ∨
      status = "cancelled") →
      UpdateTrainingSession db id req = (.error (.invalidStatus status), db) := by
    intro hv
    apply UpdateTrainingSession_reject db id req row hrow status hreq
    cases h : validSessionStatuses.any (fun valid => status == valid)
    · rfl
    · exact absurd ((validSessionStatuses_any status).1 h) hv
  have hstatus : (updatedRow row req).Status = status := by simp [updatedRow, hreq]
  refine ⟨?_, ?_, ?_⟩
  · constructor
    · rintro ⟨s, hs⟩
      by_contra hne
      rw [hbad hne] at hs
      cases hs
    · intro hv
      rw [hok hv]
      exact ⟨_, rfl⟩
  · intro hv
    rw [hok hv]
    refine ⟨⟨_, rfl, hid, hstatus⟩, ?_⟩
    rw [firstTrainingSession_save, if_pos (show id = (updatedRow row req).ID from hid.symm), hrow]
    simp [hstatus]
  · intro hv
    exact ⟨hbad hv, rfl, rfl⟩

/-- C9 (amended): over every sequence of createSession, startSession, finishSession and
updateSession operations in which no updateSession supplies a status, an existing session keeps
existing and its stored status never moves backwards in the order `planned`, `active`,
`completed`: it stays, or has moved forward along that order. -/
theorem status_monotone_without_status_update (db : DB) (ops : List SessionOp) (id : UUID)
    (s : String) (hs : storedStatus db id = some s)
    (hops : ∀ op ∈ ops, op.suppliesStatus = false) :
    ∃ s', storedStatus (runOps db ops) id = some s' ∧ lifecycleLe s s' := by
  suffices h : ∀ (ops : List SessionOp) (db' : DB) (t : String),
      storedStatus db' id = some t → lifecycleLe s t →
      (∀ op ∈ ops, op.suppliesStatus = false) →
      ∃ s', storedStatus (runOps db' ops) id = some s' ∧ lifecycleLe s s' from
    h ops db s hs (Or.inl rfl) hops
  intro ops
  induction ops with
  | nil => intro db' t ht hle _; exact ⟨t, ht, hle⟩
  | cons op rest ih =>
    intro db' t ht hle hall
    obtain ⟨u, hu, hstep⟩ := storedStatus_step db' op id t ht (hall op (List.mem_cons_self _ _))
    exact ih (op.run db') u hu (lifecycleLe_step hle hstep)
      (fun o ho => hall o (List.mem_cons_of_mem _ ho))

theorem GenerateGamesForTraining_count_witness :
    clubCreated.firstTrainingSession 1 = some clubRow ∧ clubRow.Status = "planned" ∧
    2 ≤ (clubCreated.attending 1).length ∧
    clubCreated.firstGameMode 7 = some ⟨7, "501 Double Out", true⟩ ∧
    ∃ games : List TrainingGame,
      GenerateGamesForTraining clubCreated 1 7
        = (.ok games, { clubCreated with trainingGames := clubCreated.trainingGames ++ games }) ∧
      games.length = (clubCreated.attending 1).length * ((clubCreated.attending 1).length - 1) / 2 :=
  ⟨by rfl, by rfl, by decide, by rfl,
    GenerateGamesForTraining_count clubCreated 1 7 clubRow ⟨7, "501 Double Out", true⟩ (by rfl)
      (by rfl) (by decide) (by rfl)⟩

theorem GenerateGamesForTraining_round_robin_witness :
    clubCreated.firstTrainingSession 1 = some clubRow ∧ clubRow.Status = "planned" ∧
    2 ≤ (clubCreated.attending 1).length ∧
    clubCreated.firstGameMode 7 = some ⟨7, "501 Double Out", true⟩ ∧
    ((clubCreated.attending 1).map TrainingPlayer.participant).Nodup ∧
    ∃ games : List TrainingGame,
      (GenerateGamesForTraining clubCreated 1 7).1 = .ok games ∧
      (games.map TrainingGame.pairing).Nodup ∧
      ∀ a ∈ clubCreated.attending 1, ∀ b ∈ clubCreated.attending 1,
        a.participant ≠ b.participant →
        (games.map TrainingGame.pairing).count s(a.participant, b.participant) = 1 :=
  ⟨by rfl, by rfl, by decide, by rfl, by decide,
    GenerateGamesForTraining_round_robin clubCreated 1 7 clubRow ⟨7, "501 Double Out", true⟩
      (by rfl) (by rfl) (by decide) (by rfl) (by decide)⟩

/-- Counterexample to C2 as stated: guest names are not unique.  In a planned session whose
attending entries are the guests Bob, Bob and Al (added one by one with `AddTrainingPlayer`),
the games are Bob-Bob, Bob-Al and Bob-Al, so the unordered participant pair of Bob and Al occurs
twice. -/
theorem GenerateGamesForTraining_repeats_pair :
    storedStatus guestsDB 1 = some "planned" ∧
    (guestsDB.attending 1).map TrainingPlayer.participant
      = [(none, some "Bob"), (none, some "Bob"), (none, some "Al")] ∧
    ∃ games : List TrainingGame,
      (GenerateGamesForTraining guestsDB 1 7).1 = .ok games ∧
      games.map (fun g => (g.participant1, g.participant2))
        = [((none, some "Bob"), (none, some "Bob")), ((none, some "Bob"), (none, some "Al")),
           ((none, some "Bob"), (none, some "Al"))] ∧
      ¬ (games.map TrainingGame.pairing).Nodup := by
  refine ⟨by rfl, by rfl,
    [ { ID := 1, TrainingSessionID := 1, GameModeID := 7, Player1ID := none, Player2ID := none
        Guest1Name := some "Bob", Guest2Name := some "Bob", Player1Score := 0, Player2Score := 0
        Status := "pending", Winner := none, CompletedAt := none },
      { ID := 2, TrainingSessionID := 1, GameModeID := 7, Player1ID := none, Player2ID := none
        Guest1Name := some "Bob", Guest2Name := some "Al", Player1Score := 0, Player2Score := 0
        Status := "pending", Winner := none, CompletedAt := none },
      { ID := 3, TrainingSessionID := 1, GameModeID := 7, Player1ID := none, Player2ID := none
        Guest1Name := some "Bob", Guest2Name := some "Al", Player1Score := 0, Player2Score := 0
        Status := "pending", Winner := none, CompletedAt := none } ],
    by rfl, by rfl, ?_⟩
  simp [TrainingGame.pairing, TrainingGame.participant1, TrainingGame.participant2]

theorem GenerateGamesForTraining_order_witness :
    clubCreated.firstTrainingSession 1 = some clubRow ∧ clubRow.Status = "planned" ∧
    2 ≤ (clubCreated.attending 1).length ∧
    clubCreated.firstGameMode 7 = some ⟨7, "501 Double Out", true⟩ ∧
    ∃ (games : List TrainingGame) (idx : List (Nat × Nat)),
      GenerateGamesForTraining clubCreated 1 7
        = (.ok games, { clubCreated with trainingGames := clubCreated.trainingGames ++ games }) ∧
      idx.Pairwise lexLt ∧
      (∀ i j, (i, j) ∈ idx ↔ i < j ∧ j < (clubCreated.attending 1).length) ∧
      List.Forall₂
        (fun g p => ∃ a b, (clubCreated.attending 1)[p.1]? = some a ∧
          (clubCreated.attending 1)[p.2]? = some b ∧
          g.participant1 = a.participant ∧ g.participant2 = b.participant ∧
          g.Status = "pending" ∧ g.Player1Score = 0 ∧ g.Player2Score = 0 ∧ g.Winner = none ∧
          g.CompletedAt = none ∧ g.TrainingSessionID = 1 ∧ g.GameModeID = 7)
        games idx :=
  ⟨by rfl, by rfl, by decide, by rfl,
    GenerateGamesForTraining_order clubCreated 1 7 clubRow ⟨7, "501 Double Out", true⟩ (by rfl)
      (by rfl) (by decide) (by rfl)⟩

/-- C3, counterexample: the planned session of the guests Bob, Bob and Al with the game mode
id 9, which names no game mode.  No match is returned in any order: the first `Create` is
rejected, the call returns the wrapped store error and the games table stays empty. -/
theorem GenerateGamesForTraining_order_unknown_mode :
    storedStatus guestsDB 1 = some "planned" ∧
    (guestsDB.attending 1).map TrainingPlayer.participant
      = [(none, some "Bob"), (none, some "Bob"), (none, some "Al")] ∧
    guestsDB.firstGameMode 9 = none ∧
    GenerateGamesForTraining guestsDB 1 9
      = (.error (.wrapped "failed to create game" "foreign key violation"), guestsDB) ∧
    guestsDB.trainingGames = [] :=
  ⟨by rfl, by rfl, by rfl, by rfl, by rfl⟩

theorem GenerateGamesForTraining_too_few_witness :
    soloDB.firstTrainingSession 1 = some clubRow ∧ clubRow.Status = "planned" ∧
    (soloDB.attending 1).length < 2 ∧
    (GenerateGamesForTraining soloDB 1 7 = (.error .needTwoAttending, soloDB) ∧
      ServiceError.needTwoAttending.kind = some ErrorKind.InvalidInput ∧
      ServiceError.needTwoAttending.Error
        = "need at least 2 attending players to generate games") :=
  ⟨by rfl, by rfl, by decide,
    GenerateGamesForTraining_too_few soloDB 1 7 clubRow (by rfl) (by rfl) (by decide)⟩

theorem GenerateGamesForTraining_not_planned_witness :
    clubStarted.firstTrainingSession 1 = some { clubRow with Status := "active" } ∧
    ({ clubRow with Status := "active" } : TrainingSession).Status ≠ "planned" ∧
    (GenerateGamesForTraining clubStarted 1 7 = (.error .onlyPlannedForGeneration, clubStarted) ∧
      ServiceError.onlyPlannedForGeneration.kind = some ErrorKind.InvalidState ∧
      ServiceError.onlyPlannedForGeneration.Error
        = "can only generate games for planned training sessions") :=
  ⟨by rfl, by decide,
    GenerateGamesForTraining_not_planned clubStarted 1 7 { clubRow with Status := "active" }
      (by rfl) (by decide)⟩

/-- Counterexample to C6 as stated: the scenario in the order the claim gives it.  The session
is created with three attendees and started, so it is `active`; `GenerateGamesForTraining` then
fails with "can only generate games for planned training sessions" and creates nothing. -/
theorem scenario_generate_after_start :
    (CreateTrainingSession clubDB clubRequest 0).1.toOption.map
        (fun s => (s.Status, s.CostPerPlayer, s.TrainingPlayers.map TrainingPlayer.participant))
      = some ("planned", 5, [(some 101, none), (some 102, none), (some 103, none)]) ∧
    (StartTraining clubCreated 1).1.toOption.map (fun s => s.Status) = some "active" ∧
    GenerateGamesForTraining clubStarted 1 7 = (.error .onlyPlannedForGeneration, clubStarted) ∧
    clubStarted.trainingGames = [] :=
  ⟨by rfl, by rfl, by rfl, by rfl⟩

/-- C6 (amended): the scenario with the games generated before the session is started.
Creating the session with three known players and cost 5 gives a planned session with three
regular attendees; generating its games succeeds with the three games of the pairs (1,2), (1,3),
(2,3); starting it makes it `active`; completing the game of (1,2) with the scores 3 and 1 makes
`player1` its winner; the costs are 5 for attendees 1 and 2, 0 for attendee 3, and 10 in
total. -/
theorem scenario_generate_before_start :
    (CreateTrainingSession clubDB clubRequest 0).1.toOption.map
        (fun s => (s.Status, s.CostPerPlayer, s.TrainingPlayers.map TrainingPlayer.participant))
      = some ("planned", 5, [(some 101, none), (some 102, none), (some 103, none)]) ∧
    (GenerateGamesForTraining clubCreated 1 7).1.toOption.map
        (fun games => games.map (fun g => (g.ID, g.participant1, g.participant2, g.Status)))
      = some [(1, (some 101, none), (some 102, none), "pending"),
              (2, (some 101, none), (some 103, none), "pending"),
              (3, (some 102, none), (some 103, none), "pending")] ∧
    (StartTraining clubGenerated 1).1.toOption.map (fun s => (s.Status, s.Games.length))
      = some ("active", 3) ∧
    (UpdateGame clubRunning 40 1 (some 3) (some 1) (some "completed") none).1.toOption.map
        (fun g => (g.participant1, g.participant2, g.Player1Score, g.Player2Score, g.Status,
          g.Winner))
      = some ((some 101, none), (some 102, none), 3, 1, "completed", some "player1") ∧
    GetTrainingCosts clubPlayed 1
      = some (.ok
          { TrainingSessionID := 1
            PlayerCosts :=
              [ { PlayerID := 101, PlayerName := some "Ann", GuestName := none, IsGuest := false
                  TotalCost := 5, GamesPlayed := 1 },
                { PlayerID := 102, PlayerName := some "Ben", GuestName := none, IsGuest := false
                  TotalCost := 5, GamesPlayed := 1 },
                { PlayerID := 103, PlayerName := some "Cleo", GuestName := none, IsGuest := false
                  TotalCost := 0, GamesPlayed := 0 } ]
            TotalCollected := 10 }) := by
  have hsum : F64.add (F64.add (F64.add 0 (.finite 5)) (.finite 5)) (.finite 0) = 10 := by
    decide!
  refine ⟨by rfl, by rfl, by rfl, by rfl, ?_⟩
  rw [← hsum]
  rfl

theorem StartTraining_spec_witness :
    clubCreated.firstTrainingSession 1 = some clubRow ∧
    (((∃ s, (StartTraining clubCreated 1).1 = .ok s) ↔ clubRow.Status = "planned") ∧
    (clubRow.Status = "planned" →
      (∃ s, (StartTraining clubCreated 1).1 = .ok s ∧ s.ID = 1 ∧ s.Status = "active") ∧
      (StartTraining clubCreated 1).2.firstTrainingSession 1
        = some { clubRow with Status := "active" } ∧
      (∀ other, other ≠ 1 →
        (StartTraining clubCreated 1).2.firstTrainingSession other
          = clubCreated.firstTrainingSession other) ∧
      (StartTraining clubCreated 1).2.trainingPlayers = clubCreated.trainingPlayers ∧
      (StartTraining clubCreated 1).2.trainingGames = clubCreated.trainingGames ∧
      (StartTraining clubCreated 1).2.players = clubCreated.players ∧
      (StartTraining clubCreated 1).2.gameModes = clubCreated.gameModes) ∧
    (clubRow.Status ≠ "planned" →
      StartTraining clubCreated 1 = (.error .notInPlannedStatus, clubCreated) ∧
      ServiceError.notInPlannedStatus.kind = some ErrorKind.InvalidState ∧
      ServiceError.notInPlannedStatus.Error = "training session is not in planned status")) :=
  ⟨by rfl, StartTraining_spec clubCreated 1 clubRow (by rfl)⟩

theorem FinishTraining_spec_witness :
    clubStarted.firstTrainingSession 1 = some { clubRow with Status := "active" } ∧
    (((∃ s, (FinishTraining clubStarted 1).1 = .ok s)
        ↔ ({ clubRow with Status := "active" } : TrainingSession).Status = "active") ∧
    (({ clubRow with Status := "active" } : TrainingSession).Status = "active" →
      (∃ s, (FinishTraining clubStarted 1).1 = .ok s ∧ s.ID = 1 ∧ s.Status = "completed") ∧
      (FinishTraining clubStarted 1).2.firstTrainingSession 1
        = some { ({ clubRow with Status := "active" } : TrainingSession) with
                 Status := "completed" }) ∧
    (({ clubRow with Status := "active" } : TrainingSession).Status ≠ "active" →
      FinishTraining clubStarted 1 = (.error .notActive, clubStarted) ∧
      ServiceError.notActive.kind = some ErrorKind.InvalidState ∧
      ServiceError.notActive.Error = "training session is not active")) :=
  ⟨by rfl, FinishTraining_spec clubStarted 1 { clubRow with Status := "active" } (by rfl)⟩

theorem status_monotone_without_status_update_witness :
    storedStatus clubCreated 1 = some "planned" ∧
    (∀ op ∈ quietOps, op.suppliesStatus = false) ∧
    ∃ s', storedStatus (runOps clubCreated quietOps) 1 = some s' ∧ lifecycleLe "planned" s' :=
  ⟨by rfl, by decide,
    status_monotone_without_status_update clubCreated quietOps 1 "planned" (by rfl)
      (by decide)⟩

/-- Counterexample to C9 as stated: `updateSession` stores any of the four statuses.  The
session is started and finished, so it is `completed`; an update that supplies `planned` then
makes it `planned` again, which is neither a move forward nor a move into `cancelled`. -/
theorem status_moves_backwards :
    storedStatus (runOps clubCreated [.startSession 1, .finishSession 1]) 1 = some "completed" ∧
    storedStatus
        (runOps clubCreated
          [.startSession 1, .finishSession 1, .updateSession 1 (statusOnly "planned")]) 1
      = some "planned" ∧
    ¬ monotoneOrCancelled "completed" "planned" := by
  refine ⟨by rfl, by rfl, ?_⟩
  unfold monotoneOrCancelled lifecycleLe
  decide

theorem UpdateTrainingSession_status_witness :
    clubStarted.firstTrainingSession 1 = some { clubRow with Status := "active" } ∧
    (statusOnly "cancelled").Status = some "cancelled" ∧
    (((∃ s, (UpdateTrainingSession clubStarted 1 (statusOnly "cancelled")).1 = .ok s)
      ↔ "cancelled" = "planned" ∨ "cancelled" = "active" ∨ "cancelled" = "completed" ∨
        "cancelled" = "cancelled") ∧
    ("cancelled" = "planned" ∨ "cancelled" = "active" ∨ "cancelled" = "completed" ∨
        "cancelled" = "cancelled" →
      (∃ s, (UpdateTrainingSession clubStarted 1 (statusOnly "cancelled")).1 = .ok s ∧
        s.ID = 1 ∧ s.Status = "cancelled") ∧
      ((UpdateTrainingSession clubStarted 1 (statusOnly "cancelled")).2.firstTrainingSession
          1).map (fun s => s.Status)
        = some "cancelled") ∧
    (¬ ("cancelled" = "planned" ∨ "cancelled" = "active" ∨ "cancelled" = "completed" ∨
        "cancelled" = "cancelled") →
      UpdateTrainingSession clubStarted 1 (statusOnly "cancelled")
        = (.error (.invalidStatus "cancelled"), clubStarted) ∧
      (ServiceError.invalidStatus "cancelled").kind = some ErrorKind.InvalidInput ∧
      (ServiceError.invalidStatus "cancelled").Error = "invalid status: " ++ "cancelled")) :=
  ⟨by rfl, by rfl,
    UpdateTrainingSession_status clubStarted 1 (statusOnly "cancelled")
      { clubRow with Status := "active" } "cancelled" (by rfl) (by rfl)⟩

/-- An update that supplies the unknown status `paused` together with a new name, date and cost
is rejected and stores nothing. -/
theorem UpdateTrainingSession_paused :
    UpdateTrainingSession clubStarted 1
        { Name := some "Friday", Description := none, TrainingDate := some 3
          CostPerPlayer := some 9, Status := some "paused" }
      = (.error (.invalidStatus "paused"), clubStarted) := by
  rfl

/-- C11: on an existing session `DeleteTrainingSession` fails with the `Conflict` error
"cannot delete training session that is active or completed" exactly when the stored status is
`active` or `completed`, and then the store is unchanged; for every other status (so for
`planned` and `cancelled`) it succeeds, and afterwards no game and no roster row references the
session, the session is not found any more, and the games and roster rows of other sessions
are the ones from before, in their order. -/
theorem DeleteTrainingSession_spec (db : DB) (id : UUID) (row : TrainingSession)
    (hrow : db.firstTrainingSession id = some row) :
    ((∃ e, (DeleteTrainingSession db id).1 = .error e)
      ↔ row.Status = "active" ∨ row.Status = "completed") ∧
    (row.Status = "active" ∨ row.Status = "completed" →
      DeleteTrainingSession db id = (.error .cannotDeleteActiveOrCompleted, db) ∧
      ServiceError.cannotDeleteActiveOrCompleted.kind = some ErrorKind.Conflict ∧
      ServiceError.cannotDeleteActiveOrCompleted.Error
        = "cannot delete training session that is active or completed") ∧
    (¬ (row.Status = "active" ∨ row.Status = "completed") →
      (DeleteTrainingSession db id).1 = .ok () ∧
      (∀ g ∈ (DeleteTrainingSession db id).2.trainingGames, g.TrainingSessionID ≠ id) ∧
      (∀ tp ∈ (DeleteTrainingSession db id).2.trainingPlayers, tp.TrainingSessionID ≠ id) ∧
      (DeleteTrainingSession db id).2.firstTrainingSession id = none ∧
      (DeleteTrainingSession db id).2.trainingGames
        = db.trainingGames.filter (fun g => g.TrainingSessionID != id) ∧
      (DeleteTrainingSession db id).2.trainingPlayers
        = db.trainingPlayers.filter (fun tp => tp.TrainingSessionID != id) ∧
      (DeleteTrainingSession db id).2.trainingSessions
        = db.trainingSessions.filter (fun s => s.ID != id) ∧
      (DeleteTrainingSession db id).2.players = db.players ∧
      (DeleteTrainingSession db id).2.gameModes = db.gameModes) := by
  have hid := firstTrainingSession_ID hrow
  have hbad : row.Status = "active" ∨ row.Status = "completed" →
      DeleteTrainingSession db id = (.error .cannotDeleteActiveOrCompleted, db) := by
    intro h
    unfold DeleteTrainingSession
    simp only [hrow]
    rw [if_pos h]
  have hgood : ¬ (row.Status = "active" ∨ row.Status = "completed") →
      DeleteTrainingSession db id
        = (.ok (),
           { db with
             trainingGames := db.trainingGames.filter (fun g => g.TrainingSessionID != id)
             trainingPlayers := db.trainingPlayers.filter (fun tp => tp.TrainingSessionID != id)
             trainingSessions := db.trainingSessions.filter (fun s => s.ID != id) }) := by
    intro h
    unfold DeleteTrainingSession
    simp only [hrow, hid]
    rw [if_neg h]
  refine ⟨?_, ?_, ?_⟩
  · constructor
    · rintro ⟨e, he⟩
      by_contra hne
      rw [hgood hne] at he
      cases he
    · intro h
      rw [hbad h]
      exact ⟨_, rfl⟩
  · intro h
    exact ⟨hbad h, rfl, rfl⟩
  · intro h
    rw [hgood h]
    refine ⟨rfl, ?_, ?_, ?_, rfl, rfl, rfl, rfl, rfl⟩
    · intro g hg
      have := (List.mem_filter.1 hg).2
      simpa using this
    · intro tp htp
      have := (List.mem_filter.1 htp).2
      simpa using this
    · exact filter_ne_find?_none (fun s : TrainingSession => s.ID) db.trainingSessions id

theorem DeleteTrainingSession_spec_witness :
    clubGenerated.firstTrainingSession 1 = some clubRow ∧
    (((∃ e, (DeleteTrainingSession clubGenerated 1).1 = .error e)
      ↔ clubRow.Status = "active" ∨ clubRow.Status = "completed") ∧
    (clubRow.Status = "active" ∨ clubRow.Status = "completed" →
      DeleteTrainingSession clubGenerated 1 = (.error .cannotDeleteActiveOrCompleted, clubGenerated) ∧
      ServiceError.cannotDeleteActiveOrCompleted.kind = some ErrorKind.Conflict ∧
      ServiceError.cannotDeleteActiveOrCompleted.Error
        = "cannot delete training session that is active or completed") ∧
    (¬ (clubRow.Status = "active" ∨ clubRow.Status = "completed") →
      (DeleteTrainingSession clubGenerated 1).1 = .ok () ∧
      (∀ g ∈ (DeleteTrainingSession clubGenerated 1).2.trainingGames, g.TrainingSessionID ≠ 1) ∧
      (∀ tp ∈ (DeleteTrainingSession clubGenerated 1).2.trainingPlayers, tp.TrainingSessionID ≠ 1) ∧
      (DeleteTrainingSession clubGenerated 1).2.firstTrainingSession 1 = none ∧
      (DeleteTrainingSession clubGenerated 1).2.trainingGames
        = clubGenerated.trainingGames.filter (fun g => g.TrainingSessionID != 1) ∧
      (DeleteTrainingSession clubGenerated 1).2.trainingPlayers
        = clubGenerated.trainingPlayers.filter (fun tp => tp.TrainingSessionID != 1) ∧
      (DeleteTrainingSession clubGenerated 1).2.trainingSessions
        = clubGenerated.trainingSessions.filter (fun s => s.ID != 1) ∧
      (DeleteTrainingSession clubGenerated 1).2.players = clubGenerated.players ∧
      (DeleteTrainingSession clubGenerated 1).2.gameModes = clubGenerated.gameModes)) :=
  ⟨by rfl, DeleteTrainingSession_spec clubGenerated 1 clubRow (by rfl)⟩

/-- A session that was started and then cancelled is deleted with its roster: the check of
trainings.go 160 refuses the statuses `active` and `completed` only, while the comment above it
(trainings.go 159) says that a training can be deleted "only if not started". -/
theorem DeleteTrainingSession_cancelled_after_start :
    storedStatus clubStarted 1 = some "active" ∧
    storedStatus (UpdateTrainingSession clubStarted 1 (statusOnly "cancelled")).2 1
      = some "cancelled" ∧
    (DeleteTrainingSession
      (UpdateTrainingSession clubStarted 1 (statusOnly "cancelled")).2 1).1.toOption
      = some () ∧
    storedStatus
      (DeleteTrainingSession (UpdateTrainingSession clubStarted 1 (statusOnly "cancelled")).2 1).2
      1 = none ∧
    (DeleteTrainingSession
      (UpdateTrainingSession clubStarted 1 (statusOnly "cancelled")).2 1).2.trainingPlayers
      = [] :=
  ⟨by rfl, by rfl, by rfl, by rfl, by rfl⟩

/-- C13: on an existing session `AddTrainingPlayer` succeeds exactly when the status is
`planned` or `active` and a non-empty guest name is supplied.  With another status (so for
`completed` and `cancelled`) it fails with the `InvalidState` error "cannot add players to
completed or cancelled training", whatever the name; with an allowed status and an absent or
empty name it fails with the `InvalidInput` error "automatic player assignment is handled during
training creation"; both leave the store unchanged.  On success the roster table gains exactly
one row at its end, which is also the returned entry: a guest of that session with that name, no
player reference, `attended = true` and a key no other row has. -/
theorem AddTrainingPlayer_spec (db : DB) (id : UUID) (row : TrainingSession)
    (guestName : Option String) (hrow : db.firstTrainingSession id = some row) :
    ((∃ tp, (AddTrainingPlayer db id guestName).1 = .ok tp)
      ↔ (row.Status = "planned" ∨ row.Status = "active") ∧
        ∃ name, guestName = some name ∧ name ≠ "") ∧
    (¬ (row.Status = "planned" ∨ row.Status = "active") →
      AddTrainingPlayer db id guestName = (.error .cannotAddPlayers, db) ∧
      ServiceError.cannotAddPlayers.kind = some ErrorKind.InvalidState ∧
      ServiceError.cannotAddPlayers.Error
        = "cannot add players to completed or cancelled training") ∧
    (row.Status = "planned" ∨ row.Status = "active" →
      guestName = none ∨ guestName = some "" →
      AddTrainingPlayer db id guestName = (.error .automaticAssignment, db) ∧
      ServiceError.automaticAssignment.kind = some ErrorKind.InvalidInput ∧
      ServiceError.automaticAssignment.Error
        = "automatic player assignment is handled during training creation") ∧
    (row.Status = "planned" ∨ row.Status = "active" →
      ∀ name, guestName = some name → name ≠ "" →
      ∃ entry : TrainingPlayer,
        AddTrainingPlayer db id guestName
          = (.ok entry, { db with trainingPlayers := db.trainingPlayers ++ [entry] }) ∧
        entry.TrainingSessionID = id ∧ entry.IsGuest = true ∧ entry.GuestName = some name ∧
        entry.PlayerID = none ∧ entry.Attended = true ∧
        ∀ tp ∈ db.trainingPlayers, tp.ID ≠ entry.ID) := by
  refine ⟨?_, ?_, ?_, ?_⟩
  · constructor
    · rintro ⟨tp, htp⟩
      by_cases hst : row.Status = "planned" ∨ row.Status = "active"
      · refine ⟨hst, ?_⟩
        cases hg : guestName with
        | none =>
          rw [AddTrainingPlayer_no_name db id row guestName hrow hst (Or.inl hg)] at htp
          cases htp
        | some name =>
          by_cases hname : name = ""
          · rw [AddTrainingPlayer_no_name db id row guestName hrow hst
              (Or.inr (by rw [hg, hname]))] at htp
            cases htp
          · exact ⟨name, rfl, hname⟩
      · rw [AddTrainingPlayer_bad_status db id row guestName hrow hst] at htp
        cases htp
    · rintro ⟨hst, name, hg, hname⟩
      rw [hg, AddTrainingPlayer_accept db id row name hrow hst hname]
      exact ⟨_, rfl⟩
  · intro hst
    exact ⟨AddTrainingPlayer_bad_status db id row guestName hrow hst, rfl, rfl⟩
  · intro hst hname
    exact ⟨AddTrainingPlayer_no_name db id row guestName hrow hst hname, rfl, rfl⟩
  · intro hst name hg hname
    rw [hg, AddTrainingPlayer_accept db id row name hrow hst hname]
    refine ⟨_, rfl, rfl, rfl, rfl, rfl, rfl, ?_⟩
    intro tp htp
    exact Nat.ne_of_lt (lt_freshID (List.mem_map_of_mem (fun r : TrainingPlayer => r.ID) htp))

/-- Counterexample to C14 as stated: the status is checked before the kind of the entry.  For
the regular entry 1 of the started (`active`) session the error is the `InvalidState` error
"cannot remove players from active, completed, or cancelled training", not the only-guests
`InvalidInput` error. -/
theorem RemoveTrainingPlayer_regular_active :
    (clubStarted.firstTrainingPlayer 1).map (fun tp => (tp.IsGuest, tp.PlayerID))
      = some (false, some 101) ∧
    storedStatus clubStarted 1 = some "active" ∧
    RemoveTrainingPlayer clubStarted 1 = (.error .cannotRemovePlayers, clubStarted) ∧
    ServiceError.cannotRemovePlayers.kind = some ErrorKind.InvalidState ∧
    ServiceError.cannotRemovePlayers ≠ ServiceError.cannotRemoveRegular :=
  ⟨by rfl, by rfl, by rfl, by rfl, by decide⟩

/-- C14 (amended): `RemoveTrainingPlayer` on a regular (non-guest) roster entry fails for every
status of its session and leaves the store unchanged: in a `planned` session with the
`InvalidInput` error "cannot remove regular players, only guests can be removed", in a session
with any other status (so `active`, `completed`, `cancelled`) with the `InvalidState` error
"cannot remove players from active, completed, or cancelled training". -/
theorem RemoveTrainingPlayer_regular (db : DB) (pid : UUID) (tp : TrainingPlayer)
    (session : TrainingSession) (htp : db.firstTrainingPlayer pid = some tp)
    (hs : db.firstTrainingSession tp.TrainingSessionID = some session)
    (hreg : tp.IsGuest = false) :
    (session.Status = "planned" →
      RemoveTrainingPlayer db pid = (.error .cannotRemoveRegular, db) ∧
      ServiceError.cannotRemoveRegular.kind = some ErrorKind.InvalidInput ∧
      ServiceError.cannotRemoveRegular.Error
        = "cannot remove regular players, only guests can be removed") ∧
    (session.Status ≠ "planned" →
      RemoveTrainingPlayer db pid = (.error .cannotRemovePlayers, db) ∧
      ServiceError.cannotRemovePlayers.kind = some ErrorKind.InvalidState ∧
      ServiceError.cannotRemovePlayers.Error
        = "cannot remove players from active, completed, or cancelled training") ∧
    (∃ e, (RemoveTrainingPlayer db pid).1 = .error e) ∧
    (RemoveTrainingPlayer db pid).2 = db := by
  refine ⟨fun hst => ⟨RemoveTrainingPlayer_planned_regular db pid tp session htp hs hst hreg,
    rfl, rfl⟩,
    fun hst => ⟨RemoveTrainingPlayer_not_planned db pid tp session htp hs hst, rfl, rfl⟩, ?_, ?_⟩
  · by_cases hst : session.Status = "planned"
    · rw [RemoveTrainingPlayer_planned_regular db pid tp session htp hs hst hreg]
      exact ⟨_, rfl⟩
    · rw [RemoveTrainingPlayer_not_planned db pid tp session htp hs hst]
      exact ⟨_, rfl⟩
  · by_cases hst : session.Status = "planned"
    · rw [RemoveTrainingPlayer_planned_regular db pid tp session htp hs hst hreg]
    · rw [RemoveTrainingPlayer_not_planned db pid tp session htp hs hst]

/-- C15: `RemoveTrainingPlayer` on an existing guest entry succeeds exactly when its session is
`planned`; the roster table afterwards is the old one without the rows of that key, in the old
order, which is the old table with exactly that entry erased when keys are unique, and no other
table changes.  For a guest of a session with any other status (so `active`, `completed`,
`cancelled`) it fails with the `InvalidState` error "cannot remove players from active,
completed, or cancelled training" and the store is unchanged. -/
theorem RemoveTrainingPlayer_guest (db : DB) (pid : UUID) (tp : TrainingPlayer)
    (session : TrainingSession) (htp : db.firstTrainingPlayer pid = some tp)
    (hs : db.firstTrainingSession tp.TrainingSessionID = some session)
    (hguest : tp.IsGuest = true) :
    ((RemoveTrainingPlayer db pid).1 = .ok () ↔ session.Status = "planned") ∧
    (session.Status = "planned" →
      RemoveTrainingPlayer db pid
        = (.ok (),
           { db with trainingPlayers := db.trainingPlayers.filter (fun r => r.ID != pid) }) ∧
      ((db.trainingPlayers.map (fun r => r.ID)).Nodup →
        (RemoveTrainingPlayer db pid).2.trainingPlayers = db.trainingPlayers.erase tp)) ∧
    (session.Status ≠ "planned" →
      RemoveTrainingPlayer db pid = (.error .cannotRemovePlayers, db) ∧
      ServiceError.cannotRemovePlayers.kind = some ErrorKind.InvalidState ∧
      ServiceError.cannotRemovePlayers.Error
        = "cannot remove players from active, completed, or cancelled training") := by
  have hid := firstTrainingPlayer_ID htp
  refine ⟨?_, ?_, ?_⟩
  · constructor
    · intro h
      by_contra hst
      rw [RemoveTrainingPlayer_not_planned db pid tp session htp hs hst] at h
      cases h
    · intro hst
      rw [RemoveTrainingPlayer_planned_guest db pid tp session htp hs hst hguest]
  · intro hst
    refine ⟨RemoveTrainingPlayer_planned_guest db pid tp session htp hs hst hguest, ?_⟩
    intro hnodup
    rw [RemoveTrainingPlayer_planned_guest db pid tp session htp hs hst hguest, ← hid]
    exact filter_key_eq_erase db.trainingPlayers tp (firstTrainingPlayer_mem htp) hnodup
  · intro hst
    exact ⟨RemoveTrainingPlayer_not_planned db pid tp session htp hs hst, rfl, rfl⟩

theorem AddTrainingPlayer_spec_witness :
    clubCreated.firstTrainingSession 1 = some clubRow ∧
    (((∃ tp, (AddTrainingPlayer clubCreated 1 (some "Dana")).1 = .ok tp)
      ↔ (clubRow.Status = "planned" ∨ clubRow.Status = "active") ∧
        ∃ name, some "Dana" = some name ∧ name ≠ "") ∧
    (¬ (clubRow.Status = "planned" ∨ clubRow.Status = "active") →
      AddTrainingPlayer clubCreated 1 (some "Dana") = (.error .cannotAddPlayers, clubCreated) ∧
      ServiceError.cannotAddPlayers.kind = some ErrorKind.InvalidState ∧
      ServiceError.cannotAddPlayers.Error
        = "cannot add players to completed or cancelled training") ∧
    (clubRow.Status = "planned" ∨ clubRow.Status = "active" →
      some "Dana" = none ∨ some "Dana" = some "" →
      AddTrainingPlayer clubCreated 1 (some "Dana")
        = (.error .automaticAssignment, clubCreated) ∧
      ServiceError.automaticAssignment.kind = some ErrorKind.InvalidInput ∧
      ServiceError.automaticAssignment.Error
        = "automatic player assignment is handled during training creation") ∧
    (clubRow.Status = "planned" ∨ clubRow.Status = "active" →
      ∀ name, some "Dana" = some name → name ≠ "" →
      ∃ entry : TrainingPlayer,
        AddTrainingPlayer clubCreated 1 (some "Dana")
          = (.ok entry,
             { clubCreated with trainingPlayers := clubCreated.trainingPlayers ++ [entry] }) ∧
        entry.TrainingSessionID = 1 ∧ entry.IsGuest = true ∧ entry.GuestName = some name ∧
        entry.PlayerID = none ∧ entry.Attended = true ∧
        ∀ tp ∈ clubCreated.trainingPlayers, tp.ID ≠ entry.ID)) :=
  ⟨by rfl, AddTrainingPlayer_spec clubCreated 1 clubRow (some "Dana") (by rfl)⟩

theorem RemoveTrainingPlayer_regular_witness :
    clubCreated.firstTrainingPlayer 1 = some annEntry ∧
    clubCreated.firstTrainingSession annEntry.TrainingSessionID = some clubRow ∧
    annEntry.IsGuest = false ∧
    ((clubRow.Status = "planned" →
      RemoveTrainingPlayer clubCreated 1 = (.error .cannotRemoveRegular, clubCreated) ∧
      ServiceError.cannotRemoveRegular.kind = some ErrorKind.InvalidInput ∧
      ServiceError.cannotRemoveRegular.Error
        = "cannot remove regular players, only guests can be removed") ∧
    (clubRow.Status ≠ "planned" →
      RemoveTrainingPlayer clubCreated 1 = (.error .cannotRemovePlayers, clubCreated) ∧
      ServiceError.cannotRemovePlayers.kind = some ErrorKind.InvalidState ∧
      ServiceError.cannotRemovePlayers.Error
        = "cannot remove players from active, completed, or cancelled training") ∧
    (∃ e, (RemoveTrainingPlayer clubCreated 1).1 = .error e) ∧
    (RemoveTrainingPlayer clubCreated 1).2 = clubCreated) :=
  ⟨by rfl, by rfl, by rfl,
    RemoveTrainingPlayer_regular clubCreated 1 annEntry clubRow (by rfl) (by rfl) (by rfl)⟩

theorem RemoveTrainingPlayer_guest_witness :
    guestsDB.firstTrainingPlayer 1 = some bobEntry ∧
    guestsDB.firstTrainingSession bobEntry.TrainingSessionID = some clubRow ∧
    bobEntry.IsGuest = true ∧
    (((RemoveTrainingPlayer guestsDB 1).1 = .ok () ↔ clubRow.Status = "planned") ∧
    (clubRow.Status = "planned" →
      RemoveTrainingPlayer guestsDB 1
        = (.ok (),
           { guestsDB with
             trainingPlayers := guestsDB.trainingPlayers.filter (fun r => r.ID != 1) }) ∧
      ((guestsDB.trainingPlayers.map (fun r => r.ID)).Nodup →
        (RemoveTrainingPlayer guestsDB 1).2.trainingPlayers
          = guestsDB.trainingPlayers.erase bobEntry)) ∧
    (clubRow.Status ≠ "planned" →
      RemoveTrainingPlayer guestsDB 1 = (.error .cannotRemovePlayers, guestsDB) ∧
      ServiceError.cannotRemovePlayers.kind = some ErrorKind.InvalidState ∧
      ServiceError.cannotRemovePlayers.Error
        = "cannot remove players from active, completed, or cancelled training")) :=
  ⟨by rfl, by rfl, by rfl,
    RemoveTrainingPlayer_guest guestsDB 1 bobEntry clubRow (by rfl) (by rfl) (by rfl)⟩

/-- Removing the first guest Bob from the planned session leaves the second Bob and Al. -/
theorem RemoveTrainingPlayer_bob :
    (RemoveTrainingPlayer guestsDB 1).1 = .ok () ∧
    (RemoveTrainingPlayer guestsDB 1).2.trainingPlayers.map (fun r => (r.ID, r.GuestName))
      = [(2, some "Bob"), (3, some "Al")] :=
  ⟨by rfl, by rfl⟩

/-- C16: for every stored match, `UpdateGame` with status `completed` and no winner succeeds, and
the returned and stored match has the resulting scores (the supplied score where one is given,
the stored score otherwise), status `completed`, and the winner derived from those scores:
`player1` if score 1 is larger, `player2` if score 2 is larger, `draw` if they are equal,
whatever winner was stored before. -/
theorem UpdateGame_completed_winner (db : DB) (now : Time) (id : UUID) (row : TrainingGame)
    (p1 p2 : Option Int) (hrow : db.firstTrainingGame id = some row) :
    ∃ g : TrainingGame,
      (UpdateGame db now id p1 p2 (some "completed") none).1 = .ok g ∧
      (UpdateGame db now id p1 p2 (some "completed") none).2.firstTrainingGame id = some g ∧
      g.Player1Score = p1.getD row.Player1Score ∧
      g.Player2Score = p2.getD row.Player2Score ∧
      g.Status = "completed" ∧
      (g.Player1Score > g.Player2Score → g.Winner = some "player1") ∧
      (g.Player2Score > g.Player1Score → g.Winner = some "player2") ∧
      (g.Player1Score = g.Player2Score → g.Winner = some "draw") := by
  have hacc := UpdateGame_accept db now id row p1 p2 (some "completed") none hrow
    validGameRequest_completed
  obtain ⟨hg, -, hstored⟩ := UpdateGame_ok db now id row p1 p2 (some "completed") none _ hrow
    (by rw [hacc])
  obtain ⟨h1, h2, h3⟩ := updatedGame_scores now row p1 p2 (some "completed") none
  have hw := updatedGame_Winner now row p1 p2 (some "completed") none
  rw [if_pos ⟨rfl, rfl⟩, ← h1, ← h2] at hw
  refine ⟨updatedGame now row p1 p2 (some "completed") none, by rw [hacc], ?_, h1, h2, h3,
    ?_, ?_, ?_⟩
  · rw [hacc]
    exact hstored
  · intro h
    rw [hw, derivedWinner, if_pos h]
  · intro h
    rw [hw, derivedWinner, if_neg (by omega), if_pos h]
  · intro h
    rw [hw, derivedWinner, if_neg (by omega), if_neg (by omega)]

theorem UpdateGame_completed_winner_witness :
    clubRunning.firstTrainingGame 1 = some firstGame ∧
    ∃ g : TrainingGame,
      (UpdateGame clubRunning 40 1 (some 10) (some 5) (some "completed") none).1 = .ok g ∧
      (UpdateGame clubRunning 40 1 (some 10) (some 5) (some "completed")
          none).2.firstTrainingGame 1 = some g ∧
      g.Player1Score = (some 10 : Option Int).getD firstGame.Player1Score ∧
      g.Player2Score = (some 5 : Option Int).getD firstGame.Player2Score ∧
      g.Status = "completed" ∧
      (g.Player1Score > g.Player2Score → g.Winner = some "player1") ∧
      (g.Player2Score > g.Player1Score → g.Winner = some "player2") ∧
      (g.Player1Score = g.Player2Score → g.Winner = some "draw") :=
  ⟨by rfl, UpdateGame_completed_winner clubRunning 40 1 firstGame (some 10) (some 5) (by rfl)⟩

/-- The two examples of the specification: 10 and 5 give `player1`; 5 and 5 give `draw`, also
on a match whose stored winner was `player1`. -/
theorem UpdateGame_completed_examples :
    (UpdateGame clubRunning 40 1 (some 10) (some 5) (some "completed") none).1.toOption.map
        (fun g => g.Winner) = some (some "player1") ∧
    (UpdateGame clubPlayed 50 1 (some 5) (some 5) (some "completed") none).1.toOption.map
        (fun g => g.Winner) = some (some "draw") :=
  ⟨by rfl, by rfl⟩

/-- Counterexample to C17 as stated: the winner is derived only in a call that supplies the
status `completed`.  The first game is completed with 3 and 1 and winner `player1`; a call that
supplies only the new score 9 for player 2 succeeds, the match stays `completed` with scores 3
and 9, and its winner is still `player1`, while the scores derive `player2`. -/
theorem UpdateGame_stale_winner :
    clubPlayed.firstTrainingGame 1 = some playedGame ∧
    (UpdateGame clubPlayed 50 1 none (some 9) none none).1
      = .ok { playedGame with Player2Score := 9 } ∧
    ({ playedGame with Player2Score := 9 } : TrainingGame).Status = "completed" ∧
    ({ playedGame with Player2Score := 9 } : TrainingGame).Winner = some "player1" ∧
    derivedWinner 3 9 = "player2" :=
  ⟨by rfl, by rfl, by rfl, by rfl, by decide⟩

/-- C17 (amended): for every stored match and every successful `UpdateGame` call with no winner
supplied, if the call supplies the status `completed` the resulting winner is the one derived
from the resulting scores, one of `player1`, `player2`, `draw`; in every other such call (no
status or another status supplied) the winner stays as stored, also when the match is already
completed and its scores change. -/
theorem UpdateGame_winner_not_supplied (db : DB) (now : Time) (id : UUID)
    (row g : TrainingGame) (p1 p2 : Option Int) (status : Option String)
    (hrow : db.firstTrainingGame id = some row)
    (hok : (UpdateGame db now id p1 p2 status none).1 = .ok g) :
    (status = some "completed" →
      g.Winner = some (derivedWinner g.Player1Score g.Player2Score) ∧
      (g.Winner = some "player1" ∨ g.Winner = some "player2" ∨ g.Winner = some "draw")) ∧
    (status ≠ some "completed" → g.Winner = row.Winner) := by
  obtain ⟨hg, -, -⟩ := UpdateGame_ok db now id row p1 p2 status none g hrow hok
  obtain ⟨h1, h2, -⟩ := updatedGame_scores now row p1 p2 status none
  have hw := updatedGame_Winner now row p1 p2 status none
  rw [← hg] at h1 h2 hw
  constructor
  · intro hs
    rw [if_pos ⟨hs, rfl⟩, ← h1, ← h2] at hw
    refine ⟨hw, ?_⟩
    rw [hw]
    unfold derivedWinner
    split_ifs
    · exact Or.inl rfl
    · exact Or.inr (Or.inl rfl)
    · exact Or.inr (Or.inr rfl)
  · intro hs
    rw [if_neg (fun h => hs h.1)] at hw
    exact hw

theorem UpdateGame_winner_not_supplied_witness :
    clubPlayed.firstTrainingGame 1 = some playedGame ∧
    (UpdateGame clubPlayed 50 1 none (some 9) (some "completed") none).1
      = .ok { playedGame with Player2Score := 9, Winner := some "player2" } ∧
    (((some "completed" : Option String) = some "completed" →
      ({ playedGame with Player2Score := 9, Winner := some "player2" } : TrainingGame).Winner
        = some (derivedWinner
            ({ playedGame with Player2Score := 9, Winner := some "player2" } :
              TrainingGame).Player1Score
            ({ playedGame with Player2Score := 9, Winner := some "player2" } :
              TrainingGame).Player2Score) ∧
      (({ playedGame with Player2Score := 9, Winner := some "player2" } : TrainingGame).Winner
          = some "player1" ∨
        ({ playedGame with Player2Score := 9, Winner := some "player2" } : TrainingGame).Winner
          = some "player2" ∨
        ({ playedGame with Player2Score := 9, Winner := some "player2" } : TrainingGame).Winner
          = some "draw")) ∧
    ((some "completed" : Option String) ≠ some "completed" →
      ({ playedGame with Player2Score := 9, Winner := some "player2" } : TrainingGame).Winner
        = playedGame.Winner)) :=
  ⟨by rfl, by rfl,
    UpdateGame_winner_not_supplied clubPlayed 50 1 playedGame
      { playedGame with Player2Score := 9, Winner := some "player2" } none (some 9)
      (some "completed") (by rfl) (by rfl)⟩

/-- C18: the completion time is set once.  For every stored match and every successful
`UpdateGame` call, a completion time that is already stored is returned and stored unchanged,
whatever the call supplies (status `completed` again, or another status); for a match without
one, a call that supplies the status `completed` sets it to the current time, and any other
call leaves it unset. -/
theorem UpdateGame_completedAt (db : DB) (now : Time) (id : UUID) (row g : TrainingGame)
    (p1 p2 : Option Int) (status winner : Option String)
    (hrow : db.firstTrainingGame id = some row)
    (hok : (UpdateGame db now id p1 p2 status winner).1 = .ok g) :
    (UpdateGame db now id p1 p2 status winner).2.firstTrainingGame id = some g ∧
    (∀ t, row.CompletedAt = some t → g.CompletedAt = some t) ∧
    (row.CompletedAt = none → status = some "completed" → g.CompletedAt = some now) ∧
    (row.CompletedAt = none → status ≠ some "completed" → g.CompletedAt = none) := by
  obtain ⟨hg, hres, hstored⟩ := UpdateGame_ok db now id row p1 p2 status winner g hrow hok
  have hc := updatedGame_CompletedAt now row p1 p2 status winner
  rw [← hg] at hc
  refine ⟨by rw [hres]; exact hstored, ?_, ?_, ?_⟩
  · intro t ht
    rw [hc, if_neg (fun h => by rw [ht] at h; cases h.2), ht]
  · intro hn hs
    rw [hc, if_pos ⟨hs, hn⟩]
  · intro hn hs
    rw [hc, if_neg (fun h => hs h.1), hn]

theorem UpdateGame_completedAt_witness :
    clubPlayed.firstTrainingGame 1 = some playedGame ∧
    (UpdateGame clubPlayed 50 1 none none (some "completed") (some "draw")).1
      = .ok { playedGame with Winner := some "draw" } ∧
    ((UpdateGame clubPlayed 50 1 none none (some "completed")
        (some "draw")).2.firstTrainingGame 1
      = some { playedGame with Winner := some "draw" } ∧
    (∀ t, playedGame.CompletedAt = some t →
      ({ playedGame with Winner := some "draw" } : TrainingGame).CompletedAt = some t) ∧
    (playedGame.CompletedAt = none → (some "completed" : Option String) = some "completed" →
      ({ playedGame with Winner := some "draw" } : TrainingGame).CompletedAt = some 50) ∧
    (playedGame.CompletedAt = none → (some "completed" : Option String) ≠ some "completed" →
      ({ playedGame with Winner := some "draw" } : TrainingGame).CompletedAt = none)) :=
  ⟨by rfl, by rfl,
    UpdateGame_completedAt clubPlayed 50 1 playedGame { playedGame with Winner := some "draw" }
      none none (some "completed") (some "draw") (by rfl) (by rfl)⟩

/-- The completion time 40 of the played game survives a second completion at time 50 and a
move back to `playing` at time 60; the unplayed game gets the time of its completion. -/
theorem UpdateGame_completedAt_examples :
    (UpdateGame clubPlayed 50 1 none none (some "completed") none).1.toOption.map
        (fun g => g.CompletedAt) = some (some 40) ∧
    (UpdateGame clubPlayed 60 1 none none (some "playing") none).1.toOption.map
        (fun g => (g.Status, g.CompletedAt)) = some ("playing", some 40) ∧
    (UpdateGame clubRunning 40 1 none none (some "completed") none).1.toOption.map
        (fun g => g.CompletedAt) = some (some 40) :=
  ⟨by rfl, by rfl, by rfl⟩

/-- C19: on an existing match `UpdateGame` succeeds exactly when the request is valid, that is
when a supplied status is one of `pending`, `playing`, `completed`, `cancelled` and a supplied
winner is one of `player1`, `player2`, `draw`, whatever the stored match.  A supplied status
outside the four fails with the `InvalidInput` error "invalid status: ...", and with a valid or
absent status a supplied winner outside the three fails with the `InvalidInput` error
"invalid winner: ..."; in both cases the store is unchanged, whatever scores were supplied. -/
theorem UpdateGame_validation (db : DB) (now : Time) (id : UUID) (row : TrainingGame)
    (p1 p2 : Option Int) (status winner : Option String)
    (hrow : db.firstTrainingGame id = some row) :
    ((∃ g, (UpdateGame db now id p1 p2 status winner).1 = .ok g)
      ↔ (∀ st, status = some st →
          st = "pending" ∨ st = "playing" ∨ st = "completed" ∨ st = "cancelled") ∧
        (∀ w, winner = some w → w = "player1" ∨ w = "player2" ∨ w = "draw")) ∧
    (∀ st, status = some st →
      ¬ (st = "pending" ∨ st = "playing" ∨ st = "completed" ∨ st = "cancelled") →
      UpdateGame db now id p1 p2 status winner = (.error (.invalidStatus st), db) ∧
      (ServiceError.invalidStatus st).kind = some ErrorKind.InvalidInput ∧
      (ServiceError.invalidStatus st).Error = "invalid status: " ++ st) ∧
    ((∀ st, status = some st →
        st = "pending" ∨ st = "playing" ∨ st = "completed" ∨ st = "cancelled") →
      ∀ w, winner = some w → ¬ (w = "player1" ∨ w = "player2" ∨ w = "draw") →
      UpdateGame db now id p1 p2 status winner = (.error (.invalidWinner w), db) ∧
      (ServiceError.invalidWinner w).kind = some ErrorKind.InvalidInput ∧
      (ServiceError.invalidWinner w).Error = "invalid winner: " ++ w) ∧
    ((∃ e, (UpdateGame db now id p1 p2 status winner).1 = .error e) →
      (UpdateGame db now id p1 p2 status winner).2 = db) := by
  refine ⟨UpdateGame_ok_iff db now id row p1 p2 status winner hrow, ?_, ?_, ?_⟩
  · intro st hs hbad
    subst hs
    exact ⟨UpdateGame_bad_status db now id row p1 p2 st winner hrow hbad, rfl, rfl⟩
  · intro hs w hw hbad
    subst hw
    exact ⟨UpdateGame_bad_winner db now id row p1 p2 status w hrow hs hbad, rfl, rfl⟩
  · rintro ⟨e, he⟩
    by_cases hs : ∀ st, status = some st →
        st = "pending" ∨ st = "playing" ∨ st = "completed" ∨ st = "cancelled"
    · by_cases hw : ∀ w, winner = some w → w = "player1" ∨ w = "player2" ∨ w = "draw"
      · rw [UpdateGame_accept db now id row p1 p2 status winner hrow ⟨hs, hw⟩] at he
        cases he
      · push_neg at hw
        obtain ⟨w, rfl, hbad⟩ := hw
        rw [UpdateGame_bad_winner db now id row p1 p2 status w hrow hs (by tauto)]
    · push_neg at hs
      obtain ⟨st, rfl, hbad⟩ := hs
      rw [UpdateGame_bad_status db now id row p1 p2 st winner hrow (by tauto)]

theorem UpdateGame_validation_witness :
    clubRunning.firstTrainingGame 1 = some firstGame ∧
    (((∃ g, (UpdateGame clubRunning 40 1 (some 2) (some 1) (some "finished") none).1 = .ok g)
      ↔ (∀ st, some "finished" = some st →
          st = "pending" ∨ st = "playing" ∨ st = "completed" ∨ st = "cancelled") ∧
        (∀ w, (none : Option String) = some w → w = "player1" ∨ w = "player2" ∨ w = "draw")) ∧
    (∀ st, some "finished" = some st →
      ¬ (st = "pending" ∨ st = "playing" ∨ st = "completed" ∨ st = "cancelled") →
      UpdateGame clubRunning 40 1 (some 2) (some 1) (some "finished") none
        = (.error (.invalidStatus st), clubRunning) ∧
      (ServiceError.invalidStatus st).kind = some ErrorKind.InvalidInput ∧
      (ServiceError.invalidStatus st).Error = "invalid status: " ++ st) ∧
    ((∀ st, some "finished" = some st →
        st = "pending" ∨ st = "playing" ∨ st = "completed" ∨ st = "cancelled") →
      ∀ w, (none : Option String) = some w → ¬ (w = "player1" ∨ w = "player2" ∨ w = "draw") →
      UpdateGame clubRunning 40 1 (some 2) (some 1) (some "finished") none
        = (.error (.invalidWinner w), clubRunning) ∧
      (ServiceError.invalidWinner w).kind = some ErrorKind.InvalidInput ∧
      (ServiceError.invalidWinner w).Error = "invalid winner: " ++ w) ∧
    ((∃ e, (UpdateGame clubRunning 40 1 (some 2) (some 1) (some "finished") none).1
        = .error e) →
      (UpdateGame clubRunning 40 1 (some 2) (some 1) (some "finished") none).2
        = clubRunning)) :=
  ⟨by rfl, UpdateGame_validation clubRunning 40 1 firstGame (some 2) (some 1) (some "finished")
    none (by rfl)⟩

/-- An unknown status and an unknown winner are rejected with the scores 2 and 1 supplied, and
the stored game keeps its scores 0 and 0. -/
theorem UpdateGame_rejected_examples :
    UpdateGame clubRunning 40 1 (some 2) (some 1) (some "finished") none
      = (.error (.invalidStatus "finished"), clubRunning) ∧
    UpdateGame clubRunning 40 1 (some 2) (some 1) (some "completed") (some "guest")
      = (.error (.invalidWinner "guest"), clubRunning) ∧
    clubRunning.firstTrainingGame 1 = some firstGame :=
  ⟨by rfl, by rfl, by rfl⟩

/-- C20: a successful `UpdateGame` call changes only what it supplies.  The returned match is
the stored one; its key, session, game mode and participants are those of the old row; a score
that is not supplied keeps its stored value and a supplied one is taken; without a status the
status and the completion time are unchanged, and the winner is the supplied one or, without a
supplied winner, the stored one; a call that supplies nothing returns and stores the old row.
The matches with other keys and the other tables are unchanged. -/
theorem UpdateGame_frame (db : DB) (now : Time) (id : UUID) (row g : TrainingGame)
    (p1 p2 : Option Int) (status winner : Option String)
    (hrow : db.firstTrainingGame id = some row)
    (hok : (UpdateGame db now id p1 p2 status winner).1 = .ok g) :
    (UpdateGame db now id p1 p2 status winner).2.firstTrainingGame id = some g ∧
    (g.ID = row.ID ∧ g.TrainingSessionID = row.TrainingSessionID ∧
      g.GameModeID = row.GameModeID ∧ g.Player1ID = row.Player1ID ∧
      g.Player2ID = row.Player2ID ∧ g.Guest1Name = row.Guest1Name ∧
      g.Guest2Name = row.Guest2Name) ∧
    (p1 = none → g.Player1Score = row.Player1Score) ∧
    (∀ v, p1 = some v → g.Player1Score = v) ∧
    (p2 = none → g.Player2Score = row.Player2Score) ∧
    (∀ v, p2 = some v → g.Player2Score = v) ∧
    (∀ st, status = some st → g.Status = st) ∧
    (status = none →
      g.Status = row.Status ∧ g.CompletedAt = row.CompletedAt ∧
      (winner = none → g.Winner = row.Winner) ∧ (∀ w, winner = some w → g.Winner = some w)) ∧
    (p1 = none → p2 = none → status = none → winner = none → g = row) ∧
    (∀ other, other ≠ id →
      (UpdateGame db now id p1 p2 status winner).2.firstTrainingGame other
        = db.firstTrainingGame other) ∧
    (UpdateGame db now id p1 p2 status winner).2.trainingSessions = db.trainingSessions ∧
    (UpdateGame db now id p1 p2 status winner).2.trainingPlayers = db.trainingPlayers ∧
    (UpdateGame db now id p1 p2 status winner).2.players = db.players ∧
    (UpdateGame db now id p1 p2 status winner).2.gameModes = db.gameModes := by
  obtain ⟨hg, hres, hstored⟩ := UpdateGame_ok db now id row p1 p2 status winner g hrow hok
  have hid := firstTrainingGame_ID hrow
  have hf := updatedGame_frame now row p1 p2 status winner
  obtain ⟨h1, h2, h3⟩ := updatedGame_scores now row p1 p2 status winner
  have hc := updatedGame_CompletedAt now row p1 p2 status winner
  have hw := updatedGame_Winner now row p1 p2 status winner
  rw [← hg] at hf h1 h2 h3 hc hw
  rw [hres]
  refine ⟨hstored, hf, ?_, ?_, ?_, ?_,
    And.intro ?_ (And.intro ?_ ⟨?_, ?_, rfl, rfl, rfl, rfl⟩)⟩
  · intro h
    rw [h1, h]
    rfl
  · intro v h
    rw [h1, h]
    rfl
  · intro h
    rw [h2, h]
    rfl
  · intro v h
    rw [h2, h]
    rfl
  · intro st h
    rw [h3, h]
    rfl
  · intro h
    have hne : ¬ (status = some "completed" ∧ winner = none) := fun hh => by
      rw [h] at hh
      cases hh.1
    have hne' : ¬ (status = some "completed" ∧ row.CompletedAt = none) := fun hh => by
      rw [h] at hh
      cases hh.1
    rw [if_neg hne] at hw
    rw [if_neg hne'] at hc
    refine ⟨by rw [h3, h]; rfl, hc, ?_, ?_⟩
    · intro hwn
      rw [hw, hwn]
    · intro w hwn
      rw [hw, hwn]
  · intro e1 e2 e3 e4
    subst e1 e2 e3 e4
    rw [hg]
    unfold updatedGame withDerivedWinner withCompletedAt
    rw [if_neg (fun hh => by cases hh.1), if_neg (fun hh => by cases hh.1)]
    rfl
  · intro other hne
    rw [firstTrainingGame_save, if_neg]
    rw [hf.1, hid]
    exact hne

theorem UpdateGame_frame_witness :
    clubPlayed.firstTrainingGame 1 = some playedGame ∧
    (UpdateGame clubPlayed 50 1 none (some 9) none none).1
      = .ok { playedGame with Player2Score := 9 } ∧
    ((UpdateGame clubPlayed 50 1 none (some 9) none none).2.firstTrainingGame 1
      = some { playedGame with Player2Score := 9 } ∧
    (({ playedGame with Player2Score := 9 } : TrainingGame).ID = playedGame.ID ∧
      ({ playedGame with Player2Score := 9 } : TrainingGame).TrainingSessionID
        = playedGame.TrainingSessionID ∧
      ({ playedGame with Player2Score := 9 } : TrainingGame).GameModeID
        = playedGame.GameModeID ∧
      ({ playedGame with Player2Score := 9 } : TrainingGame).Player1ID = playedGame.Player1ID ∧
      ({ playedGame with Player2Score := 9 } : TrainingGame).Player2ID = playedGame.Player2ID ∧
      ({ playedGame with Player2Score := 9 } : TrainingGame).Guest1Name
        = playedGame.Guest1Name ∧
      ({ playedGame with Player2Score := 9 } : TrainingGame).Guest2Name
        = playedGame.Guest2Name) ∧
    ((none : Option Int) = none →
      ({ playedGame with Player2Score := 9 } : TrainingGame).Player1Score
        = playedGame.Player1Score) ∧
    (∀ v, (none : Option Int) = some v →
      ({ playedGame with Player2Score := 9 } : TrainingGame).Player1Score = v) ∧
    ((some 9 : Option Int) = none →
      ({ playedGame with Player2Score := 9 } : TrainingGame).Player2Score
        = playedGame.Player2Score) ∧
    (∀ v, (some 9 : Option Int) = some v →
      ({ playedGame with Player2Score := 9 } : TrainingGame).Player2Score = v) ∧
    (∀ st, (none : Option String) = some st →
      ({ playedGame with Player2Score := 9 } : TrainingGame).Status = st) ∧
    ((none : Option String) = none →
      ({ playedGame with Player2Score := 9 } : TrainingGame).Status = playedGame.Status ∧
      ({ playedGame with Player2Score := 9 } : TrainingGame).CompletedAt
        = playedGame.CompletedAt ∧
      ((none : Option String) = none →
        ({ playedGame with Player2Score := 9 } : TrainingGame).Winner = playedGame.Winner) ∧
      (∀ w, (none : Option String) = some w →
        ({ playedGame with Player2Score := 9 } : TrainingGame).Winner = some w)) ∧
    ((none : Option Int) = none → (some 9 : Option Int) = none →
      (none : Option String) = none → (none : Option String) = none →
      ({ playedGame with Player2Score := 9 } : TrainingGame) = playedGame) ∧
    (∀ other, other ≠ 1 →
      (UpdateGame clubPlayed 50 1 none (some 9) none none).2.firstTrainingGame other
        = clubPlayed.firstTrainingGame other) ∧
    (UpdateGame clubPlayed 50 1 none (some 9) none none).2.trainingSessions
      = clubPlayed.trainingSessions ∧
    (UpdateGame clubPlayed 50 1 none (some 9) none none).2.trainingPlayers
      = clubPlayed.trainingPlayers ∧
    (UpdateGame clubPlayed 50 1 none (some 9) none none).2.players = clubPlayed.players ∧
    (UpdateGame clubPlayed 50 1 none (some 9) none none).2.gameModes = clubPlayed.gameModes) :=
  ⟨by rfl, by rfl,
    UpdateGame_frame clubPlayed 50 1 playedGame { playedGame with Player2Score := 9 } none
      (some 9) none none (by rfl) (by rfl)⟩

/-- A call that supplies nothing returns the played game as it is stored and leaves the store
as it is. -/
theorem UpdateGame_nothing_supplied :
    UpdateGame clubPlayed 50 1 none none none none = (.ok playedGame, clubPlayed) := by
  rfl

/-- C12 at a supplied cost of 0: `CreateTrainingSession` sets the cost of the new session to the
supplied 0 and creates it, the column is tagged `default:5.00`, and the session it returns has
the cost 5; `UpdateTrainingSession` with a supplied cost of 0 stores and returns 0. -/
theorem CreateTrainingSession_zero_cost :
    freeRequest.CostPerPlayer = some 0 ∧
    (CreateTrainingSession clubDB freeRequest 0).1.toOption.map
        (fun s => (s.Status, s.CostPerPlayer)) = some ("planned", 5) ∧
    (UpdateTrainingSession clubCreated 1
        { Name := none, Description := none, TrainingDate := none, CostPerPlayer := some 0
          Status := none }).1.toOption.map
        (fun s => (s.Status, s.CostPerPlayer)) = some ("planned", 0) :=
  ⟨by rfl, by rfl, by rfl⟩

/-- C21: on an existing match `DeleteGame` fails with the `Conflict` error "cannot delete game
that is in progress or completed" exactly when the stored status is `playing` or `completed`,
and the store is then unchanged; for every other status (so `pending` and `cancelled`) it
succeeds and the games table afterwards is the old one without the rows of that key, in the old
order, which is the old table with exactly that match erased when keys are unique; no other
table changes. -/
theorem DeleteGame_spec (db : DB) (id : UUID) (row : TrainingGame)
    (hrow : db.firstTrainingGame id = some row) :
    ((∃ e, (DeleteGame db id).1 = .error e)
      ↔ row.Status = "playing" ∨ row.Status = "completed") ∧
    (row.Status = "playing" ∨ row.Status = "completed" →
      DeleteGame db id = (.error .cannotDeleteGame, db) ∧
      ServiceError.cannotDeleteGame.kind = some ErrorKind.Conflict ∧
      ServiceError.cannotDeleteGame.Error
        = "cannot delete game that is in progress or completed") ∧
    (¬ (row.Status = "playing" ∨ row.Status = "completed") →
      DeleteGame db id
        = (.ok (),
           { db with trainingGames := db.trainingGames.filter (fun g => g.ID != id) }) ∧
      (DeleteGame db id).2.firstTrainingGame id = none ∧
      ((db.trainingGames.map (fun g => g.ID)).Nodup →
        (DeleteGame db id).2.trainingGames = db.trainingGames.erase row)) := by
  have hid := firstTrainingGame_ID hrow
  have hmem : row ∈ db.trainingGames := List.mem_of_find?_eq_some hrow
  refine ⟨?_, ?_, ?_⟩
  · constructor
    · rintro ⟨e, he⟩
      by_contra hne
      rw [DeleteGame_done db id row hrow (fun h => hne (Or.symm h))] at he
      cases he
    · intro h
      rw [DeleteGame_blocked db id row hrow (Or.symm h)]
      exact ⟨_, rfl⟩
  · intro h
    exact ⟨DeleteGame_blocked db id row hrow (Or.symm h), rfl, rfl⟩
  · intro h
    have hdone := DeleteGame_done db id row hrow (fun h' => h (Or.symm h'))
    refine ⟨hdone, ?_, ?_⟩
    · rw [hdone]
      exact filter_ne_find?_none (fun g : TrainingGame => g.ID) db.trainingGames id
    · intro hnodup
      rw [hdone, ← hid]
      exact filter_gameKey_eq_erase db.trainingGames row hmem hnodup

theorem DeleteGame_spec_witness :
    clubRunning.firstTrainingGame 2
      = some { firstGame with ID := 2, Player2ID := some 103 } ∧
    (((∃ e, (DeleteGame clubRunning 2).1 = .error e)
      ↔ ({ firstGame with ID := 2, Player2ID := some 103 } : TrainingGame).Status = "playing" ∨
        ({ firstGame with ID := 2, Player2ID := some 103 } : TrainingGame).Status
          = "completed") ∧
    (({ firstGame with ID := 2, Player2ID := some 103 } : TrainingGame).Status = "playing" ∨
        ({ firstGame with ID := 2, Player2ID := some 103 } : TrainingGame).Status
          = "completed" →
      DeleteGame clubRunning 2 = (.error .cannotDeleteGame, clubRunning) ∧
      ServiceError.cannotDeleteGame.kind = some ErrorKind.Conflict ∧
      ServiceError.cannotDeleteGame.Error
        = "cannot delete game that is in progress or completed") ∧
    (¬ (({ firstGame with ID := 2, Player2ID := some 103 } : TrainingGame).Status = "playing" ∨
        ({ firstGame with ID := 2, Player2ID := some 103 } : TrainingGame).Status
          = "completed") →
      DeleteGame clubRunning 2
        = (.ok (),
           { clubRunning with
             trainingGames := clubRunning.trainingGames.filter (fun g => g.ID != 2) }) ∧
      (DeleteGame clubRunning 2).2.firstTrainingGame 2 = none ∧
      ((clubRunning.trainingGames.map (fun g => g.ID)).Nodup →
        (DeleteGame clubRunning 2).2.trainingGames
          = clubRunning.trainingGames.erase
              { firstGame with ID := 2, Player2ID := some 103 }))) :=
  ⟨by rfl,
    DeleteGame_spec clubRunning 2 { firstGame with ID := 2, Player2ID := some 103 } (by rfl)⟩

/-- The completed first game cannot be deleted; deleting the pending second game leaves the
games 1 and 3. -/
theorem DeleteGame_examples :
    DeleteGame clubPlayed 1 = (.error .cannotDeleteGame, clubPlayed) ∧
    (DeleteGame clubPlayed 2).1 = .ok () ∧
    (DeleteGame clubPlayed 2).2.trainingGames.map (fun g => g.ID) = [1, 3] :=
  ⟨by rfl, by rfl, by rfl⟩

/-- C22: given an existing session, an existing game mode and referenced players that exist,
`CreateGame` succeeds exactly when the session status is `active` and each of the two slots
is supplied (a player reference or a guest name). When the status is not `active` it fails with
the `InvalidState` error, whatever the slots hold; when the status is `active` and a slot has
neither it fails with the `InvalidInput` error "exactly two players are required for each
game"; on both failures the store is unchanged. On success one row is appended to the games
table and returned: status `pending`, scores 0 and 0, no winner, no completion time, the session
and the game mode of the call and the four participant fields as supplied. -/
theorem CreateGame_spec (db : DB) (sid gm : UUID) (p1 p2 : Option UUID) (n1 n2 : Option String)
    (session : TrainingSession) (mode : GameMode)
    (hs : db.firstTrainingSession sid = some session)
    (hm : db.firstGameMode gm = some mode)
    (h1 : db.knowsPlayer p1) (h2 : db.knowsPlayer p2) :
    ((∃ g, (CreateGame db sid gm p1 p2 n1 n2).1 = .ok g)
      ↔ session.Status = "active" ∧ slotSupplied p1 n1 ∧ slotSupplied p2 n2) ∧
    (session.Status ≠ "active" →
      CreateGame db sid gm p1 p2 n1 n2 = (.error .sessionNotActiveForGame, db) ∧
      ServiceError.sessionNotActiveForGame.kind = some ErrorKind.InvalidState) ∧
    (session.Status = "active" → ¬ (slotSupplied p1 n1 ∧ slotSupplied p2 n2) →
      CreateGame db sid gm p1 p2 n1 n2 = (.error .exactlyTwoPlayers, db) ∧
      ServiceError.exactlyTwoPlayers.kind = some ErrorKind.InvalidInput ∧
      ServiceError.exactlyTwoPlayers.Error = "exactly two players are required for each game") ∧
    (session.Status = "active" → slotSupplied p1 n1 ∧ slotSupplied p2 n2 →
      ∃ g, CreateGame db sid gm p1 p2 n1 n2
          = (.ok g, { db with trainingGames := db.trainingGames ++ [g] }) ∧
        (∀ old ∈ db.trainingGames, old.ID ≠ g.ID) ∧
        g = { ID := g.ID
              TrainingSessionID := sid
              GameModeID := gm
              Player1ID := p1
              Player2ID := p2
              Guest1Name := n1
              Guest2Name := n2
              Player1Score := 0
              Player2Score := 0
              Status := "pending"
              Winner := none
              CompletedAt := none }) := by
  have hact := CreateGame_active db sid gm p1 p2 n1 n2 session mode hs
  have e1 := knowsPlayer_isNone h1
  have e2 := knowsPlayer_isNone h2
  have hbad : ∀ hst : session.Status = "active", ¬ (slotSupplied p1 n1 ∧ slotSupplied p2 n2) →
      CreateGame db sid gm p1 p2 n1 n2 = (.error .exactlyTwoPlayers, db) := by
    intro hst hno
    rw [hact hst hm e1 e2]
    exact if_neg hno
  have hgood : ∀ hst : session.Status = "active", slotSupplied p1 n1 ∧ slotSupplied p2 n2 →
      CreateGame db sid gm p1 p2 n1 n2
        = (.ok (createdGame db sid gm p1 p2 n1 n2),
           { db with
             trainingGames := db.trainingGames ++ [createdGame db sid gm p1 p2 n1 n2] }) := by
    intro hst hyes
    rw [hact hst hm e1 e2]
    exact if_pos hyes
  refine ⟨?_, ?_, ?_, ?_⟩
  · constructor
    · rintro ⟨g, hg⟩
      obtain ⟨s, _, hs', hst, _⟩ := CreateGame_ok_inv db sid gm p1 p2 n1 n2 g hg
      rw [hs] at hs'
      cases hs'
      have hok := CreateGame_ok db sid gm p1 p2 n1 n2 g hg
      exact ⟨hst, hok.2.1, hok.2.2.1⟩
    · rintro ⟨hst, hyes⟩
      rw [hgood hst hyes]
      exact ⟨_, rfl⟩
  · intro hst
    exact ⟨CreateGame_inactive db sid gm p1 p2 n1 n2 session hs hst, rfl⟩
  · intro hst hno
    exact ⟨hbad hst hno, rfl, rfl⟩
  · intro hst hyes
    refine ⟨createdGame db sid gm p1 p2 n1 n2, hgood hst hyes, ?_, rfl⟩
    intro old hold
    exact Nat.ne_of_lt (lt_freshID (List.mem_map_of_mem (fun g : TrainingGame => g.ID) hold))

theorem CreateGame_spec_witness :
    clubStarted.firstTrainingSession 1 = some { clubRow with Status := "active" } ∧
    clubStarted.firstGameMode 7 = some { ID := 7, Name := "501 Double Out", IsActive := true } ∧
    clubStarted.knowsPlayer (some 101) ∧ clubStarted.knowsPlayer none ∧
    (((∃ g, (CreateGame clubStarted 1 7 (some 101) none none (some "Dana")).1 = .ok g)
      ↔ ({ clubRow with Status := "active" } : TrainingSession).Status = "active" ∧
        slotSupplied (some 101) none ∧ slotSupplied none (some "Dana")) ∧
    (({ clubRow with Status := "active" } : TrainingSession).Status ≠ "active" →
      CreateGame clubStarted 1 7 (some 101) none none (some "Dana")
        = (.error .sessionNotActiveForGame, clubStarted) ∧
      ServiceError.sessionNotActiveForGame.kind = some ErrorKind.InvalidState) ∧
    (({ clubRow with Status := "active" } : TrainingSession).Status = "active" →
      ¬ (slotSupplied (some 101) none ∧ slotSupplied none (some "Dana")) →
      CreateGame clubStarted 1 7 (some 101) none none (some "Dana")
        = (.error .exactlyTwoPlayers, clubStarted) ∧
      ServiceError.exactlyTwoPlayers.kind = some ErrorKind.InvalidInput ∧
      ServiceError.exactlyTwoPlayers.Error = "exactly two players are required for each game") ∧
    (({ clubRow with Status := "active" } : TrainingSession).Status = "active" →
      slotSupplied (some 101) none ∧ slotSupplied none (some "Dana") →
      ∃ g, CreateGame clubStarted 1 7 (some 101) none none (some "Dana")
          = (.ok g, { clubStarted with trainingGames := clubStarted.trainingGames ++ [g] }) ∧
        (∀ old ∈ clubStarted.trainingGames, old.ID ≠ g.ID) ∧
        g = { ID := g.ID
              TrainingSessionID := 1
              GameModeID := 7
              Player1ID := some 101
              Player2ID := none
              Guest1Name := none
              Guest2Name := some "Dana"
              Player1Score := 0
              Player2Score := 0
              Status := "pending"
              Winner := none
              CompletedAt := none })) :=
  ⟨by rfl, by rfl, fun _ hp => ⟨{ ID := 101, Name := "Ann" }, (by cases hp; rfl)⟩,
    fun _ hp => (by cases hp),
    CreateGame_spec clubStarted 1 7 (some 101) none none (some "Dana")
      { clubRow with Status := "active" } { ID := 7, Name := "501 Double Out", IsActive := true }
      (by rfl) (by rfl) (fun _ hp => ⟨{ ID := 101, Name := "Ann" }, (by cases hp; rfl)⟩)
      (fun _ hp => (by cases hp))⟩

/-- Calls of `CreateGame` on the started club session: Ann against the guest Dana is created
as game 1; a call on the planned session, a call with an empty second slot and a call that
references the unknown player 999 are rejected. -/
theorem CreateGame_examples :
    (CreateGame clubStarted 1 7 (some 101) none none (some "Dana")).1.toOption.map
        (fun g => (g.ID, g.participant1, g.participant2, g.Status))
      = some (1, (some 101, none), (none, some "Dana"), "pending") ∧
    CreateGame clubCreated 1 7 (some 101) (some 102) none none
      = (.error .sessionNotActiveForGame, clubCreated) ∧
    CreateGame clubStarted 1 7 (some 101) none none none
      = (.error .exactlyTwoPlayers, clubStarted) ∧
    CreateGame clubStarted 1 7 (some 999) (some 102) none none
      = (.error .player1NotFound, clubStarted) :=
  ⟨by rfl, by rfl, by rfl, by rfl⟩

/-- C23, as the code has it: a successful `CreateGame` stores the four participant fields
exactly as the call supplied them. Each slot of the created game therefore holds a player
reference or a guest name (never neither), and it holds exactly one of them exactly when the
call supplied exactly one for that slot. -/
theorem CreateGame_slots (db : DB) (sid gm : UUID) (p1 p2 : Option UUID) (n1 n2 : Option String)
    (g : TrainingGame) (h : (CreateGame db sid gm p1 p2 n1 n2).1 = .ok g) :
    g.Player1ID = p1 ∧ g.Guest1Name = n1 ∧ g.Player2ID = p2 ∧ g.Guest2Name = n2 ∧
    slotSupplied g.Player1ID g.Guest1Name ∧ slotSupplied g.Player2ID g.Guest2Name ∧
    (slotExactlyOne g.Player1ID g.Guest1Name ↔ slotExactlyOne p1 n1) ∧
    (slotExactlyOne g.Player2ID g.Guest2Name ↔ slotExactlyOne p2 n2) := by
  obtain ⟨hg, hs1, hs2, _⟩ := CreateGame_ok db sid gm p1 p2 n1 n2 g h
  subst hg
  exact ⟨rfl, rfl, rfl, rfl, hs1, hs2, Iff.rfl, Iff.rfl⟩

theorem CreateGame_slots_witness :
    (CreateGame clubStarted 1 7 (some 101) none none (some "Dana")).1
      = .ok (createdGame clubStarted 1 7 (some 101) none none (some "Dana")) ∧
    ((createdGame clubStarted 1 7 (some 101) none none (some "Dana")).Player1ID = some 101 ∧
    (createdGame clubStarted 1 7 (some 101) none none (some "Dana")).Guest1Name = none ∧
    (createdGame clubStarted 1 7 (some 101) none none (some "Dana")).Player2ID = none ∧
    (createdGame clubStarted 1 7 (some 101) none none (some "Dana")).Guest2Name = some "Dana" ∧
    slotSupplied (createdGame clubStarted 1 7 (some 101) none none (some "Dana")).Player1ID
      (createdGame clubStarted 1 7 (some 101) none none (some "Dana")).Guest1Name ∧
    slotSupplied (createdGame clubStarted 1 7 (some 101) none none (some "Dana")).Player2ID
      (createdGame clubStarted 1 7 (some 101) none none (some "Dana")).Guest2Name ∧
    (slotExactlyOne (createdGame clubStarted 1 7 (some 101) none none (some "Dana")).Player1ID
        (createdGame clubStarted 1 7 (some 101) none none (some "Dana")).Guest1Name
      ↔ slotExactlyOne (some 101) none) ∧
    (slotExactlyOne (createdGame clubStarted 1 7 (some 101) none none (some "Dana")).Player2ID
        (createdGame clubStarted 1 7 (some 101) none none (some "Dana")).Guest2Name
      ↔ slotExactlyOne none (some "Dana"))) :=
  ⟨by rfl,
    CreateGame_slots clubStarted 1 7 (some 101) none none (some "Dana")
      (createdGame clubStarted 1 7 (some 101) none none (some "Dana")) (by rfl)⟩

/-- C23, counterexample: on the started club session the call that supplies the player 101
and the guest name Dana for slot 1 (and the player 102 for slot 2) succeeds, and the created
game has both the player reference and the guest name of slot 1 set. -/
theorem CreateGame_stores_both :
    ∃ g, (CreateGame clubStarted 1 7 (some 101) (some 102) (some "Dana") none).1 = .ok g ∧
      g.Player1ID = some 101 ∧ g.Guest1Name = some "Dana" ∧
      ¬ slotExactlyOne g.Player1ID g.Guest1Name ∧
      (CreateGame clubStarted 1 7 (some 101) (some 102) (some "Dana") none).2.firstTrainingGame
        g.ID = some g :=
  ⟨createdGame clubStarted 1 7 (some 101) (some 102) (some "Dana") none, by rfl, rfl, rfl,
    by simp [slotExactlyOne, createdGame], by rfl⟩

/-- C30, the code at the failing inputs: the session handler answers 500 for the status
`paused` on the planned club session, and the game handler answers 500 for the match status
`paused` and for the winner `nobody` on the first game of the running club session. The
services return the texts "invalid status: paused" and "invalid winner: nobody", which are not
the texts "invalid status" and "invalid winner" the handlers compare with. The stores are
unchanged, and a valid value is answered with 200. -/
theorem handlers_answer_500 :
    (UpdateTrainingSession clubCreated 1 (statusOnly "paused")).1.toOption = none ∧
    ServiceError.Error (.invalidStatus "paused") = "invalid status: paused" ∧
    TrainingHandler.UpdateTrainingSession clubCreated 1 (statusOnly "paused")
      = (500, clubCreated) ∧
    GameHandler.UpdateGame clubRunning 40 1 none none (some "paused") none
      = (500, clubRunning) ∧
    ServiceError.Error (.invalidWinner "nobody") = "invalid winner: nobody" ∧
    GameHandler.UpdateGame clubRunning 40 1 none none none (some "nobody")
      = (500, clubRunning) ∧
    (TrainingHandler.UpdateTrainingSession clubCreated 1 (statusOnly "active")).1 = 200 ∧
    (GameHandler.UpdateGame clubRunning 40 1 none none (some "playing") none).1 = 200 :=
  ⟨by rfl, by decide, by rfl, by rfl, by decide, by rfl, by rfl, by rfl⟩

/-- C27 (amended): for a planned session with `n ≥ 2` attending roster entries and a game mode
id that names a game mode, `GenerateGamesForTraining` called twice in a row succeeds both times.
Each call returns one complete set for the attending entries: one game per index pair `(i, j)`,
`i < j < n`, in lexicographic order, with the participant of `a_i` in slot 1 and of `a_j` in
slot 2, pending, `n * (n - 1) / 2` games.  The second call appends its set behind the first:
the games table ends as the old table, then the first set, then the second set, and so does
the list of the session's games.  The second set repeats the first game by game up to the keys,
takes new keys, and leaves the earlier rows in place; when the participants of the attending
entries are pairwise distinct, the pair of every two attending entries occurs exactly twice
among the games of the two calls. -/
theorem GenerateGamesForTraining_twice (db : DB) (sid gm : UUID) (row : TrainingSession)
    (mode : GameMode)
    (hrow : db.firstTrainingSession sid = some row) (hst : row.Status = "planned")
    (hn : 2 ≤ (db.attending sid).length) (hm : db.firstGameMode gm = some mode) :
    ∃ games₁ games₂ : List TrainingGame,
      GenerateGamesForTraining db sid gm
        = (.ok games₁, { db with trainingGames := db.trainingGames ++ games₁ }) ∧
      GenerateGamesForTraining (GenerateGamesForTraining db sid gm).2 sid gm
        = (.ok games₂, { db with trainingGames := db.trainingGames ++ games₁ ++ games₂ }) ∧
      completeSet (db.attending sid) sid gm games₁ ∧
      completeSet (db.attending sid) sid gm games₂ ∧
      games₁.length = (db.attending sid).length * ((db.attending sid).length - 1) / 2 ∧
      games₂.length = (db.attending sid).length * ((db.attending sid).length - 1) / 2 ∧
      DB.gamesOf { db with trainingGames := db.trainingGames ++ games₁ ++ games₂ } sid
        = DB.gamesOf { db with trainingGames := db.trainingGames ++ games₁ } sid ++ games₂ ∧
      DB.gamesOf { db with trainingGames := db.trainingGames ++ games₁ } sid
        = db.gamesOf sid ++ games₁ ∧
      games₂.map TrainingGame.content = games₁.map TrainingGame.content ∧
      games₂.map TrainingGame.pairing = games₁.map TrainingGame.pairing ∧
      (∀ g ∈ games₂, ∀ old ∈ db.trainingGames ++ games₁, old.ID ≠ g.ID) ∧
      (((db.attending sid).map TrainingPlayer.participant).Nodup →
        ∀ a ∈ db.attending sid, ∀ b ∈ db.attending sid, a.participant ≠ b.participant →
          ((games₁ ++ games₂).map TrainingGame.pairing).count s(a.participant, b.participant)
            = 2) := by
  obtain ⟨games₁, hres₁, hall₁⟩ := generate_spec db sid gm row mode hrow hst hn hm
  have hrow₂ : DB.firstTrainingSession { db with trainingGames := db.trainingGames ++ games₁ } sid
      = some row := hrow
  have hn₂ : 2 ≤ (DB.attending { db with trainingGames := db.trainingGames ++ games₁ } sid).length :=
    hn
  have hm₂ : DB.firstGameMode { db with trainingGames := db.trainingGames ++ games₁ } gm
      = some mode := hm
  obtain ⟨games₂, hres₂, hall₂⟩ :=
    generate_spec { db with trainingGames := db.trainingGames ++ games₁ } sid gm row mode hrow₂
      hst hn₂ hm₂
  have hall₂' : List.Forall₂
      (fun g p => ∃ a b, (db.attending sid)[p.1]? = some a ∧ (db.attending sid)[p.2]? = some b ∧
        g = { newGame sid gm a b with ID := g.ID })
      games₂ (indexPairs (db.attending sid).length) := hall₂
  have hsid : ∀ games : List TrainingGame,
      List.Forall₂
        (fun g p => ∃ a b, (db.attending sid)[p.1]? = some a ∧
          (db.attending sid)[p.2]? = some b ∧ g = { newGame sid gm a b with ID := g.ID })
        games (indexPairs (db.attending sid).length) →
      games.filter (fun g => g.TrainingSessionID == sid) = games := by
    intro games hall
    rw [List.filter_eq_self]
    intro g hg
    have hg' : g.TrainingSessionID = sid := by
      refine forall₂_left (P := fun g => g.TrainingSessionID = sid) hall ?_ g hg
      rintro g p ⟨a, b, _, _, e⟩
      rw [e]
      rfl
    simp [hg']
  obtain ⟨created, hcreated, hkeys⟩ :=
    generate_keys { db with trainingGames := db.trainingGames ++ games₁ } sid gm
  rw [hres₂] at hcreated
  have hsame : games₂ = created := List.append_cancel_left hcreated
  have hsecond : GenerateGamesForTraining (GenerateGamesForTraining db sid gm).2 sid gm
      = (.ok games₂, { db with trainingGames := db.trainingGames ++ games₁ ++ games₂ }) := by
    rw [hres₁]
    exact hres₂
  have hlen₁ : games₁.length
      = (db.attending sid).length * ((db.attending sid).length - 1) / 2 := by
    rw [hall₁.length_eq, length_indexPairs]
  have hlen₂ : games₂.length
      = (db.attending sid).length * ((db.attending sid).length - 1) / 2 := by
    rw [hall₂'.length_eq, length_indexPairs]
  have hfresh : ∀ g ∈ games₂, ∀ old ∈ db.trainingGames ++ games₁, old.ID ≠ g.ID := by
    intro g hg old hold
    rw [hsame] at hg
    exact Nat.ne_of_lt (hkeys g hg old hold)
  have htwice : ((db.attending sid).map TrainingPlayer.participant).Nodup →
      ∀ a ∈ db.attending sid, ∀ b ∈ db.attending sid, a.participant ≠ b.participant →
        ((games₁ ++ games₂).map TrainingGame.pairing).count s(a.participant, b.participant)
          = 2 := by
    intro hdistinct a ha b hb hab
    have h₁ := (round_robin_of_forall₂ _ sid gm games₁ hall₁ hdistinct).2 a ha b hb hab
    have h₂ := (round_robin_of_forall₂ _ sid gm games₂ hall₂' hdistinct).2 a ha b hb hab
    rw [List.map_append, List.count_append, h₁, h₂]
  refine ⟨games₁, games₂, hres₁, hsecond,
    completeSet_of_forall₂ _ sid gm games₁ hall₁, completeSet_of_forall₂ _ sid gm games₂ hall₂',
    hlen₁, hlen₂, ?_, ?_,
    generated_content_eq sid gm (db.attending sid) hall₁ hall₂', ?_, hfresh, htwice⟩
  · simp only [DB.gamesOf]
    rw [List.filter_append (db.trainingGames ++ games₁) games₂, hsid games₂ hall₂']
  · simp only [DB.gamesOf]
    rw [List.filter_append, hsid games₁ hall₁]
  · rw [pairings_eq sid gm (db.attending sid) games₂ _ hall₂',
      pairings_eq sid gm (db.attending sid) games₁ _ hall₁]

theorem GenerateGamesForTraining_twice_witness :
    clubCreated.firstTrainingSession 1 = some clubRow ∧ clubRow.Status = "planned" ∧
    2 ≤ (clubCreated.attending 1).length ∧
    clubCreated.firstGameMode 7 = some ⟨7, "501 Double Out", true⟩ ∧
    ∃ games₁ games₂ : List TrainingGame,
      GenerateGamesForTraining clubCreated 1 7
        = (.ok games₁,
           { clubCreated with trainingGames := clubCreated.trainingGames ++ games₁ }) ∧
      GenerateGamesForTraining (GenerateGamesForTraining clubCreated 1 7).2 1 7
        = (.ok games₂,
           { clubCreated with
             trainingGames := clubCreated.trainingGames ++ games₁ ++ games₂ }) ∧
      completeSet (clubCreated.attending 1) 1 7 games₁ ∧
      completeSet (clubCreated.attending 1) 1 7 games₂ ∧
      games₁.length
        = (clubCreated.attending 1).length * ((clubCreated.attending 1).length - 1) / 2 ∧
      games₂.length
        = (clubCreated.attending 1).length * ((clubCreated.attending 1).length - 1) / 2 ∧
      DB.gamesOf
          { clubCreated with trainingGames := clubCreated.trainingGames ++ games₁ ++ games₂ } 1
        = DB.gamesOf
            { clubCreated with trainingGames := clubCreated.trainingGames ++ games₁ } 1
          ++ games₂ ∧
      DB.gamesOf { clubCreated with trainingGames := clubCreated.trainingGames ++ games₁ } 1
        = clubCreated.gamesOf 1 ++ games₁ ∧
      games₂.map TrainingGame.content = games₁.map TrainingGame.content ∧
      games₂.map TrainingGame.pairing = games₁.map TrainingGame.pairing ∧
      (∀ g ∈ games₂, ∀ old ∈ clubCreated.trainingGames ++ games₁, old.ID ≠ g.ID) ∧
      (((clubCreated.attending 1).map TrainingPlayer.participant).Nodup →
        ∀ a ∈ clubCreated.attending 1, ∀ b ∈ clubCreated.attending 1,
          a.participant ≠ b.participant →
          ((games₁ ++ games₂).map TrainingGame.pairing).count s(a.participant, b.participant)
            = 2) :=
  ⟨by rfl, by rfl, by decide, by rfl,
    GenerateGamesForTraining_twice clubCreated 1 7 clubRow ⟨7, "501 Double Out", true⟩ (by rfl)
      (by rfl) (by decide) (by rfl)⟩

/-- C27, counterexample: the planned mixed session (Ann, Ben, Cleo and the guest Dana) with the
game mode id 0, which names no game mode.  Neither call succeeds and no set of matches is
appended: each call returns the wrapped store error and leaves the store as it was. -/
theorem GenerateGamesForTraining_twice_unknown_mode :
    storedStatus mixedRoster 1 = some "planned" ∧ (mixedRoster.attending 1).length = 4 ∧
    mixedRoster.firstGameMode 0 = none ∧
    GenerateGamesForTraining mixedRoster 1 0
      = (.error (.wrapped "failed to create game" "foreign key violation"), mixedRoster) ∧
    GenerateGamesForTraining (GenerateGamesForTraining mixedRoster 1 0).2 1 0
      = (.error (.wrapped "failed to create game" "foreign key violation"), mixedRoster) ∧
    mixedRoster.gamesOf 1 = [] :=
  ⟨by rfl, by decide, by rfl, by rfl, by rfl, by rfl⟩

/-- The club session after two generation calls in a row: six games, the pairs Ann-Ben,
Ann-Cleo, Ben-Cleo and then the same three pairs again under the keys 4, 5 and 6. -/
theorem GenerateGamesForTraining_twice_example :
    (GenerateGamesForTraining clubGenerated 1 7).1.toOption.map
        (fun games => games.map (fun g => (g.ID, g.Player1ID, g.Player2ID)))
      = some [(4, some 101, some 102), (5, some 101, some 103), (6, some 102, some 103)] ∧
    ((GenerateGamesForTraining clubGenerated 1 7).2.gamesOf 1).map
        (fun g => (g.ID, g.Player1ID, g.Player2ID))
      = [(1, some 101, some 102), (2, some 101, some 103), (3, some 102, some 103),
         (4, some 101, some 102), (5, some 101, some 103), (6, some 102, some 103)] :=
  ⟨by rfl, by rfl⟩

/-- C29: every match reachable from one returned by a successful `CreateGame` or
`GenerateGamesForTraining` through successful `UpdateGame` calls has a status among `pending`,
`playing`, `completed`, `cancelled`, has a winner that is unset or one of `player1`, `player2`,
`draw`, and, when its status is `completed`, has its completion time set and its winner set
(hence one of the three). -/
theorem reachable_game_invariant (g : TrainingGame) (h : Reachable g) : GameInvariant g := by
  induction h with
  | created db sid gm p1 p2 n1 n2 g hok =>
    obtain ⟨hg, _⟩ := CreateGame_ok db sid gm p1 p2 n1 n2 g hok
    subst hg
    exact ⟨Or.inl rfl, fun w hw => (by cases hw),
      fun hc => absurd (show "pending" = "completed" from hc) (by decide)⟩
  | generated db sid gm games g hok hg =>
    obtain ⟨h1, h2, _⟩ := generated_pending db sid gm games hok g hg
    refine ⟨Or.inl h1, fun w hw => ?_, fun hc => ?_⟩
    · rw [h2] at hw
      cases hw
    · rw [h1] at hc
      exact absurd hc (by decide)
  | updated db now id p1 p2 status winner row g _ hrow hok ih =>
    have hv := (UpdateGame_ok_iff db now id row p1 p2 status winner hrow).1 ⟨g, hok⟩
    obtain ⟨hg, _⟩ := UpdateGame_ok db now id row p1 p2 status winner g hrow hok
    rw [hg]
    exact updatedGame_invariant now row p1 p2 status winner hv ih

theorem reachable_game_invariant_witness :
    Reachable playedGame ∧ GameInvariant playedGame :=
  ⟨Reachable.updated clubRunning 40 1 (some 3) (some 1) (some "completed") none firstGame
      playedGame
      (Reachable.generated clubCreated 1 7 clubGames firstGame (by rfl)
        (List.mem_cons_self _ _))
      (by rfl) (by rfl),
    reachable_game_invariant playedGame
      (Reachable.updated clubRunning 40 1 (some 3) (some 1) (some "completed") none firstGame
        playedGame
        (Reachable.generated clubCreated 1 7 clubGames firstGame (by rfl)
          (List.mem_cons_self _ _))
        (by rfl) (by rfl))⟩

/-- What every returned response reports (the intended behaviour of C24 wherever the code
returns): for a session whose attending guest entries carry no player reference, every response
`GetTrainingCosts` returns lists, attending entry by attending entry, `GamesPlayed` equal to the
number of the session's matches whose status is `playing` or `completed` and in which the
attendee occupies slot 1 or 2 (by player reference for a regular attendee, by guest name for a
guest), and `TotalCost` equal to 0 when that number is 0 and to the session's rate otherwise;
when all matches of the session are pending or cancelled every entry has 0 games and cost 0.
A response is returned whenever the counting matches have the fields the attendees are
compared with. -/
theorem GetTrainingCosts_per_attendee (db : DB) (id : UUID) (row : TrainingSession)
    (hrow : db.firstTrainingSession id = some row) (hwf : db.rosterWellFormed id) :
    (db.costsComparable id → ∃ resp, GetTrainingCosts db id = some (.ok resp)) ∧
    ∀ resp, GetTrainingCosts db id = some (.ok resp) →
      List.Forall₂
        (fun pc tp =>
          pc.GamesPlayed = tp.qualifying (db.gamesOf id) ∧
          pc.TotalCost = if tp.qualifying (db.gamesOf id) = 0 then 0 else row.CostPerPlayer)
        resp.PlayerCosts (db.attending id) ∧
      ((∀ g ∈ db.gamesOf id, g.Status = "pending" ∨ g.Status = "cancelled") →
        ∀ pc ∈ resp.PlayerCosts, pc.GamesPlayed = 0 ∧ pc.TotalCost = 0) := by
  refine ⟨GetTrainingCosts_defined db id row hrow, ?_⟩
  intro resp hret
  have hall := GetTrainingCosts_counts db id row resp hrow hwf hret
  refine ⟨hall, ?_⟩
  intro hidle
  refine forall₂_left (P := fun pc => pc.GamesPlayed = 0 ∧ pc.TotalCost = 0) hall ?_
  rintro pc tp ⟨h1, h2⟩
  have hq : tp.qualifying (db.gamesOf id) = 0 :=
    qualifying_zero tp _ (fun g hg => not_counts_of_idle g (hidle g hg))
  rw [hq] at h1 h2
  exact ⟨by simpa using h1, by simpa using h2⟩

/-- The played club session: the response is the one with one game and cost 5 for Ann and Ben
and no game and cost 0 for Cleo, and the pending games 2 and 3 count for nobody. -/
theorem GetTrainingCosts_club_example :
    GetTrainingCosts clubPlayed 1 = some (.ok clubCosts) ∧
    clubPlayed.costsComparable 1 ∧ clubPlayed.rosterWellFormed 1 ∧
    (clubPlayed.attending 1).map (fun tp => tp.qualifying (clubPlayed.gamesOf 1)) = [1, 1, 0] ∧
    (clubPlayed.gamesOf 1).map (fun g => (g.ID, g.Status))
      = [(1, "completed"), (2, "pending"), (3, "pending")] := by
  have hsum : F64.add (F64.add (F64.add 0 (.finite 5)) (.finite 5)) (.finite 0) = 10 := by
    decide!
  refine ⟨?_, by decide, by decide, by decide, by decide⟩
  unfold clubCosts
  rw [← hsum]
  rfl

/-- C24, the code at the failing input.  The mixed session is well formed: its attending
entries are the players 101, 102, 103 and the guest Dana, and of its six matches only match 1
(101 against 102) is completed.  The claim promises the games 1, 1, 0, 0 and the costs 5, 5, 0,
0 for the four attendees; the call reports nothing, because for the guest Dana the test
dereferences the absent guest name of slot 1 of match 1. -/
theorem GetTrainingCosts_reports_nothing :
    mixedPlayed.rosterWellFormed 1 ∧
    storedStatus mixedPlayed 1 = some "active" ∧
    (mixedPlayed.attending 1).map
        (fun tp => (tp.participant, tp.qualifying (mixedPlayed.gamesOf 1)))
      = [((some 101, none), 1), ((some 102, none), 1), ((some 103, none), 0),
         ((none, some "Dana"), 0)] ∧
    ((mixedPlayed.gamesOf 1).filter (fun g => g.counts)).map
        (fun g => (g.ID, g.participant1, g.participant2, g.Status))
      = [(1, (some 101, none), (some 102, none), "completed")] ∧
    GetTrainingCosts mixedPlayed 1 = none :=
  ⟨by decide, by rfl, by decide, by decide, by rfl⟩

/-- The float64 nearest to 0.1, what the JSON number `0.1` is decoded to. -/
theorem tenth_is_float64 : F64.round (1 / 10) = .finite tenth ∧ F64.round tenth = .finite tenth :=
  ⟨by decide!, by decide!⟩

/-- The float64 additions of the counterexample to C25, one by one: 0.1 added six times gives
the float64 written `0.6`, which is neither six times the rate nor the float64 product
`0.1 * 6`. -/
theorem tenth_sums :
    F64.add 0 (.finite tenth) = .finite tenth ∧
    F64.add (.finite tenth) (.finite tenth) = .finite (mkRat 3602879701896397 18014398509481984) ∧
    F64.add (.finite (mkRat 3602879701896397 18014398509481984)) (.finite tenth)
      = .finite (mkRat 1351079888211149 4503599627370496) ∧
    F64.add (.finite (mkRat 1351079888211149 4503599627370496)) (.finite tenth)
      = .finite (mkRat 3602879701896397 9007199254740992) ∧
    F64.add (.finite (mkRat 3602879701896397 9007199254740992)) (.finite tenth)
      = .finite (mkRat 1 2) ∧
    F64.add (.finite (mkRat 1 2)) (.finite tenth) = .finite sixTenthsAdded ∧
    F64.round (tenth * 6) = .finite sixTenthsMultiplied :=
  ⟨by decide!, by decide!, by decide!, by decide!, by decide!, by decide!, by decide!⟩

/-- C25, counterexample: a session at the rate 0.1 (the float64 nearest to 0.1) whose six
attending players each play in one of the three matches that were started.  Every entry costs
0.1 and the response is returned, but the total collected is the float64 `0.6`
(5404319552844595 / 2^53), which is not six times the rate, neither as a number nor as the
float64 product `0.1 * 6` (5404319552844596 / 2^53). -/
theorem GetTrainingCosts_total_rounds :
    (tenthPlayed.attending 1).map (fun tp => tp.qualifying (tenthPlayed.gamesOf 1))
      = [1, 1, 1, 1, 1, 1] ∧
    (GetTrainingCosts tenthPlayed 1).map
        (fun r => r.toOption.map
          (fun c => (c.PlayerCosts.map (fun pc => (pc.TotalCost, pc.GamesPlayed)),
            c.TotalCollected)))
      = some (some ([(tenth, 1), (tenth, 1), (tenth, 1), (tenth, 1), (tenth, 1), (tenth, 1)],
          .finite sixTenthsAdded)) ∧
    tenth * 6 ≠ sixTenthsAdded ∧
    F64.round (tenth * 6) = .finite sixTenthsMultiplied ∧
    sixTenthsMultiplied ≠ sixTenthsAdded := by
  refine ⟨by decide, ?_, by decide!, by decide!, by decide!⟩
  have hcosts : GetTrainingCosts tenthPlayed 1
      = some (.ok
          { TrainingSessionID := 1
            PlayerCosts := tenthEntries
            TotalCollected :=
              F64.add (F64.add (F64.add (F64.add (F64.add (F64.add 0 (.finite tenth))
                (.finite tenth)) (.finite tenth)) (.finite tenth)) (.finite tenth))
                (.finite tenth) }) := by
    rfl
  obtain ⟨h1, h2, h3, h4, h5, h6, _⟩ := tenth_sums
  rw [hcosts, h1, h2, h3, h4, h5, h6]
  rfl

/-- C25 (amended): for a session whose attending guest entries carry no player reference, in
every response `GetTrainingCosts` returns the total collected is the float64 sum of the
`TotalCost` of the returned entries, added one by one in list order starting from 0.  It is the
session's rate times the number of paying attendees (the attending entries that occupy a slot
of at least one playing or completed match) whenever every multiple of the rate up to that
number is a float64 value, and it is 0 when the session has no playing or completed match.
A response is returned whenever the counting matches have the fields the attendees are
compared with. -/
theorem GetTrainingCosts_total (db : DB) (id : UUID) (row : TrainingSession)
    (hrow : db.firstTrainingSession id = some row) (hwf : db.rosterWellFormed id) :
    (db.costsComparable id → ∃ resp, GetTrainingCosts db id = some (.ok resp)) ∧
    ∀ resp, GetTrainingCosts db id = some (.ok resp) →
      resp.TotalCollected = F64.sumFrom 0 (resp.PlayerCosts.map (fun pc => pc.TotalCost)) ∧
      ((∀ k : Nat, k ≤ db.paying id →
          F64.round (row.CostPerPlayer * k) = .finite (row.CostPerPlayer * k)) →
        resp.TotalCollected = .finite (row.CostPerPlayer * db.paying id)) ∧
      ((∀ g ∈ db.gamesOf id, g.counts = false) → resp.TotalCollected = 0) := by
  refine ⟨GetTrainingCosts_defined db id row hrow, ?_⟩
  intro resp hret
  obtain ⟨_, hsum, _⟩ := GetTrainingCosts_ok db id row resp hrow hret
  have hall := GetTrainingCosts_counts db id row resp hrow hwf hret
  have hstart : (0 : F64) = .finite (row.CostPerPlayer * ((0 : Nat) : ℚ)) := by
    rw [Nat.cast_zero, mul_zero]
    rfl
  refine ⟨hsum, ?_, ?_⟩
  · intro hexact
    have hprod := sumFrom_exact row.CostPerPlayer (fun tp => tp.qualifying (db.gamesOf id))
      (hall.imp (fun _ _ h => h.2)) 0 (by rw [Nat.zero_add]; exact hexact)
    rw [hsum, hstart, hprod, Nat.zero_add]
    rfl
  · intro hidle
    rw [hsum]
    apply sumFrom_zero
    intro c hc
    obtain ⟨pc, hpc, rfl⟩ := List.mem_map.1 hc
    have hzero := forall₂_left (P := fun pc => pc.TotalCost = 0) hall
      (fun pc tp h => by
        have hq := qualifying_zero tp _ hidle
        show pc.TotalCost = 0
        rw [h.2, hq]
        rfl)
    exact hzero pc hpc

theorem GetTrainingCosts_total_witness :
    clubPlayed.firstTrainingSession 1 = some { clubRow with Status := "active" } ∧
    clubPlayed.rosterWellFormed 1 ∧
    ((clubPlayed.costsComparable 1 → ∃ resp, GetTrainingCosts clubPlayed 1 = some (.ok resp)) ∧
    ∀ resp, GetTrainingCosts clubPlayed 1 = some (.ok resp) →
      resp.TotalCollected = F64.sumFrom 0 (resp.PlayerCosts.map (fun pc => pc.TotalCost)) ∧
      ((∀ k : Nat, k ≤ clubPlayed.paying 1 →
          F64.round (({ clubRow with Status := "active" } : TrainingSession).CostPerPlayer * k)
            = .finite (({ clubRow with Status := "active" } : TrainingSession).CostPerPlayer
                * k)) →
        resp.TotalCollected
          = .finite (({ clubRow with Status := "active" } : TrainingSession).CostPerPlayer
              * clubPlayed.paying 1)) ∧
      ((∀ g ∈ clubPlayed.gamesOf 1, g.counts = false) → resp.TotalCollected = 0)) :=
  ⟨by rfl, by decide,
    GetTrainingCosts_total clubPlayed 1 { clubRow with Status := "active" } (by rfl)
      (by decide)⟩

/-- The totals of the club session: 10 after the first game was completed (two paying
attendees at the rate 5, and the multiples 0, 5 and 10 are float64 values), and 0 while all
games are pending. -/
theorem GetTrainingCosts_total_example :
    (GetTrainingCosts clubPlayed 1).map (fun r => r.toOption.map (fun c => c.TotalCollected))
      = some (some 10) ∧
    clubPlayed.paying 1 = 2 ∧
    F64.round (5 * 0) = .finite (5 * 0) ∧ F64.round (5 * 1) = .finite (5 * 1) ∧
    F64.round (5 * 2) = .finite (5 * 2) ∧
    (GetTrainingCosts clubRunning 1).map (fun r => r.toOption.map (fun c => c.TotalCollected))
      = some (some 0) := by
  have h10 : F64.add (F64.add (F64.add 0 (.finite 5)) (.finite 5)) (.finite 0) = 10 := by
    decide!
  have h0 : F64.add (F64.add (F64.add 0 (.finite 0)) (.finite 0)) (.finite 0) = 0 := by
    decide!
  refine ⟨?_, by decide, by decide!, by decide!, by decide!, ?_⟩
  · rw [← h10]
    rfl
  · rw [← h0]
    rfl

/-- What every returned response lists (the intended behaviour of C26 wherever the code
returns): every response `GetTrainingCosts` returns carries the session id and lists exactly
one entry per roster entry of the session with `Attended = true`, in the order of the roster
(table order), and none for the other roster entries.  The entry of a guest carries the guest
flag and the guest name and no player name; the entry of a regular attendee carries the player
reference and, when the player is known, the player name, and no guest name.  A response is
returned whenever the counting matches have the fields the attendees are compared with. -/
theorem GetTrainingCosts_roster (db : DB) (id : UUID) (row : TrainingSession)
    (hrow : db.firstTrainingSession id = some row) :
    (db.costsComparable id → ∃ resp, GetTrainingCosts db id = some (.ok resp)) ∧
    ∀ resp, GetTrainingCosts db id = some (.ok resp) →
      resp.TrainingSessionID = id ∧
      resp.PlayerCosts.length
        = (db.trainingPlayers.filter
            (fun tp => tp.TrainingSessionID == id && tp.Attended)).length ∧
      List.Forall₂
        (fun pc tp =>
          pc.IsGuest = tp.IsGuest ∧
          (tp.IsGuest = true → pc.GuestName = tp.GuestName ∧ pc.PlayerName = none) ∧
          (tp.IsGuest = false →
            tp.PlayerID = some pc.PlayerID ∧ pc.GuestName = none ∧
            pc.PlayerName = (db.preloadPlayer tp).Player.map (fun p => p.Name)))
        resp.PlayerCosts
        (db.trainingPlayers.filter (fun tp => tp.TrainingSessionID == id && tp.Attended)) := by
  refine ⟨GetTrainingCosts_defined db id row hrow, ?_⟩
  intro resp hret
  obtain ⟨hsid, _, hall⟩ := GetTrainingCosts_ok db id row resp hrow hret
  refine ⟨hsid, hall.length_eq, hall.imp ?_⟩
  intro pc tp hpc
  obtain ⟨_, _, hg, hguest, hreg⟩ := costEntry_eq _ _ _ hpc
  exact ⟨hg, fun h => ⟨(hguest h).1, (hguest h).2.2⟩, hreg⟩

/-- C26, the code at the failing input.  The roster of the mixed session has four rows with
`Attended = true`: three regular entries and the guest Dana, each with exactly one of player
reference and guest name.  After match 3 (101 against the guest Dana) was started, the claim
promises a list of four entries in this order; the call returns no list, because for the
regular attendee 102 the test dereferences the absent player reference of slot 2 of match 3. -/
theorem GetTrainingCosts_lists_nothing :
    (mixedGuestGame.trainingPlayers.filter
        (fun tp => tp.TrainingSessionID == 1 && tp.Attended)).map
        (fun tp => (tp.IsGuest, tp.PlayerID, tp.GuestName))
      = [(false, some 101, none), (false, some 102, none), (false, some 103, none),
         (true, none, some "Dana")] ∧
    storedStatus mixedGuestGame 1 = some "active" ∧
    ((mixedGuestGame.gamesOf 1).filter (fun g => g.counts)).map
        (fun g => (g.ID, g.participant1, g.participant2, g.Status))
      = [(3, (some 101, none), (none, some "Dana"), "playing")] ∧
    (GetTrainingCosts mixedGuestGame 1).isSome = false :=
  ⟨by decide, by rfl, by decide, by rfl⟩

/-- C28, the code at the failing inputs. The mixed session has the regular attendees Ann, Ben
and Cleo and the guest Dana, each roster entry and each match slot holding exactly one of a
player reference and a guest name. While all six matches are pending a response is returned.
After match 1 (Ann against Ben) was completed the call panics: for the guest Dana the test
dereferences the absent guest name of slot 1. After match 3 (Ann against Dana) was started the
call panics as well: for the regular attendee Ben the test dereferences the absent player
reference of slot 2. -/
theorem GetTrainingCosts_panics_on_mixed_session :
    (mixedPlayed.attending 1).map TrainingPlayer.participant
      = [(some 101, none), (some 102, none), (some 103, none), (none, some "Dana")] ∧
    (mixedPlayed.gamesOf 1).map (fun g => (g.ID, g.participant1, g.participant2, g.Status))
      = [(1, (some 101, none), (some 102, none), "completed"),
         (2, (some 101, none), (some 103, none), "pending"),
         (3, (some 101, none), (none, some "Dana"), "pending"),
         (4, (some 102, none), (some 103, none), "pending"),
         (5, (some 102, none), (none, some "Dana"), "pending"),
         (6, (some 103, none), (none, some "Dana"), "pending")] ∧
    (GetTrainingCosts mixedRunning 1).isSome = true ∧
    GetTrainingCosts mixedPlayed 1 = none ∧
    (mixedGuestGame.gamesOf 1).map (fun g => (g.ID, g.participant1, g.participant2, g.Status))
      = [(1, (some 101, none), (some 102, none), "pending"),
         (2, (some 101, none), (some 103, none), "pending"),
         (3, (some 101, none), (none, some "Dana"), "playing"),
         (4, (some 102, none), (some 103, none), "pending"),
         (5, (some 102, none), (none, some "Dana"), "pending"),
         (6, (some 103, none), (none, some "Dana"), "pending")] ∧
    GetTrainingCosts mixedGuestGame 1 = none :=
  ⟨by rfl, by rfl, by rfl, by rfl, by rfl, by rfl⟩

end DartsTraining
